import Mathlib

/-!
Verification development for "The Great Bakra Escape", a single-file raylib
arcade game (`source.cpp`).  The C++ code is shallowly embedded: floats are
modelled as exact rationals, the 2D maze grid as a boolean-valued function on
integer cells, `std::vector` as `List`, and each level's `Update` as a pure
step function on an explicit state record.  All random sources (direction
shuffles, coin rolls, invader fire rolls, pipe gap draws) and all backend
queries (key state, frame time, wall-clock time) are threaded in as explicit
parameters, so every theorem quantifies over them.
-/

namespace Bakra

/-- Rectangle with position and size, mirroring raylib's `Rectangle`
(fields `x`, `y`, `width`, `height`). -/
structure Rect where
  x : ℚ
  y : ℚ
  width : ℚ
  height : ℚ
  deriving DecidableEq, Repr

/-- raylib `CheckCollisionRecs`: strict-overlap test of two rectangles. -/
def checkCollisionRecs (r1 r2 : Rect) : Bool :=
  decide (r1.x < r2.x + r2.width) && decide (r1.x + r1.width > r2.x) &&
  decide (r1.y < r2.y + r2.height) && decide (r1.y + r1.height > r2.y)

/-- raylib `CheckCollisionCircleRec`: circle/rectangle overlap test. -/
def checkCollisionCircleRec (center : ℚ × ℚ) (radius : ℚ) (rec : Rect) : Bool :=
  let recCenterX := rec.x + rec.width / 2
  let recCenterY := rec.y + rec.height / 2
  let dx := |center.1 - recCenterX|
  let dy := |center.2 - recCenterY|
  if dx > rec.width / 2 + radius then false
  else if dy > rec.height / 2 + radius then false
  else if dx ≤ rec.width / 2 then true
  else if dy ≤ rec.height / 2 then true
  else
    let cornerDistanceSq :=
      (dx - rec.width / 2) * (dx - rec.width / 2) +
      (dy - rec.height / 2) * (dy - rec.height / 2)
    decide (cornerDistanceSq ≤ radius * radius)

/-- The `minmax` clamping helper from `source.cpp`. -/
def minmax (value minVal maxVal : ℚ) : ℚ :=
  if value < minVal then minVal
  else if value > maxVal then maxVal
  else value

/-- C-style cast of a float to `int`: truncation toward zero. -/
def ratTrunc (q : ℚ) : ℤ :=
  q.num / (q.den : ℤ)

/-- `GLOBAL_SCREEN_WIDTH`. -/
def GLOBAL_SCREEN_WIDTH : ℚ := 1280

/-- `GLOBAL_SCREEN_HEIGHT`. -/
def GLOBAL_SCREEN_HEIGHT : ℚ := 720

/-! ## Global game state machine (`main`, `enum GameScreen`) -/

/-- The overall game screens (`enum GameScreen`). -/
inductive GameScreen where
  | titleScreenGlobal
  | playingLevel
  | levelTransition
  | gameOverGlobal
  | gameWonGlobal
  deriving DecidableEq, Repr

/-- Observation of a level as the orchestrator sees it in one frame:
its name and instructions (`GetName`/`GetInstructions`), the result of
`IsComplete()` after this frame's `Update`, the result of the
`DidPlayerWinThisLevel()` query, and whether `Unload()` has been called. -/
structure LevelView where
  name : String
  instructions : String
  isComplete : Bool
  didWin : Bool
  unloaded : Bool
  deriving DecidableEq, Repr

/-- State owned by `main`: the current screen, the active level (if any),
the queue of pending levels, and the cached transition-screen strings. -/
structure GlobalState where
  screen : GameScreen
  activeLevel : Option LevelView
  gameLevels : List LevelView
  nextLevelName : String
  nextLevelInstructions : String
  deriving DecidableEq, Repr

/-- The `levelSucceeded` computation in `main`: the three named levels are
downcast and queried for a win; any other level (the maze) counts any
completion as a win. -/
def levelSucceeded (lvl : LevelView) : Bool :=
  if lvl.name = "Space Invaders Level" then lvl.didWin
  else if lvl.name = "Flappy Level" then lvl.didWin
  else if lvl.name = "Obstacle Course Level" then lvl.didWin
  else true

/-- The `PLAYING_LEVEL` branch of the `switch` in `main`, given the active
level as observed after this frame's `Update`. -/
def playingUpdate (st : GlobalState) : GlobalState :=
  match st.activeLevel with
  | none => { st with screen := GameScreen.gameOverGlobal }
  | some lvl =>
    if lvl.isComplete then
      let lvlUnloaded := { lvl with unloaded := true }
      if levelSucceeded lvl then
        match st.gameLevels with
        | front :: _ =>
          { st with
            activeLevel := some lvlUnloaded
            nextLevelName := front.name
            nextLevelInstructions := front.instructions
            screen := GameScreen.levelTransition }
        | [] =>
          { st with activeLevel := none, screen := GameScreen.gameWonGlobal }
      else
        { st with activeLevel := none, screen := GameScreen.gameOverGlobal }
    else
      { st with activeLevel := some lvl }

/-! ## Maze level: dimension computation (`MazeLevel::CalculateMazeDimensions`) -/

/-- `MAZE_BASE_WIDTH_CELLS`. -/
def MAZE_BASE_WIDTH_CELLS : ℤ := 35

/-- `MAZE_BASE_HEIGHT_CELLS`. -/
def MAZE_BASE_HEIGHT_CELLS : ℤ := 21

/-- `MazeLevel::CalculateMazeDimensions`: computes
`(mazeWidthCells, mazeHeightCells, cellSizePixels)` from the viewport. -/
def calculateMazeDimensions (screenWidth screenHeight : ℕ) : ℤ × ℤ × ℚ :=
  let w0 : ℤ := MAZE_BASE_WIDTH_CELLS
  let w0 : ℤ := if w0 % 2 = 0 then w0 + 1 else w0
  let h0 : ℤ := MAZE_BASE_HEIGHT_CELLS
  let h0 : ℤ := if h0 % 2 = 0 then h0 + 1 else h0
  let cellWidthByScreen : ℚ := (screenWidth : ℚ) / (w0 : ℚ)
  let cellHeightByScreen : ℚ := (screenHeight : ℚ) / (h0 : ℚ)
  let cellSizePixels : ℚ := ((min cellWidthByScreen cellHeightByScreen).floor : ℚ)
  let wc : ℤ := ratTrunc ((screenWidth : ℚ) / cellSizePixels)
  let wc : ℤ := if wc % 2 = 0 then wc - 1 else wc
  let wc : ℤ := if wc ≤ 0 then 1 else wc
  let hc : ℤ := ratTrunc ((screenHeight : ℚ) / cellSizePixels)
  let hc : ℤ := if hc % 2 = 0 then hc - 1 else hc
  let hc : ℤ := if hc ≤ 0 then 1 else hc
  let wc : ℤ := if wc < 3 then 3 else wc
  let hc : ℤ := if hc < 3 then 3 else hc
  (wc, hc, cellSizePixels)

/-- A maze cell: (row, column). -/
abbrev Cell : Type := ℤ × ℤ

/-- The maze grid: true = wall, false = carved path. -/
abbrev MazeGrid : Type := Cell → Bool

/-- Write one cell of the grid. -/
def setCell (g : MazeGrid) (p : Cell) (b : Bool) : MazeGrid :=
  fun q => if q = p then b else g q

/-- `InitMazeGrid`: all cells start as walls. -/
def initMazeGrid : MazeGrid := fun _ => true

/-- The `dr` direction array of `RecursiveGenerateMaze`. -/
def dr : Fin 4 → ℤ
  | 0 => -2
  | 1 => 0
  | 2 => 2
  | 3 => 0

/-- The `dc` direction array of `RecursiveGenerateMaze`. -/
def dc : Fin 4 → ℤ
  | 0 => 0
  | 1 => 2
  | 2 => 0
  | 3 => -2

/-- The cell two steps away in direction `d`. -/
def nextCell (rc : Cell) (d : Fin 4) : Cell := (rc.1 + dr d, rc.2 + dc d)

/-- The wall cell between `rc` and `nextCell rc d` (`dr/2`, `dc/2`). -/
def wallCell (rc : Cell) (d : Fin 4) : Cell := (rc.1 + dr d / 2, rc.2 + dc d / 2)

/-- Cell in the grid bounds (`H` rows, `W` columns). -/
def inB (H W : ℤ) (p : Cell) : Prop :=
  0 ≤ p.1 ∧ p.1 < H ∧ 0 ≤ p.2 ∧ p.2 < W

instance (H W : ℤ) (p : Cell) : Decidable (inB H W p) := by
  unfold inB; infer_instance

/-- Number of wall cells inside the bounds (termination measure of the
carving recursion). -/
def wallCount (H W : ℤ) (g : MazeGrid) : ℕ :=
  (((Finset.range H.toNat) ×ˢ (Finset.range W.toNat)).filter
    (fun p => g ((p.1 : ℤ), (p.2 : ℤ)) = true)).card

/-- Setting any cell to path never increases the wall count. -/
theorem wallCount_set_le (H W : ℤ) (g : MazeGrid) (x : Cell) :
    wallCount H W (setCell g x false) ≤ wallCount H W g := by
  unfold wallCount
  apply Finset.card_le_card
  apply Finset.monotone_filter_right
  intro p hp
  simp only [setCell] at hp
  split at hp
  · exact absurd hp (by simp)
  · exact hp

/-- Setting an in-bounds wall cell to path strictly decreases the wall
count. -/
theorem wallCount_set_lt (H W : ℤ) (g : MazeGrid) (x : Cell)
    (hb : inB H W x) (hw : g x = true) :
    wallCount H W (setCell g x false) < wallCount H W g := by
  unfold wallCount
  apply Finset.card_lt_card
  constructor
  · apply Finset.monotone_filter_right
    intro p hp
    simp only [setCell] at hp
    split at hp
    · exact absurd hp (by simp)
    · exact hp
  · intro hsub
    obtain ⟨h1, h2, h3, h4⟩ := hb
    have hx : ((x.1.toNat, x.2.toNat) : ℕ × ℕ) ∈
        ((Finset.range H.toNat) ×ˢ (Finset.range W.toNat)).filter
          (fun p => g ((p.1 : ℤ), (p.2 : ℤ)) = true) := by
      simp only [Finset.mem_filter, Finset.mem_product, Finset.mem_range]
      refine ⟨⟨?_, ?_⟩, ?_⟩
      · omega
      · omega
      · rw [Int.toNat_of_nonneg h1, Int.toNat_of_nonneg h3]
        exact hw
    have hx2 := hsub hx
    simp only [Finset.mem_filter, Finset.mem_product, Finset.mem_range, setCell] at hx2
    rw [Int.toNat_of_nonneg h1, Int.toNat_of_nonneg h3] at hx2
    simp at hx2

/-- The wall slot between a cell and its two-step neighbour is never the
neighbour itself. -/
theorem wallCell_ne_nextCell (rc : Cell) (d : Fin 4) :
    wallCell rc d ≠ nextCell rc d := by
  fin_cases d <;>
    (intro h; rw [Prod.ext_iff] at h; simp only [wallCell, nextCell, dr, dc] at h; omega)

/-- The wall slot keeps the grid value of the two-step neighbour. -/
theorem setCell_wall_next (g : MazeGrid) (rc : Cell) (d : Fin 4) :
    setCell g (wallCell rc d) false (nextCell rc d) = g (nextCell rc d) := by
  unfold setCell
  rw [if_neg]
  intro h
  exact wallCell_ne_nextCell rc d h.symm

/-- The direction loop of `MazeLevel::RecursiveGenerateMaze`, with the
recursive call inlined: for each direction, when the cell two steps away
is in bounds and still a wall, the intervening wall and that cell are
carved and the loop restarts there with a fresh shuffle (index `k`).
The result carries the proof that carving never adds walls. -/
def carveLoop (H W : ℤ) (dirsF : ℕ → List (Fin 4)) :
    (g : MazeGrid) → Cell → List (Fin 4) → ℕ →
    { r : MazeGrid × ℕ // wallCount H W r.1 ≤ wallCount H W g }
  | g, _, [], k => ⟨(g, k), le_refl _⟩
  | g, rc, d :: ds, k =>
    if h : inB H W (nextCell rc d) ∧ g (nextCell rc d) = true then
      let g2 := setCell (setCell g (wallCell rc d) false) (nextCell rc d) false
      have hlt : wallCount H W g2 < wallCount H W g :=
        lt_of_lt_of_le
          (wallCount_set_lt H W (setCell g (wallCell rc d) false) (nextCell rc d) h.1
            ((setCell_wall_next g rc d).trans h.2))
          (wallCount_set_le H W g (wallCell rc d))
      let r1 := carveLoop H W dirsF g2 (nextCell rc d) (dirsF k) (k + 1)
      let r2 := carveLoop H W dirsF r1.val.1 rc ds r1.val.2
      ⟨r2.val, le_trans r2.property (le_trans r1.property (le_of_lt hlt))⟩
    else
      let r := carveLoop H W dirsF g rc ds k
      ⟨r.val, r.property⟩
termination_by g _ ds _ => (wallCount H W g, ds.length)
decreasing_by
  · exact Prod.Lex.left _ _ hlt
  · exact Prod.Lex.left _ _ (lt_of_le_of_lt r1.property hlt)
  · exact Prod.Lex.right _ (Nat.lt_succ_self _)

/-- `MazeLevel::RecursiveGenerateMaze`: carve the entry cell, shuffle the
directions, and run the direction loop. -/
def recursiveGenerateMaze (H W : ℤ) (dirsF : ℕ → List (Fin 4)) (g : MazeGrid)
    (rc : Cell) (k : ℕ) : MazeGrid × ℕ :=
  (carveLoop H W dirsF (setCell g rc false) rc (dirsF k) (k + 1)).val

/-- A cell is carved (path). -/
def carvedCell (g : MazeGrid) (p : Cell) : Prop := g p = false

/-- Both coordinates odd: a room cell of the maze lattice. -/
def oddCell (p : Cell) : Prop := p.1 % 2 = 1 ∧ p.2 % 2 = 1

/-- Both coordinates even: a pillar cell, never carved. -/
def evenCell (p : Cell) : Prop := p.1 % 2 = 0 ∧ p.2 % 2 = 0

/-- Orthogonal grid adjacency (distance one). -/
def cellAdj (a b : Cell) : Prop :=
  (a.1 = b.1 ∧ (a.2 = b.2 + 1 ∨ b.2 = a.2 + 1)) ∨
  (a.2 = b.2 ∧ (a.1 = b.1 + 1 ∨ b.1 = a.1 + 1))

/-- `cellAdj` is symmetric. -/
theorem cellAdj_symm {a b : Cell} (h : cellAdj a b) : cellAdj b a := by
  unfold cellAdj at *
  tauto

/-- `cellAdj` is irreflexive. -/
theorem cellAdj_irrefl (a : Cell) : ¬ cellAdj a a := by
  unfold cellAdj
  omega

/-- The path space of a carved grid: vertices are all cells, edges join
orthogonally adjacent carved cells. -/
def mazeGraph (g : MazeGrid) : SimpleGraph Cell where
  Adj a b := carvedCell g a ∧ carvedCell g b ∧ cellAdj a b
  symm := by
    intro a b h
    exact ⟨h.2.1, h.1, cellAdj_symm h.2.2⟩
  loopless := by
    intro a h
    exact cellAdj_irrefl a h.2.2

/-- Structural invariant of every grid reachable during carving: carved
cells are in bounds, pillar cells are never carved, and a carved wall slot
has both of its room-cell endpoints carved. -/
structure GridWF (H W : ℤ) (g : MazeGrid) : Prop where
  bounds : ∀ p, carvedCell g p → inB H W p
  noEven : ∀ p, carvedCell g p → ¬ evenCell p
  slotH : ∀ p, carvedCell g p → p.1 % 2 = 1 → p.2 % 2 = 0 →
      carvedCell g (p.1, p.2 - 1) ∧ carvedCell g (p.1, p.2 + 1)
  slotV : ∀ p, carvedCell g p → p.1 % 2 = 0 → p.2 % 2 = 1 →
      carvedCell g (p.1 - 1, p.2) ∧ carvedCell g (p.1 + 1, p.2)

/-- `MazeLevel::GenerateNewMazeStructure`: compute the dimensions,
initialise the grid to all walls, and carve recursively from the start
cell (1,1); `dirsF` supplies the shuffled direction list of each call. -/
def generateNewMazeStructure (screenWidth screenHeight : ℕ)
    (dirsF : ℕ → List (Fin 4)) : MazeGrid :=
  (recursiveGenerateMaze (calculateMazeDimensions screenWidth screenHeight).2.1
    (calculateMazeDimensions screenWidth screenHeight).1 dirsF initMazeGrid (1, 1) 0).1

/-- Precondition of the carving loop: well-formed grid, current room cell
carved, acyclic and connected path space. -/
def carvePre (H W : ℤ) (g : MazeGrid) (rc : Cell) : Prop :=
  GridWF H W g ∧ oddCell rc ∧ carvedCell g rc ∧
  (mazeGraph g).IsAcyclic ∧
  (∀ p q, carvedCell g p → carvedCell g q → (mazeGraph g).Reachable p q)

/-- Postcondition of the carving loop relative to the starting grid: the
carved set only grew, the invariants still hold, every direction of the
work list leads to a carved cell, and every newly carved room cell had all
its in-bounds two-step neighbours carved in turn. -/
def carvePost (H W : ℤ) (g gf : MazeGrid) (rc : Cell) (ds : List (Fin 4)) : Prop :=
  (∀ p, carvedCell g p → carvedCell gf p) ∧
  GridWF H W gf ∧
  (mazeGraph gf).IsAcyclic ∧
  (∀ p q, carvedCell gf p → carvedCell gf q → (mazeGraph gf).Reachable p q) ∧
  (∀ d ∈ ds, inB H W (nextCell rc d) → carvedCell gf (nextCell rc d)) ∧
  (∀ p, oddCell p → carvedCell gf p → ¬ carvedCell g p →
    ∀ d, inB H W (nextCell p d) → carvedCell gf (nextCell p d))


/-! ## Maze level: movement, coins and win condition (`MazeLevel::Update`) -/

/-- Static maze-level data during play: the carved grid (true = wall),
the grid dimensions, cell size, exit cell and speeds. -/
structure MazeEnv where
  mazeGrid : ℤ → ℤ → Bool
  mazeWidthCells : ℤ
  mazeHeightCells : ℤ
  cellSizePixels : ℚ
  endCol : ℤ
  endRow : ℤ
  playerSpeed : ℚ
  screenWidth : ℚ
  screenHeight : ℚ

/-- Mutable maze-level state during play. -/
structure MazeState where
  playerX : ℚ
  playerY : ℚ
  playerSize : ℚ
  coinSize : ℚ
  coins : List (ℚ × ℚ)
  collectedCoins : ℤ
  totalInitialCoins : ℤ
  levelWon : Bool
  deriving DecidableEq, Repr

/-- Arrow-key state for one maze frame. -/
structure MazeInputs where
  keyRight : Bool
  keyLeft : Bool
  keyUp : Bool
  keyDown : Bool
  deriving DecidableEq, Repr

/-- `MazeLevel::CheckWallCollision`: test the displaced player box against
every wall cell it overlaps (cell indices truncated from the float box,
clamped to the grid). -/
def checkWallCollision (env : MazeEnv) (px py pSize dx dy : ℚ) : Bool :=
  let newPlayerX := px + dx
  let newPlayerY := py + dy
  let minCol0 : ℤ := ratTrunc (newPlayerX / env.cellSizePixels)
  let maxCol0 : ℤ := ratTrunc ((newPlayerX + pSize - 1) / env.cellSizePixels)
  let minRow0 : ℤ := ratTrunc (newPlayerY / env.cellSizePixels)
  let maxRow0 : ℤ := ratTrunc ((newPlayerY + pSize - 1) / env.cellSizePixels)
  let minCol : ℤ := ratTrunc (minmax (minCol0 : ℚ) 0 ((env.mazeWidthCells : ℚ) - 1))
  let maxCol : ℤ := ratTrunc (minmax (maxCol0 : ℚ) 0 ((env.mazeWidthCells : ℚ) - 1))
  let minRow : ℤ := ratTrunc (minmax (minRow0 : ℚ) 0 ((env.mazeHeightCells : ℚ) - 1))
  let maxRow : ℤ := ratTrunc (minmax (maxRow0 : ℚ) 0 ((env.mazeHeightCells : ℚ) - 1))
  (List.range (maxRow - minRow + 1).toNat).any fun ri =>
    (List.range (maxCol - minCol + 1).toNat).any fun ci =>
      let r := minRow + (ri : ℤ)
      let c := minCol + (ci : ℤ)
      if r < 0 || r ≥ env.mazeHeightCells || c < 0 || c ≥ env.mazeWidthCells then false
      else if env.mazeGrid r c then
        checkCollisionRecs
          { x := newPlayerX, y := newPlayerY, width := pSize, height := pSize }
          { x := (c : ℚ) * env.cellSizePixels, y := (r : ℚ) * env.cellSizePixels,
            width := env.cellSizePixels, height := env.cellSizePixels }
      else false

/-- Coin-collection loop of `MazeLevel::Update`: remove overlapped coins,
counting them. -/
def mazeCollectCoins (playerRect : Rect) (coinSize : ℚ) :
    List (ℚ × ℚ) → List (ℚ × ℚ) × ℤ
  | [] => ([], 0)
  | c :: rest =>
    let r := mazeCollectCoins playerRect coinSize rest
    if checkCollisionRecs playerRect
        { x := c.1 - coinSize / 2, y := c.2 - coinSize / 2,
          width := coinSize, height := coinSize }
    then (r.1, r.2 + 1) else (c :: r.1, r.2)

/-- Movement, screen clamping, and coin collection of one
`MazeLevel::Update` frame (everything before the win check). -/
def mazeMoveAndCollect (env : MazeEnv) (s : MazeState) (inp : MazeInputs) : MazeState :=
  let dx := (if inp.keyRight then env.playerSpeed else 0) +
            (if inp.keyLeft then -env.playerSpeed else 0)
  let dy := (if inp.keyUp then -env.playerSpeed else 0) +
            (if inp.keyDown then env.playerSpeed else 0)
  let x1 := if !(checkWallCollision env s.playerX s.playerY s.playerSize dx 0)
            then s.playerX + dx else s.playerX
  let y1 := if !(checkWallCollision env x1 s.playerY s.playerSize 0 dy)
            then s.playerY + dy else s.playerY
  let x2 := minmax x1 0 (env.screenWidth - s.playerSize)
  let y2 := minmax y1 0 (env.screenHeight - s.playerSize)
  let pr : Rect := { x := x2, y := y2, width := s.playerSize, height := s.playerSize }
  let cc := mazeCollectCoins pr s.coinSize s.coins
  { s with playerX := x2, playerY := y2, coins := cc.1,
           collectedCoins := s.collectedCoins + cc.2 }

/-- The win condition tested at the end of a `MazeLevel::Update` frame:
player box overlaps the exit cell AND all spawned coins are collected. -/
def mazeWinCheck (env : MazeEnv) (s : MazeState) : Bool :=
  checkCollisionRecs
    { x := s.playerX, y := s.playerY, width := s.playerSize, height := s.playerSize }
    { x := (env.endCol : ℚ) * env.cellSizePixels,
      y := (env.endRow : ℚ) * env.cellSizePixels,
      width := env.cellSizePixels, height := env.cellSizePixels } &&
  decide (s.collectedCoins = s.totalInitialCoins)

/-- `MazeLevel::Update`: frozen once won; otherwise move, collect, then
test the win condition. -/
def mazeUpdate (env : MazeEnv) (s : MazeState) (inp : MazeInputs) : MazeState :=
  if s.levelWon then s
  else
    let s1 := mazeMoveAndCollect env s inp
    { s1 with levelWon := mazeWinCheck env s1 }

/-- `MazeLevel::IsComplete`. -/
def mazeIsComplete (s : MazeState) : Bool := s.levelWon

/-- A play-through: fold `MazeLevel::Update` over a list of per-frame
inputs. -/
def mazeRun (env : MazeEnv) (s : MazeState) (inputs : List MazeInputs) : MazeState :=
  inputs.foldl (mazeUpdate env) s

/-- All-path 3 by 3 maze environment with the exit on the start cell
(used to witness C4). -/
def sampleMazeEnv : MazeEnv :=
  { mazeGrid := fun _ _ => false, mazeWidthCells := 3, mazeHeightCells := 3,
    cellSizePixels := 34, endCol := 1, endRow := 1, playerSpeed := 3,
    screenWidth := 1280, screenHeight := 720 }

/-- Player standing on the exit cell with no coins left (used to witness
C4). -/
def sampleMazeState : MazeState :=
  { playerX := 40, playerY := 40, playerSize := 20, coinSize := 10,
    coins := [], collectedCoins := 0, totalInitialCoins := 0, levelWon := false }

/-- A frame with no keys pressed. -/
def mazeNoKeys : MazeInputs :=
  { keyRight := false, keyLeft := false, keyUp := false, keyDown := false }

/-! ## Flappy level (`FlappyLevel`) -/

/-- `FLAPPY_PIPE_WIDTH`. -/
def FLAPPY_PIPE_WIDTH : ℚ := 80

/-- `FLAPPY_PIPE_GAP`. -/
def FLAPPY_PIPE_GAP : ℚ := 150

/-- `FLAPPY_PIPE_SPEED`. -/
def FLAPPY_PIPE_SPEED : ℚ := 100

/-- `FLAPPY_BIRD_RADIUS`. -/
def FLAPPY_BIRD_RADIUS : ℚ := 20

/-- `FLAPPY_BIRD_JUMP_STRENGTH`. -/
def FLAPPY_BIRD_JUMP_STRENGTH : ℚ := -250

/-- `FLAPPY_GRAVITY`. -/
def FLAPPY_GRAVITY : ℚ := 700

/-- `FLAPPY_WIN_SCORE`. -/
def FLAPPY_WIN_SCORE : ℤ := 10

/-- `FLAPPY_INITIAL_HEALTH`. -/
def FLAPPY_INITIAL_HEALTH : ℚ := 100

/-- `FLAPPY_DAMAGE_PER_HIT`. -/
def FLAPPY_DAMAGE_PER_HIT : ℚ := 25

/-- `FLAPPY_MIN_HORIZONTAL_PIPE_SPACING`. -/
def FLAPPY_MIN_HORIZONTAL_PIPE_SPACING : ℚ := 250

/-- `FlappyLevel::FlappyGameScreen`. -/
inductive FlappyGameScreen where
  | menu
  | playing
  | gameOver
  | win
  deriving DecidableEq, Repr

/-- `FlappyLevel::Bird`. -/
structure Bird where
  posX : ℚ
  posY : ℚ
  velocityY : ℚ
  radius : ℚ
  health : ℚ
  screenW : ℚ
  screenH : ℚ
  deriving DecidableEq, Repr

/-- `Bird` constructor: starts middle-left with zero velocity and full
health. -/
def mkBird (screenW screenH : ℚ) : Bird :=
  { posX := screenW / 4, posY := screenH / 2, velocityY := 0,
    radius := FLAPPY_BIRD_RADIUS, health := FLAPPY_INITIAL_HEALTH,
    screenW := screenW, screenH := screenH }

/-- `Bird::takeDamage`: subtract, clamping at zero. -/
def Bird.takeDamage (b : Bird) (amount : ℚ) : Bird :=
  let h := b.health - amount
  { b with health := if h < 0 then 0 else h }

/-- `Bird::Update`: integrate gravity and velocity, then clamp the vertical
position inside the screen margins (zeroing velocity on clamp). -/
def Bird.update (b : Bird) (deltaTime : ℚ) : Bird :=
  let v1 := b.velocityY + FLAPPY_GRAVITY * deltaTime
  let y1 := b.posY + v1 * deltaTime
  let yv2 := if y1 < b.radius * 1.5 then (b.radius * 1.5, (0 : ℚ)) else (y1, v1)
  let yv3 := if yv2.1 > b.screenH - b.radius * 1.5
             then (b.screenH - b.radius * 1.5, (0 : ℚ)) else yv2
  { b with posY := yv3.1, velocityY := yv3.2 }

/-- `FlappyLevel::Pipe`. -/
structure Pipe where
  topRect : Rect
  bottomRect : Rect
  scored : Bool
  deriving DecidableEq, Repr

/-- `Pipe` constructor: top and bottom rectangles around the gap centre. -/
def mkPipe (startX gapY screenH : ℚ) : Pipe :=
  { topRect := { x := startX, y := 0, width := FLAPPY_PIPE_WIDTH,
                 height := gapY - FLAPPY_PIPE_GAP / 2 },
    bottomRect := { x := startX, y := gapY + FLAPPY_PIPE_GAP / 2,
                    width := FLAPPY_PIPE_WIDTH,
                    height := screenH - (gapY + FLAPPY_PIPE_GAP / 2) },
    scored := false }

/-- `Pipe::Update`: both rectangles move left at the pipe speed. -/
def Pipe.update (p : Pipe) (deltaTime : ℚ) : Pipe :=
  { p with
    topRect := { p.topRect with x := p.topRect.x - FLAPPY_PIPE_SPEED * deltaTime },
    bottomRect := { p.bottomRect with x := p.bottomRect.x - FLAPPY_PIPE_SPEED * deltaTime } }

/-- The scoring condition tested by `FlappyLevel::Update`: the pipe's
trailing edge is strictly left of the bird's leading edge. -/
def pipePassed (b : Bird) (p : Pipe) : Bool :=
  decide (p.topRect.x + FLAPPY_PIPE_WIDTH < b.posX - b.radius)

/-- One iteration of the pipe loop in `FlappyLevel::Update` applied to a
single pipe: move it, then mark it scored when unscored and passed. -/
def movedScored (b : Bird) (deltaTime : ℚ) (p : Pipe) : Pipe :=
  let q := p.update deltaTime
  if !q.scored && pipePassed b q then { q with scored := true } else q

/-- The pipe loop of `FlappyLevel::Update` over the whole vector: returns
the updated pipes, the score increment, and the collision flag. -/
def flappyPipeLoop (b : Bird) (deltaTime : ℚ) : List Pipe → List Pipe × ℤ × Bool
  | [] => ([], 0, false)
  | p :: rest =>
    let q := p.update deltaTime
    let hit := checkCollisionCircleRec (b.posX, b.posY) b.radius q.topRect ||
               checkCollisionCircleRec (b.posX, b.posY) b.radius q.bottomRect
    let qinc : Pipe × ℤ :=
      if !q.scored && pipePassed b q then ({ q with scored := true }, 1) else (q, 0)
    let tailRes := flappyPipeLoop b deltaTime rest
    (qinc.1 :: tailRes.1, qinc.2 + tailRes.2.1, hit || tailRes.2.2)

/-- `FlappyLevel` state.  `rngIdx` is the cursor into the stream of pipe-gap
draws (`m_distrib(m_gen)`). -/
structure FlappyState where
  bird : Bird
  pipes : List Pipe
  score : ℤ
  currentScreen : FlappyGameScreen
  levelFinished : Bool
  playerWonLevel : Bool
  rngIdx : ℕ
  screenW : ℚ
  screenH : ℚ
  deriving DecidableEq, Repr

/-- `FlappyLevel::InitFlappyGame` (also called by `Load`): fresh bird, two
pipes spaced by the minimum spacing, menu sub-state. -/
def initFlappyGame (gaps : ℕ → ℚ) (screenW screenH : ℚ) (k : ℕ) : FlappyState :=
  { bird := mkBird screenW screenH,
    pipes := [mkPipe screenW (gaps k) screenH,
              mkPipe (screenW + FLAPPY_MIN_HORIZONTAL_PIPE_SPACING) (gaps (k + 1)) screenH],
    score := 0, currentScreen := FlappyGameScreen.menu,
    levelFinished := false, playerWonLevel := false,
    rngIdx := k + 2, screenW := screenW, screenH := screenH }

/-- Collision handling of `FlappyLevel::Update`: apply damage; on zero
health switch to game over, otherwise soft-reset the bird and the pipes.
Returns (bird, pipes, screen, finished, won, rng cursor). -/
def flappyCollisionPhase (gaps : ℕ → ℚ) (s : FlappyState) (b1 : Bird)
    (pipes1 : List Pipe) (collisionOccurred : Bool) :
    Bird × List Pipe × FlappyGameScreen × Bool × Bool × ℕ :=
  if collisionOccurred then
    let bd := b1.takeDamage FLAPPY_DAMAGE_PER_HIT
    if bd.health ≤ 0 then
      (bd, pipes1, FlappyGameScreen.gameOver, true, false, s.rngIdx)
    else
      ({ bd with posX := s.screenW / 4, posY := s.screenH / 2, velocityY := 0 },
       [mkPipe s.screenW (gaps s.rngIdx) s.screenH,
        mkPipe (s.screenW + FLAPPY_MIN_HORIZONTAL_PIPE_SPACING) (gaps (s.rngIdx + 1)) s.screenH],
       s.currentScreen, s.levelFinished, s.playerWonLevel, s.rngIdx + 2)
  else (b1, pipes1, s.currentScreen, s.levelFinished, s.playerWonLevel, s.rngIdx)

/-- Off-screen pipe removal in `FlappyLevel::Update`: drop the front pipe
once fully past the left edge. -/
def flappyRemovalPhase (pipes : List Pipe) : List Pipe :=
  match pipes with
  | p :: rest => if p.topRect.x + FLAPPY_PIPE_WIDTH < 0 then rest else p :: rest
  | [] => []

/-- Pipe spawning in `FlappyLevel::Update` + `GenerateNewPipe`: reads
`m_pipes.back()` (undefined behaviour on an empty vector, modelled as no
spawn; C10 shows the list is never empty here) and appends a new pipe at
the minimum spacing when the rearmost pipe is close enough. -/
def flappySpawnPhase (gaps : ℕ → ℚ) (screenW screenH : ℚ) (k : ℕ)
    (pipes : List Pipe) : List Pipe × ℕ :=
  match pipes.getLast? with
  | some pl =>
    if pl.topRect.x < screenW - FLAPPY_MIN_HORIZONTAL_PIPE_SPACING then
      (pipes ++ [mkPipe (pl.topRect.x + FLAPPY_MIN_HORIZONTAL_PIPE_SPACING) (gaps k) screenH],
       k + 1)
    else (pipes, k)
  | none => (pipes, k)

/-- `FlappyLevel::Update`: the per-frame step, dispatching on the level's
sub-state. -/
def flappyUpdate (gaps : ℕ → ℚ) (s : FlappyState) (deltaTime : ℚ)
    (spacePressed : Bool) : FlappyState :=
  match s.currentScreen with
  | FlappyGameScreen.menu =>
    if spacePressed then { s with currentScreen := FlappyGameScreen.playing } else s
  | FlappyGameScreen.playing =>
    let b1 := s.bird.update deltaTime
    let loopRes := flappyPipeLoop b1 deltaTime s.pipes
    let score1 := s.score + loopRes.2.1
    let collisionOccurred := loopRes.2.2 ||
        decide (b1.posY + b1.radius ≥ s.screenH) || decide (b1.posY - b1.radius ≤ 0)
    let cp := flappyCollisionPhase gaps s b1 loopRes.1 collisionOccurred
    let pipes3 := flappyRemovalPhase cp.2.1
    let sp := flappySpawnPhase gaps s.screenW s.screenH cp.2.2.2.2.2 pipes3
    let winRes :=
      if score1 ≥ FLAPPY_WIN_SCORE then (FlappyGameScreen.win, true, true)
      else (cp.2.2.1, cp.2.2.2.1, cp.2.2.2.2.1)
    let b3 := if spacePressed
              then { cp.1 with velocityY := FLAPPY_BIRD_JUMP_STRENGTH } else cp.1
    { s with bird := b3, pipes := sp.1, score := score1, currentScreen := winRes.1,
             levelFinished := winRes.2.1, playerWonLevel := winRes.2.2,
             rngIdx := sp.2 }
  | _ => s

/-- `FlappyLevel::IsComplete`. -/
def flappyIsComplete (s : FlappyState) : Bool := s.levelFinished

/-- The bird after this frame's physics integration in `FlappyLevel::Update`. -/
def flappyFrameBird (s : FlappyState) (dt : ℚ) : Bird := s.bird.update dt

/-- The `collisionOccurred` flag computed by `FlappyLevel::Update`: a hit
against any pipe half, or touching the top/bottom screen edges. -/
def flappyFrameCollision (s : FlappyState) (dt : ℚ) : Bool :=
  (flappyPipeLoop (flappyFrameBird s dt) dt s.pipes).2.2 ||
  decide ((flappyFrameBird s dt).posY + (flappyFrameBird s dt).radius ≥ s.screenH) ||
  decide ((flappyFrameBird s dt).posY - (flappyFrameBird s dt).radius ≤ 0)

/-- The score after this frame's scoring pass in `FlappyLevel::Update`. -/
def flappyFrameScore (s : FlappyState) (dt : ℚ) : ℤ :=
  s.score + (flappyPipeLoop (flappyFrameBird s dt) dt s.pipes).2.1

/-- Mid-run Flappy state with score 9 and health 25, about to both score its
tenth pipe and collide (used for the C6 counterexample). -/
def sampleFlappyNine : FlappyState :=
  { bird := { posX := 320, posY := 290, velocityY := -1395, radius := 20,
              health := 25, screenW := 1280, screenH := 720 },
    pipes := [mkPipe 225 400 720, mkPipe 475 400 720],
    score := 9, currentScreen := FlappyGameScreen.playing,
    levelFinished := false, playerWonLevel := false,
    rngIdx := 0, screenW := 1280, screenH := 720 }

/-- Mid-run Flappy state with score 0 and health 25, about to collide
fatally (used to witness C6). -/
def sampleFlappyZero : FlappyState :=
  { bird := { posX := 320, posY := 290, velocityY := -1395, radius := 20,
              health := 25, screenW := 1280, screenH := 720 },
    pipes := [mkPipe 225 400 720, mkPipe 475 400 720],
    score := 0, currentScreen := FlappyGameScreen.playing,
    levelFinished := false, playerWonLevel := false,
    rngIdx := 0, screenW := 1280, screenH := 720 }

/-- Consecutive flappy pipes are spaced by exactly the minimum horizontal
spacing (true at spawn time and kept by the uniform leftward movement). -/
def PipesWellSpaced : List Pipe → Prop :=
  List.Chain' (fun p q => q.topRect.x = p.topRect.x + FLAPPY_MIN_HORIZONTAL_PIPE_SPACING)

/-- Invariant of the flappy pipe list: at least two pipes, consecutive
pipes spaced by exactly the minimum spacing. -/
def FlappyPipesInv (s : FlappyState) : Prop :=
  2 ≤ s.pipes.length ∧ PipesWellSpaced s.pipes

/-! ## Space Invaders level (`SpaceInvadersLevel`) -/

/-- `SI_PLAYER_SPEED`. -/
def SI_PLAYER_SPEED : ℚ := 5

/-- `SI_BULLET_SPEED`. -/
def SI_BULLET_SPEED : ℚ := 3

/-- `SI_INVADER_SPEED`. -/
def SI_INVADER_SPEED : ℚ := 1

/-- `SI_INVADER_ROWS`. -/
def SI_INVADER_ROWS : ℕ := 2

/-- `SI_INVADER_COLS`. -/
def SI_INVADER_COLS : ℕ := 8

/-- `SI_INVADER_SPACING_X`. -/
def SI_INVADER_SPACING_X : ℚ := 50

/-- `SI_INVADER_SPACING_Y`. -/
def SI_INVADER_SPACING_Y : ℚ := 40

/-- `SI_INVADER_START_X`. -/
def SI_INVADER_START_X : ℚ := 50

/-- `SI_INVADER_START_Y`. -/
def SI_INVADER_START_Y : ℚ := 100

/-- `SI_INVADER_FIRE_RATE`. -/
def SI_INVADER_FIRE_RATE : ℚ := 0.15

/-- `SI_INVADER_MOVE_INTERVAL`. -/
def SI_INVADER_MOVE_INTERVAL : ℚ := 0.8

/-- `SI_INVADER_DESCENT_AMOUNT`. -/
def SI_INVADER_DESCENT_AMOUNT : ℚ := 20

/-- `SpaceInvadersLevel::Bullet`. -/
structure SIBullet where
  rect : Rect
  active : Bool
  isPlayerBullet : Bool
  deriving DecidableEq, Repr

/-- `Bullet` constructor: 5 by 10 rectangle at the given position. -/
def mkSIBullet (pos : ℚ × ℚ) (playerBullet : Bool) : SIBullet :=
  { rect := { x := pos.1, y := pos.2, width := 5, height := 10 },
    active := true, isPlayerBullet := playerBullet }

/-- `Bullet::Update`: move up (player) or down (invader), deactivate when
off screen. -/
def SIBullet.update (b : SIBullet) (screenHeight : ℚ) : SIBullet :=
  if b.active then
    let y := if b.isPlayerBullet then b.rect.y - SI_BULLET_SPEED
             else b.rect.y + SI_BULLET_SPEED
    let act := !(decide (y < 0) || decide (y > screenHeight))
    { b with rect := { b.rect with y := y }, active := act }
  else b

/-- `SpaceInvadersLevel::Player`. -/
structure SIPlayer where
  rect : Rect
  lives : ℤ
  lastShotTime : ℚ
  deriving DecidableEq, Repr

/-- `Player` constructor. -/
def mkSIPlayer (screenW screenH : ℚ) : SIPlayer :=
  { rect := { x := screenW / 2 - 25, y := screenH - 70, width := 50, height := 50 },
    lives := 5, lastShotTime := 0 }

/-- `SpaceInvadersLevel::Invader`. -/
structure SIInvader where
  rect : Rect
  active : Bool
  invaderType : ℕ
  deriving DecidableEq, Repr

/-- `SpaceInvadersLevel` state. -/
structure SIState where
  player : SIPlayer
  invaders : List SIInvader
  playerBullets : List SIBullet
  invaderBullets : List SIBullet
  score : ℤ
  gameOver : Bool
  gameWon : Bool
  invaderMoveDirection : ℚ
  invaderMoveTimer : ℚ
  currentScreenW : ℚ
  currentScreenH : ℚ
  deriving DecidableEq, Repr

/-- Per-frame backend observations for the invaders level: key state,
`GetTime()`, `GetFrameTime()`, and the uniform(0,1) rolls consumed by the
active invaders (in list order); a missing roll means no shot. -/
structure SIInputs where
  keyLeft : Bool
  keyRight : Bool
  keySpace : Bool
  time : ℚ
  frameTime : ℚ
  rolls : List ℚ
  deriving DecidableEq, Repr

/-- `SpaceInvadersLevel::Load`: reset everything and spawn the invader
grid row by row. -/
def siLoad (screenW screenH : ℚ) : SIState :=
  { player := mkSIPlayer screenW screenH,
    invaders := (List.range SI_INVADER_ROWS).flatMap (fun row =>
      (List.range SI_INVADER_COLS).map (fun col =>
        { rect := { x := SI_INVADER_START_X + (col : ℚ) * SI_INVADER_SPACING_X,
                    y := SI_INVADER_START_Y + (row : ℚ) * SI_INVADER_SPACING_Y,
                    width := 30, height := 30 },
          active := true, invaderType := row })),
    playerBullets := [], invaderBullets := [],
    score := 0, gameOver := false, gameWon := false,
    invaderMoveDirection := 1, invaderMoveTimer := 0,
    currentScreenW := screenW, currentScreenH := screenH }

/-- `Player::Update`: bounded movement and cooldown-limited firing;
returns the updated player and the freshly fired bullets. -/
def siPlayerUpdate (p : SIPlayer) (keyLeft keyRight keySpace : Bool)
    (screenW currentTime : ℚ) : SIPlayer × List SIBullet :=
  let x1 := if keyLeft && decide (p.rect.x > 0) then p.rect.x - SI_PLAYER_SPEED
            else p.rect.x
  let x2 := if keyRight && decide (x1 < screenW - p.rect.width) then x1 + SI_PLAYER_SPEED
            else x1
  let fire := keySpace && decide (currentTime - p.lastShotTime ≥ 0.5)
  let newBullets := if fire
    then [mkSIBullet (x2 + p.rect.width / 2 - 2.5, p.rect.y) true] else []
  ({ p with rect := { p.rect with x := x2 },
            lastShotTime := if fire then currentTime else p.lastShotTime },
   newBullets)

/-- The timed horizontal march of the invader formation, with edge
reversal, descent and the reached-player-line loss check.  Returns the
moved invaders, the new direction, the new timer, and whether any invader
reached the player's row. -/
def siMovePhase (invaders : List SIInvader) (moveDirection timer screenW playerY
    frameTime : ℚ) : List SIInvader × ℚ × ℚ × Bool :=
  let timer1 := timer + frameTime
  if timer1 ≥ SI_INVADER_MOVE_INTERVAL then
    let minX := invaders.foldl
      (fun m inv => if inv.active then min m inv.rect.x else m) screenW
    let maxX := invaders.foldl
      (fun m inv => if inv.active then max m (inv.rect.x + inv.rect.width) else m) 0
    let anyActive := invaders.any (fun inv => inv.active)
    if anyActive then
      let dirDesc :=
        if moveDirection = 1 then
          if maxX ≥ screenW - 20 then ((-1 : ℚ), true) else (moveDirection, false)
        else
          if minX ≤ 20 then ((1 : ℚ), true) else (moveDirection, false)
      let movedPairs := invaders.map (fun inv =>
        if inv.active then
          let x := inv.rect.x + dirDesc.1 * SI_INVADER_SPEED * 10
          let y := if dirDesc.2 then inv.rect.y + SI_INVADER_DESCENT_AMOUNT
                   else inv.rect.y
          let reached := dirDesc.2 && decide (y + inv.rect.height ≥ playerY)
          ({ inv with rect := { inv.rect with x := x, y := y } }, reached)
        else (inv, false))
      (movedPairs.map (fun q => q.1), dirDesc.1, 0, movedPairs.any (fun q => q.2))
    else (invaders, moveDirection, 0, false)
  else (invaders, moveDirection, timer1, false)

/-- The per-invader random firing pass: each active invader consumes one
roll and fires when it is below rate times frame time. -/
def siFirePhase (invaders : List SIInvader) (rolls : List ℚ) (frameTime : ℚ) :
    List SIBullet :=
  match invaders with
  | [] => []
  | inv :: rest =>
    if inv.active then
      match rolls with
      | roll :: rrest =>
        (if decide (roll < SI_INVADER_FIRE_RATE * frameTime) then
          [mkSIBullet (inv.rect.x + inv.rect.width / 2 - 2.5,
                       inv.rect.y + inv.rect.height) false]
         else []) ++ siFirePhase rest rrest frameTime
      | [] => siFirePhase rest [] frameTime
    else siFirePhase rest rolls frameTime

/-- Deactivate the first active invader colliding with the given bullet
(the inner loop of the player-bullet collision pass, with its `break`). -/
def siHitFirstInvader (pb : SIBullet) : List SIInvader → List SIInvader × Bool
  | [] => ([], false)
  | inv :: rest =>
    if inv.active && checkCollisionRecs pb.rect inv.rect then
      ({ inv with active := false } :: rest, true)
    else
      let res := siHitFirstInvader pb rest
      (inv :: res.1, res.2)

/-- The player-bullet collision pass: each active bullet may destroy the
first active invader it overlaps, deactivating both and scoring 100. -/
def siPlayerBulletsPhase : List SIBullet → List SIInvader → ℤ →
    List SIBullet × List SIInvader × ℤ
  | [], invs, sc => ([], invs, sc)
  | pb :: rest, invs, sc =>
    if pb.active then
      let hit := siHitFirstInvader pb invs
      if hit.2 then
        let res := siPlayerBulletsPhase rest hit.1 (sc + 100)
        ({ pb with active := false } :: res.1, res.2.1, res.2.2)
      else
        let res := siPlayerBulletsPhase rest invs sc
        (pb :: res.1, res.2.1, res.2.2)
    else
      let res := siPlayerBulletsPhase rest invs sc
      (pb :: res.1, res.2.1, res.2.2)

/-- The invader-bullet collision pass: the first active bullet overlapping
the player is consumed, one life is lost, and the loss flag is raised when
no lives remain (the loop breaks after the first hit). -/
def siInvaderBulletsPhase (player : SIPlayer) : List SIBullet →
    List SIBullet × SIPlayer × Bool
  | [] => ([], player, false)
  | ib :: rest =>
    if ib.active && checkCollisionRecs ib.rect player.rect then
      let p1 := { player with lives := player.lives - 1 }
      ({ ib with active := false } :: rest, p1, decide (p1.lives ≤ 0))
    else
      let res := siInvaderBulletsPhase player rest
      (ib :: res.1, res.2.1, res.2.2)

/-- `SpaceInvadersLevel::Update`: one frame in source order — early return
when terminal; player update and firing; bullet movement and sweeping;
invader march; invader firing; player-bullet collisions; invader-bullet
collisions; and finally the unguarded all-invaders-destroyed win check. -/
def siUpdate (s : SIState) (inp : SIInputs) : SIState :=
  if s.gameOver || s.gameWon then s
  else
    let pu := siPlayerUpdate s.player inp.keyLeft inp.keyRight inp.keySpace
      s.currentScreenW inp.time
    let pBullets1 := s.playerBullets ++ pu.2
    let pBullets2 := (pBullets1.map (fun b => b.update s.currentScreenH)).filter
      (fun b => b.active)
    let iBullets2 := (s.invaderBullets.map (fun b => b.update s.currentScreenH)).filter
      (fun b => b.active)
    let mv := siMovePhase s.invaders s.invaderMoveDirection s.invaderMoveTimer
      s.currentScreenW pu.1.rect.y inp.frameTime
    let fired := siFirePhase mv.1 inp.rolls inp.frameTime
    let iBullets3 := iBullets2 ++ fired
    let pb := siPlayerBulletsPhase pBullets2 mv.1 s.score
    let ib := siInvaderBulletsPhase pu.1 iBullets3
    let allInvadersDestroyed := pb.2.1.all (fun inv => !inv.active)
    { s with
      player := ib.2.1,
      invaders := pb.2.1,
      playerBullets := pb.1,
      invaderBullets := ib.1,
      score := pb.2.2,
      gameOver := s.gameOver || mv.2.2.2 || ib.2.2,
      gameWon := s.gameWon || allInvadersDestroyed,
      invaderMoveDirection := mv.2.1,
      invaderMoveTimer := mv.2.2.1 }

/-- A play-through of the invaders level. -/
def siRun (s : SIState) (inputs : List SIInputs) : SIState :=
  inputs.foldl siUpdate s

/-- Frames at which the space key is held in the C3 trace. -/
def c3FireFrames : List Nat := [42,43,52,53,62,63,72,73,82,83,92,93,102,103,112,120]

/-- Frames with a nonzero frame time and a firing roll for the first
invader in the C3 trace. -/
def c3HostileFrames : List Nat := [118,119,120,121,122]

/-- The backend observations of frame `k` of the C3 trace: walk left to
x = 50, fire sixteen aimed shots, and let the first invader shoot five
times; frame time is zero except on the five firing frames. -/
def c3Frame (k : Nat) : SIInputs :=
  { keyLeft := decide (k ≤ 112),
    keyRight := false,
    keySpace := decide (k ∈ c3FireFrames),
    time := (k : ℚ),
    frameTime := if k ∈ c3HostileFrames then 1/10 else 0,
    rolls := if k ∈ c3HostileFrames then 0 :: List.replicate 15 1 else List.replicate 16 1 }

/-- Frames `a` to `a + n - 1` of the C3 trace. -/
def c3Slice (a n : Nat) : List SIInputs := (List.range' a n).map c3Frame

/-- The full 295-frame input trace for C3. -/
def c3Inputs : List SIInputs := (List.range 295).map c3Frame

/-- The invaders state after frame 10 of the C3 trace. -/
def c3S10 : SIState :=
{ player := { rect := { x := 565, y := 650, width := 50, height := 50 }, lives := 5, lastShotTime := 0 },
  invaders := [{ rect := { x := 50, y := 100, width := 30, height := 30 }, active := true, invaderType := 0 },
    { rect := { x := 100, y := 100, width := 30, height := 30 }, active := true, invaderType := 0 },
    { rect := { x := 150, y := 100, width := 30, height := 30 }, active := true, invaderType := 0 },
    { rect := { x := 200, y := 100, width := 30, height := 30 }, active := true, invaderType := 0 },
    { rect := { x := 250, y := 100, width := 30, height := 30 }, active := true, invaderType := 0 },
    { rect := { x := 300, y := 100, width := 30, height := 30 }, active := true, invaderType := 0 },
    { rect := { x := 350, y := 100, width := 30, height := 30 }, active := true, invaderType := 0 },
    { rect := { x := 400, y := 100, width := 30, height := 30 }, active := true, invaderType := 0 },
    { rect := { x := 50, y := 140, width := 30, height := 30 }, active := true, invaderType := 1 },
    { rect := { x := 100, y := 140, width := 30, height := 30 }, active := true, invaderType := 1 },
    { rect := { x := 150, y := 140, width := 30, height := 30 }, active := true, invaderType := 1 },
    { rect := { x := 200, y := 140, width := 30, height := 30 }, active := true, invaderType := 1 },
    { rect := { x := 250, y := 140, width := 30, height := 30 }, active := true, invaderType := 1 },
    { rect := { x := 300, y := 140, width := 30, height := 30 }, active := true, invaderType := 1 },
    { rect := { x := 350, y := 140, width := 30, height := 30 }, active := true, invaderType := 1 },
    { rect := { x := 400, y := 140, width := 30, height := 30 }, active := true, invaderType := 1 }],
  playerBullets := [],
  invaderBullets := [],
  score := 0, gameOver := false, gameWon := false,
  invaderMoveDirection := 1, invaderMoveTimer := 0,
  currentScreenW := 1280, currentScreenH := 720 }

/-- The invaders state after frame 20 of the C3 trace. -/
def c3S20 : SIState :=
{ player := { rect := { x := 515, y := 650, width := 50, height := 50 }, lives := 5, lastShotTime := 0 },
  invaders := [{ rect := { x := 50, y := 100, width := 30, height := 30 }, active := true, invaderType := 0 },
    { rect := { x := 100, y := 100, width := 30, height := 30 }, active := true, invaderType := 0 },
    { rect := { x := 150, y := 100, width := 30, height := 30 }, active := true, invaderType := 0 },
    { rect := { x := 200, y := 100, width := 30, height := 30 }, active := true, invaderType := 0 },
    { rect := { x := 250, y := 100, width := 30, height := 30 }, active := true, invaderType := 0 },
    { rect := { x := 300, y := 100, width := 30, height := 30 }, active := true, invaderType := 0 },
    { rect := { x := 350, y := 100, width := 30, height := 30 }, active := true, invaderType := 0 },
    { rect := { x := 400, y := 100, width := 30, height := 30 }, active := true, invaderType := 0 },
    { rect := { x := 50, y := 140, width := 30, height := 30 }, active := true, invaderType := 1 },
    { rect := { x := 100, y := 140, width := 30, height := 30 }, active := true, invaderType := 1 },
    { rect := { x := 150, y := 140, width := 30, height := 30 }, active := true, invaderType := 1 },
    { rect := { x := 200, y := 140, width := 30, height := 30 }, active := true, invaderType := 1 },
    { rect := { x := 250, y := 140, width := 30, height := 30 }, active := true, invaderType := 1 },
    { rect := { x := 300, y := 140, width := 30, height := 30 }, active := true, invaderType := 1 },
    { rect := { x := 350, y := 140, width := 30, height := 30 }, active := true, invaderType := 1 },
    { rect := { x := 400, y := 140, width := 30, height := 30 }, active := true, invaderType := 1 }],
  playerBullets := [],
  invaderBullets := [],
  score := 0, gameOver := false, gameWon := false,
  invaderMoveDirection := 1, invaderMoveTimer := 0,
  currentScreenW := 1280, currentScreenH := 720 }

/-- The invaders state after frame 30 of the C3 trace. -/
def c3S30 : SIState :=
{ player := { rect := { x := 465, y := 650, width := 50, height := 50 }, lives := 5, lastShotTime := 0 },
  invaders := [{ rect := { x := 50, y := 100, width := 30, height := 30 }, active := true, invaderType := 0 },
    { rect := { x := 100, y := 100, width := 30, height := 30 }, active := true, invaderType := 0 },
    { rect := { x := 150, y := 100, width := 30, height := 30 }, active := true, invaderType := 0 },
    { rect := { x := 200, y := 100, width := 30, height := 30 }, active := true, invaderType := 0 },
    { rect := { x := 250, y := 100, width := 30, height := 30 }, active := true, invaderType := 0 },
    { rect := { x := 300, y := 100, width := 30, height := 30 }, active := true, invaderType := 0 },
    { rect := { x := 350, y := 100, width := 30, height := 30 }, active := true, invaderType := 0 },
    { rect := { x := 400, y := 100, width := 30, height := 30 }, active := true, invaderType := 0 },
    { rect := { x := 50, y := 140, width := 30, height := 30 }, active := true, invaderType := 1 },
    { rect := { x := 100, y := 140, width := 30, height := 30 }, active := true, invaderType := 1 },
    { rect := { x := 150, y := 140, width := 30, height := 30 }, active := true, invaderType := 1 },
    { rect := { x := 200, y := 140, width := 30, height := 30 }, active := true, invaderType := 1 },
    { rect := { x := 250, y := 140, width := 30, height := 30 }, active := true, invaderType := 1 },
    { rect := { x := 300, y := 140, width := 30, height := 30 }, active := true, invaderType := 1 },
    { rect := { x := 350, y := 140, width := 30, height := 30 }, active := true, invaderType := 1 },
    { rect := { x := 400, y := 140, width := 30, height := 30 }, active := true, invaderType := 1 }],
  playerBullets := [],
  invaderBullets := [],
  score := 0, gameOver := false, gameWon := false,
  invaderMoveDirection := 1, invaderMoveTimer := 0,
  currentScreenW := 1280, currentScreenH := 720 }

/-- The invaders state after frame 40 of the C3 trace. -/
def c3S40 : SIState :=
{ player := { rect := { x := 415, y := 650, width := 50, height := 50 }, lives := 5, lastShotTime := 0 },
  invaders := [{ rect := { x := 50, y := 100, width := 30, height := 30 }, active := true, invaderType := 0 },
    { rect := { x := 100, y := 100, width := 30, height := 30 }, active := true, invaderType := 0 },
    { rect := { x := 150, y := 100, width := 30, height := 30 }, active := true, invaderType := 0 },
    { rect := { x := 200, y := 100, width := 30, height := 30 }, active := true, invaderType := 0 },
    { rect := { x := 250, y := 100, width := 30, height := 30 }, active := true, invaderType := 0 },
    { rect := { x := 300, y := 100, width := 30, height := 30 }, active := true, invaderType := 0 },
    { rect := { x := 350, y := 100, width := 30, height := 30 }, active := true, invaderType := 0 },
    { rect := { x := 400, y := 100, width := 30, height := 30 }, active := true, invaderType := 0 },
    { rect := { x := 50, y := 140, width := 30, height := 30 }, active := true, invaderType := 1 },
    { rect := { x := 100, y := 140, width := 30, height := 30 }, active := true, invaderType := 1 },
    { rect := { x := 150, y := 140, width := 30, height := 30 }, active := true, invaderType := 1 },
    { rect := { x := 200, y := 140, width := 30, height := 30 }, active := true, invaderType := 1 },
    { rect := { x := 250, y := 140, width := 30, height := 30 }, active := true, invaderType := 1 },
    { rect := { x := 300, y := 140, width := 30, height := 30 }, active := true, invaderType := 1 },
    { rect := { x := 350, y := 140, width := 30, height := 30 }, active := true, invaderType := 1 },
    { rect := { x := 400, y := 140, width := 30, height := 30 }, active := true, invaderType := 1 }],
  playerBullets := [],
  invaderBullets := [],
  score := 0, gameOver := false, gameWon := false,
  invaderMoveDirection := 1, invaderMoveTimer := 0,
  currentScreenW := 1280, currentScreenH := 720 }

/-- The invaders state after frame 50 of the C3 trace. -/
def c3S50 : SIState :=
{ player := { rect := { x := 365, y := 650, width := 50, height := 50 }, lives := 5, lastShotTime := 43 },
  invaders := [{ rect := { x := 50, y := 100, width := 30, height := 30 }, active := true, invaderType := 0 },
    { rect := { x := 100, y := 100, width := 30, height := 30 }, active := true, invaderType := 0 },
    { rect := { x := 150, y := 100, width := 30, height := 30 }, active := true, invaderType := 0 },
    { rect := { x := 200, y := 100, width := 30, height := 30 }, active := true, invaderType := 0 },
    { rect := { x := 250, y := 100, width := 30, height := 30 }, active := true, invaderType := 0 },
    { rect := { x := 300, y := 100, width := 30, height := 30 }, active := true, invaderType := 0 },
    { rect := { x := 350, y := 100, width := 30, height := 30 }, active := true, invaderType := 0 },
    { rect := { x := 400, y := 100, width := 30, height := 30 }, active := true, invaderType := 0 },
    { rect := { x := 50, y := 140, width := 30, height := 30 }, active := true, invaderType := 1 },
    { rect := { x := 100, y := 140, width := 30, height := 30 }, active := true, invaderType := 1 },
    { rect := { x := 150, y := 140, width := 30, height := 30 }, active := true, invaderType := 1 },
    { rect := { x := 200, y := 140, width := 30, height := 30 }, active := true, invaderType := 1 },
    { rect := { x := 250, y := 140, width := 30, height := 30 }, active := true, invaderType := 1 },
    { rect := { x := 300, y := 140, width := 30, height := 30 }, active := true, invaderType := 1 },
    { rect := { x := 350, y := 140, width := 30, height := 30 }, active := true, invaderType := 1 },
    { rect := { x := 400, y := 140, width := 30, height := 30 }, active := true, invaderType := 1 }],
  playerBullets := [{ rect := { x := 845/2, y := 626, width := 5, height := 10 }, active := true, isPlayerBullet := true },
    { rect := { x := 835/2, y := 629, width := 5, height := 10 }, active := true, isPlayerBullet := true }],
  invaderBullets := [],
  score := 0, gameOver := false, gameWon := false,
  invaderMoveDirection := 1, invaderMoveTimer := 0,
  currentScreenW := 1280, currentScreenH := 720 }

/-- The invaders state after frame 60 of the C3 trace. -/
def c3S60 : SIState :=
{ player := { rect := { x := 315, y := 650, width := 50, height := 50 }, lives := 5, lastShotTime := 53 },
  invaders := [{ rect := { x := 50, y := 100, width := 30, height := 30 }, active := true, invaderType := 0 },
    { rect := { x := 100, y := 100, width := 30, height := 30 }, active := true, invaderType := 0 },
    { rect := { x := 150, y := 100, width := 30, height := 30 }, active := true, invaderType := 0 },
    { rect := { x := 200, y := 100, width := 30, height := 30 }, active := true, invaderType := 0 },
    { rect := { x := 250, y := 100, width := 30, height := 30 }, active := true, invaderType := 0 },
    { rect := { x := 300, y := 100, width := 30, height := 30 }, active := true, invaderType := 0 },
    { rect := { x := 350, y := 100, width := 30, height := 30 }, active := true, invaderType := 0 },
    { rect := { x := 400, y := 100, width := 30, height := 30 }, active := true, invaderType := 0 },
    { rect := { x := 50, y := 140, width := 30, height := 30 }, active := true, invaderType := 1 },
    { rect := { x := 100, y := 140, width := 30, height := 30 }, active := true, invaderType := 1 },
    { rect := { x := 150, y := 140, width := 30, height := 30 }, active := true, invaderType := 1 },
    { rect := { x := 200, y := 140, width := 30, height := 30 }, active := true, invaderType := 1 },
    { rect := { x := 250, y := 140, width := 30, height := 30 }, active := true, invaderType := 1 },
    { rect := { x := 300, y := 140, width := 30, height := 30 }, active := true, invaderType := 1 },
    { rect := { x := 350, y := 140, width := 30, height := 30 }, active := true, invaderType := 1 },
    { rect := { x := 400, y := 140, width := 30, height := 30 }, active := true, invaderType := 1 }],
  playerBullets := [{ rect := { x := 845/2, y := 596, width := 5, height := 10 }, active := true, isPlayerBullet := true },
    { rect := { x := 835/2, y := 599, width := 5, height := 10 }, active := true, isPlayerBullet := true },
    { rect := { x := 745/2, y := 626, width := 5, height := 10 }, active := true, isPlayerBullet := true },
    { rect := { x := 735/2, y := 629, width := 5, height := 10 }, active := true, isPlayerBullet := true }],
  invaderBullets := [],
  score := 0, gameOver := false, gameWon := false,
  invaderMoveDirection := 1, invaderMoveTimer := 0,
  currentScreenW := 1280, currentScreenH := 720 }

/-- The invaders state after frame 70 of the C3 trace. -/
def c3S70 : SIState :=
{ player := { rect := { x := 265, y := 650, width := 50, height := 50 }, lives := 5, lastShotTime := 63 },
  invaders := [{ rect := { x := 50, y := 100, width := 30, height := 30 }, active := true, invaderType := 0 },
    { rect := { x := 100, y := 100, width := 30, height := 30 }, active := true, invaderType := 0 },
    { rect := { x := 150, y := 100, width := 30, height := 30 }, active := true, invaderType := 0 },
    { rect := { x := 200, y := 100, width := 30, height := 30 }, active := true, invaderType := 0 },
    { rect := { x := 250, y := 100, width := 30, height := 30 }, active := true, invaderType := 0 },
    { rect := { x := 300, y := 100, width := 30, height := 30 }, active := true, invaderType := 0 },
    { rect := { x := 350, y := 100, width := 30, height := 30 }, active := true, invaderType := 0 },
    { rect := { x := 400, y := 100, width := 30, height := 30 }, active := true, invaderType := 0 },
    { rect := { x := 50, y := 140, width := 30, height := 30 }, active := true, invaderType := 1 },
    { rect := { x := 100, y := 140, width := 30, height := 30 }, active := true, invaderType := 1 },
    { rect := { x := 150, y := 140, width := 30, height := 30 }, active := true, invaderType := 1 },
    { rect := { x := 200, y := 140, width := 30, height := 30 }, active := true, invaderType := 1 },
    { rect := { x := 250, y := 140, width := 30, height := 30 }, active := true, invaderType := 1 },
    { rect := { x := 300, y := 140, width := 30, height := 30 }, active := true, invaderType := 1 },
    { rect := { x := 350, y := 140, width := 30, height := 30 }, active := true, invaderType := 1 },
    { rect := { x := 400, y := 140, width := 30, height := 30 }, active := true, invaderType := 1 }],
  playerBullets := [{ rect := { x := 845/2, y := 566, width := 5, height := 10 }, active := true, isPlayerBullet := true },
    { rect := { x := 835/2, y := 569, width := 5, height := 10 }, active := true, isPlayerBullet := true },
    { rect := { x := 745/2, y := 596, width := 5, height := 10 }, active := true, isPlayerBullet := true },
    { rect := { x := 735/2, y := 599, width := 5, height := 10 }, active := true, isPlayerBullet := true },
    { rect := { x := 645/2, y := 626, width := 5, height := 10 }, active := true, isPlayerBullet := true },
    { rect := { x := 635/2, y := 629, width := 5, height := 10 }, active := true, isPlayerBullet := true }],
  invaderBullets := [],
  score := 0, gameOver := false, gameWon := false,
  invaderMoveDirection := 1, invaderMoveTimer := 0,
  currentScreenW := 1280, currentScreenH := 720 }

/-- The invaders state after frame 80 of the C3 trace. -/
def c3S80 : SIState :=
{ player := { rect := { x := 215, y := 650, width := 50, height := 50 }, lives := 5, lastShotTime := 73 },
  invaders := [{ rect := { x := 50, y := 100, width := 30, height := 30 }, active := true, invaderType := 0 },
    { rect := { x := 100, y := 100, width := 30, height := 30 }, active := true, invaderType := 0 },
    { rect := { x := 150, y := 100, width := 30, height := 30 }, active := true, invaderType := 0 },
    { rect := { x := 200, y := 100, width := 30, height := 30 }, active := true, invaderType := 0 },
    { rect := { x := 250, y := 100, width := 30, height := 30 }, active := true, invaderType := 0 },
    { rect := { x := 300, y := 100, width := 30, height := 30 }, active := true, invaderType := 0 },
    { rect := { x := 350, y := 100, width := 30, height := 30 }, active := true, invaderType := 0 },
    { rect := { x := 400, y := 100, width := 30, height := 30 }, active := true, invaderType := 0 },
    { rect := { x := 50, y := 140, width := 30, height := 30 }, active := true, invaderType := 1 },
    { rect := { x := 100, y := 140, width := 30, height := 30 }, active := true, invaderType := 1 },
    { rect := { x := 150, y := 140, width := 30, height := 30 }, active := true, invaderType := 1 },
    { rect := { x := 200, y := 140, width := 30, height := 30 }, active := true, invaderType := 1 },
    { rect := { x := 250, y := 140, width := 30, height := 30 }, active := true, invaderType := 1 },
    { rect := { x := 300, y := 140, width := 30, height := 30 }, active := true, invaderType := 1 },
    { rect := { x := 350, y := 140, width := 30, height := 30 }, active := true, invaderType := 1 },
    { rect := { x := 400, y := 140, width := 30, height := 30 }, active := true, invaderType := 1 }],
  playerBullets := [{ rect := { x := 845/2, y := 536, width := 5, height := 10 }, active := true, isPlayerBullet := true },
    { rect := { x := 835/2, y := 539, width := 5, height := 10 }, active := true, isPlayerBullet := true },
    { rect := { x := 745/2, y := 566, width := 5, height := 10 }, active := true, isPlayerBullet := true },
    { rect := { x := 735/2, y := 569, width := 5, height := 10 }, active := true, isPlayerBullet := true },
    { rect := { x := 645/2, y := 596, width := 5, height := 10 }, active := true, isPlayerBullet := true },
    { rect := { x := 635/2, y := 599, width := 5, height := 10 }, active := true, isPlayerBullet := true },
    { rect := { x := 545/2, y := 626, width := 5, height := 10 }, active := true, isPlayerBullet := true },
    { rect := { x := 535/2, y := 629, width := 5, height := 10 }, active := true, isPlayerBullet := true }],
  invaderBullets := [],
  score := 0, gameOver := false, gameWon := false,
  invaderMoveDirection := 1, invaderMoveTimer := 0,
  currentScreenW := 1280, currentScreenH := 720 }

/-- The invaders state after frame 90 of the C3 trace. -/
def c3S90 : SIState :=
{ player := { rect := { x := 165, y := 650, width := 50, height := 50 }, lives := 5, lastShotTime := 83 },
  invaders := [{ rect := { x := 50, y := 100, width := 30, height := 30 }, active := true, invaderType := 0 },
    { rect := { x := 100, y := 100, width := 30, height := 30 }, active := true, invaderType := 0 },
    { rect := { x := 150, y := 100, width := 30, height := 30 }, active := true, invaderType := 0 },
    { rect := { x := 200, y := 100, width := 30, height := 30 }, active := true, invaderType := 0 },
    { rect := { x := 250, y := 100, width := 30, height := 30 }, active := true, invaderType := 0 },
    { rect := { x := 300, y := 100, width := 30, height := 30 }, active := true, invaderType := 0 },
    { rect := { x := 350, y := 100, width := 30, height := 30 }, active := true, invaderType := 0 },
    { rect := { x := 400, y := 100, width := 30, height := 30 }, active := true, invaderType := 0 },
    { rect := { x := 50, y := 140, width := 30, height := 30 }, active := true, invaderType := 1 },
    { rect := { x := 100, y := 140, width := 30, height := 30 }, active := true, invaderType := 1 },
    { rect := { x := 150, y := 140, width := 30, height := 30 }, active := true, invaderType := 1 },
    { rect := { x := 200, y := 140, width := 30, height := 30 }, active := true, invaderType := 1 },
    { rect := { x := 250, y := 140, width := 30, height := 30 }, active := true, invaderType := 1 },
    { rect := { x := 300, y := 140, width := 30, height := 30 }, active := true, invaderType := 1 },
    { rect := { x := 350, y := 140, width := 30, height := 30 }, active := true, invaderType := 1 },
    { rect := { x := 400, y := 140, width := 30, height := 30 }, active := true, invaderType := 1 }],
  playerBullets := [{ rect := { x := 845/2, y := 506, width := 5, height := 10 }, active := true, isPlayerBullet := true },
    { rect := { x := 835/2, y := 509, width := 5, height := 10 }, active := true, isPlayerBullet := true },
    { rect := { x := 745/2, y := 536, width := 5, height := 10 }, active := true, isPlayerBullet := true },
    { rect := { x := 735/2, y := 539, width := 5, height := 10 }, active := true, isPlayerBullet := true },
    { rect := { x := 645/2, y := 566, width := 5, height := 10 }, active := true, isPlayerBullet := true },
    { rect := { x := 635/2, y := 569, width := 5, height := 10 }, active := true, isPlayerBullet := true },
    { rect := { x := 545/2, y := 596, width := 5, height := 10 }, active := true, isPlayerBullet := true },
    { rect := { x := 535/2, y := 599, width := 5, height := 10 }, active := true, isPlayerBullet := true },
    { rect := { x := 445/2, y := 626, width := 5, height := 10 }, active := true, isPlayerBullet := true },
    { rect := { x := 435/2, y := 629, width := 5, height := 10 }, active := true, isPlayerBullet := true }],
  invaderBullets := [],
  score := 0, gameOver := false, gameWon := false,
  invaderMoveDirection := 1, invaderMoveTimer := 0,
  currentScreenW := 1280, currentScreenH := 720 }

/-- The invaders state after frame 100 of the C3 trace. -/
def c3S100 : SIState :=
{ player := { rect := { x := 115, y := 650, width := 50, height := 50 }, lives := 5, lastShotTime := 93 },
  invaders := [{ rect := { x := 50, y := 100, width := 30, height := 30 }, active := true, invaderType := 0 },
    { rect := { x := 100, y := 100, width := 30, height := 30 }, active := true, invaderType := 0 },
    { rect := { x := 150, y := 100, width := 30, height := 30 }, active := true, invaderType := 0 },
    { rect := { x := 200, y := 100, width := 30, height := 30 }, active := true, invaderType := 0 },
    { rect := { x := 250, y := 100, width := 30, height := 30 }, active := true, invaderType := 0 },
    { rect := { x := 300, y := 100, width := 30, height := 30 }, active := true, invaderType := 0 },
    { rect := { x := 350, y := 100, width := 30, height := 30 }, active := true, invaderType := 0 },
    { rect := { x := 400, y := 100, width := 30, height := 30 }, active := true, invaderType := 0 },
    { rect := { x := 50, y := 140, width := 30, height := 30 }, active := true, invaderType := 1 },
    { rect := { x := 100, y := 140, width := 30, height := 30 }, active := true, invaderType := 1 },
    { rect := { x := 150, y := 140, width := 30, height := 30 }, active := true, invaderType := 1 },
    { rect := { x := 200, y := 140, width := 30, height := 30 }, active := true, invaderType := 1 },
    { rect := { x := 250, y := 140, width := 30, height := 30 }, active := true, invaderType := 1 },
    { rect := { x := 300, y := 140, width := 30, height := 30 }, active := true, invaderType := 1 },
    { rect := { x := 350, y := 140, width := 30, height := 30 }, active := true, invaderType := 1 },
    { rect := { x := 400, y := 140, width := 30, height := 30 }, active := true, invaderType := 1 }],
  playerBullets := [{ rect := { x := 845/2, y := 476, width := 5, height := 10 }, active := true, isPlayerBullet := true },
    { rect := { x := 835/2, y := 479, width := 5, height := 10 }, active := true, isPlayerBullet := true },
    { rect := { x := 745/2, y := 506, width := 5, height := 10 }, active := true, isPlayerBullet := true },
    { rect := { x := 735/2, y := 509, width := 5, height := 10 }, active := true, isPlayerBullet := true },
    { rect := { x := 645/2, y := 536, width := 5, height := 10 }, active := true, isPlayerBullet := true },
    { rect := { x := 635/2, y := 539, width := 5, height := 10 }, active := true, isPlayerBullet := true },
    { rect := { x := 545/2, y := 566, width := 5, height := 10 }, active := true, isPlayerBullet := true },
    { rect := { x := 535/2, y := 569, width := 5, height := 10 }, active := true, isPlayerBullet := true },
    { rect := { x := 445/2, y := 596, width := 5, height := 10 }, active := true, isPlayerBullet := true },
    { rect := { x := 435/2, y := 599, width := 5, height := 10 }, active := true, isPlayerBullet := true },
    { rect := { x := 345/2, y := 626, width := 5, height := 10 }, active := true, isPlayerBullet := true },
    { rect := { x := 335/2, y := 629, width := 5, height := 10 }, active := true, isPlayerBullet := true }],
  invaderBullets := [],
  score := 0, gameOver := false, gameWon := false,
  invaderMoveDirection := 1, invaderMoveTimer := 0,
  currentScreenW := 1280, currentScreenH := 720 }

/-- The invaders state after frame 110 of the C3 trace. -/
def c3S110 : SIState :=
{ player := { rect := { x := 65, y := 650, width := 50, height := 50 }, lives := 5, lastShotTime := 103 },
  invaders := [{ rect := { x := 50, y := 100, width := 30, height := 30 }, active := true, invaderType := 0 },
    { rect := { x := 100, y := 100, width := 30, height := 30 }, active := true, invaderType := 0 },
    { rect := { x := 150, y := 100, width := 30, height := 30 }, active := true, invaderType := 0 },
    { rect := { x := 200, y := 100, width := 30, height := 30 }, active := true, invaderType := 0 },
    { rect := { x := 250, y := 100, width := 30, height := 30 }, active := true, invaderType := 0 },
    { rect := { x := 300, y := 100, width := 30, height := 30 }, active := true, invaderType := 0 },
    { rect := { x := 350, y := 100, width := 30, height := 30 }, active := true, invaderType := 0 },
    { rect := { x := 400, y := 100, width := 30, height := 30 }, active := true, invaderType := 0 },
    { rect := { x := 50, y := 140, width := 30, height := 30 }, active := true, invaderType := 1 },
    { rect := { x := 100, y := 140, width := 30, height := 30 }, active := true, invaderType := 1 },
    { rect := { x := 150, y := 140, width := 30, height := 30 }, active := true, invaderType := 1 },
    { rect := { x := 200, y := 140, width := 30, height := 30 }, active := true, invaderType := 1 },
    { rect := { x := 250, y := 140, width := 30, height := 30 }, active := true, invaderType := 1 },
    { rect := { x := 300, y := 140, width := 30, height := 30 }, active := true, invaderType := 1 },
    { rect := { x := 350, y := 140, width := 30, height := 30 }, active := true, invaderType := 1 },
    { rect := { x := 400, y := 140, width := 30, height := 30 }, active := true, invaderType := 1 }],
  playerBullets := [{ rect := { x := 845/2, y := 446, width := 5, height := 10 }, active := true, isPlayerBullet := true },
    { rect := { x := 835/2, y := 449, width := 5, height := 10 }, active := true, isPlayerBullet := true },
    { rect := { x := 745/2, y := 476, width := 5, height := 10 }, active := true, isPlayerBullet := true },
    { rect := { x := 735/2, y := 479, width := 5, height := 10 }, active := true, isPlayerBullet := true },
    { rect := { x := 645/2, y := 506, width := 5, height := 10 }, active := true, isPlayerBullet := true },
    { rect := { x := 635/2, y := 509, width := 5, height := 10 }, active := true, isPlayerBullet := true },
    { rect := { x := 545/2, y := 536, width := 5, height := 10 }, active := true, isPlayerBullet := true },
    { rect := { x := 535/2, y := 539, width := 5, height := 10 }, active := true, isPlayerBullet := true },
    { rect := { x := 445/2, y := 566, width := 5, height := 10 }, active := true, isPlayerBullet := true },
    { rect := { x := 435/2, y := 569, width := 5, height := 10 }, active := true, isPlayerBullet := true },
    { rect := { x := 345/2, y := 596, width := 5, height := 10 }, active := true, isPlayerBullet := true },
    { rect := { x := 335/2, y := 599, width := 5, height := 10 }, active := true, isPlayerBullet := true },
    { rect := { x := 245/2, y := 626, width := 5, height := 10 }, active := true, isPlayerBullet := true },
    { rect := { x := 235/2, y := 629, width := 5, height := 10 }, active := true, isPlayerBullet := true }],
  invaderBullets := [],
  score := 0, gameOver := false, gameWon := false,
  invaderMoveDirection := 1, invaderMoveTimer := 0,
  currentScreenW := 1280, currentScreenH := 720 }

/-- The invaders state after frame 120 of the C3 trace. -/
def c3S120 : SIState :=
{ player := { rect := { x := 50, y := 650, width := 50, height := 50 }, lives := 5, lastShotTime := 112 },
  invaders := [{ rect := { x := 50, y := 100, width := 30, height := 30 }, active := true, invaderType := 0 },
    { rect := { x := 100, y := 100, width := 30, height := 30 }, active := true, invaderType := 0 },
    { rect := { x := 150, y := 100, width := 30, height := 30 }, active := true, invaderType := 0 },
    { rect := { x := 200, y := 100, width := 30, height := 30 }, active := true, invaderType := 0 },
    { rect := { x := 250, y := 100, width := 30, height := 30 }, active := true, invaderType := 0 },
    { rect := { x := 300, y := 100, width := 30, height := 30 }, active := true, invaderType := 0 },
    { rect := { x := 350, y := 100, width := 30, height := 30 }, active := true, invaderType := 0 },
    { rect := { x := 400, y := 100, width := 30, height := 30 }, active := true, invaderType := 0 },
    { rect := { x := 50, y := 140, width := 30, height := 30 }, active := true, invaderType := 1 },
    { rect := { x := 100, y := 140, width := 30, height := 30 }, active := true, invaderType := 1 },
    { rect := { x := 150, y := 140, width := 30, height := 30 }, active := true, invaderType := 1 },
    { rect := { x := 200, y := 140, width := 30, height := 30 }, active := true, invaderType := 1 },
    { rect := { x := 250, y := 140, width := 30, height := 30 }, active := true, invaderType := 1 },
    { rect := { x := 300, y := 140, width := 30, height := 30 }, active := true, invaderType := 1 },
    { rect := { x := 350, y := 140, width := 30, height := 30 }, active := true, invaderType := 1 },
    { rect := { x := 400, y := 140, width := 30, height := 30 }, active := true, invaderType := 1 }],
  playerBullets := [{ rect := { x := 845/2, y := 416, width := 5, height := 10 }, active := true, isPlayerBullet := true },
    { rect := { x := 835/2, y := 419, width := 5, height := 10 }, active := true, isPlayerBullet := true },
    { rect := { x := 745/2, y := 446, width := 5, height := 10 }, active := true, isPlayerBullet := true },
    { rect := { x := 735/2, y := 449, width := 5, height := 10 }, active := true, isPlayerBullet := true },
    { rect := { x := 645/2, y := 476, width := 5, height := 10 }, active := true, isPlayerBullet := true },
    { rect := { x := 635/2, y := 479, width := 5, height := 10 }, active := true, isPlayerBullet := true },
    { rect := { x := 545/2, y := 506, width := 5, height := 10 }, active := true, isPlayerBullet := true },
    { rect := { x := 535/2, y := 509, width := 5, height := 10 }, active := true, isPlayerBullet := true },
    { rect := { x := 445/2, y := 536, width := 5, height := 10 }, active := true, isPlayerBullet := true },
    { rect := { x := 435/2, y := 539, width := 5, height := 10 }, active := true, isPlayerBullet := true },
    { rect := { x := 345/2, y := 566, width := 5, height := 10 }, active := true, isPlayerBullet := true },
    { rect := { x := 335/2, y := 569, width := 5, height := 10 }, active := true, isPlayerBullet := true },
    { rect := { x := 245/2, y := 596, width := 5, height := 10 }, active := true, isPlayerBullet := true },
    { rect := { x := 235/2, y := 599, width := 5, height := 10 }, active := true, isPlayerBullet := true },
    { rect := { x := 145/2, y := 626, width := 5, height := 10 }, active := true, isPlayerBullet := true }],
  invaderBullets := [{ rect := { x := 125/2, y := 133, width := 5, height := 10 }, active := true, isPlayerBullet := false },
    { rect := { x := 125/2, y := 130, width := 5, height := 10 }, active := true, isPlayerBullet := false }],
  score := 0, gameOver := false, gameWon := false,
  invaderMoveDirection := 1, invaderMoveTimer := 1/5,
  currentScreenW := 1280, currentScreenH := 720 }

/-- The invaders state after frame 130 of the C3 trace. -/
def c3S130 : SIState :=
{ player := { rect := { x := 50, y := 650, width := 50, height := 50 }, lives := 5, lastShotTime := 120 },
  invaders := [{ rect := { x := 50, y := 100, width := 30, height := 30 }, active := true, invaderType := 0 },
    { rect := { x := 100, y := 100, width := 30, height := 30 }, active := true, invaderType := 0 },
    { rect := { x := 150, y := 100, width := 30, height := 30 }, active := true, invaderType := 0 },
    { rect := { x := 200, y := 100, width := 30, height := 30 }, active := true, invaderType := 0 },
    { rect := { x := 250, y := 100, width := 30, height := 30 }, active := true, invaderType := 0 },
    { rect := { x := 300, y := 100, width := 30, height := 30 }, active := true, invaderType := 0 },
    { rect := { x := 350, y := 100, width := 30, height := 30 }, active := true, invaderType := 0 },
    { rect := { x := 400, y := 100, width := 30, height := 30 }, active := true, invaderType := 0 },
    { rect := { x := 50, y := 140, width := 30, height := 30 }, active := true, invaderType := 1 },
    { rect := { x := 100, y := 140, width := 30, height := 30 }, active := true, invaderType := 1 },
    { rect := { x := 150, y := 140, width := 30, height := 30 }, active := true, invaderType := 1 },
    { rect := { x := 200, y := 140, width := 30, height := 30 }, active := true, invaderType := 1 },
    { rect := { x := 250, y := 140, width := 30, height := 30 }, active := true, invaderType := 1 },
    { rect := { x := 300, y := 140, width := 30, height := 30 }, active := true, invaderType := 1 },
    { rect := { x := 350, y := 140, width := 30, height := 30 }, active := true, invaderType := 1 },
    { rect := { x := 400, y := 140, width := 30, height := 30 }, active := true, invaderType := 1 }],
  playerBullets := [{ rect := { x := 845/2, y := 386, width := 5, height := 10 }, active := true, isPlayerBullet := true },
    { rect := { x := 835/2, y := 389, width := 5, height := 10 }, active := true, isPlayerBullet := true },
    { rect := { x := 745/2, y := 416, width := 5, height := 10 }, active := true, isPlayerBullet := true },
    { rect := { x := 735/2, y := 419, width := 5, height := 10 }, active := true, isPlayerBullet := true },
    { rect := { x := 645/2, y := 446, width := 5, height := 10 }, active := true, isPlayerBullet := true },
    { rect := { x := 635/2, y := 449, width := 5, height := 10 }, active := true, isPlayerBullet := true },
    { rect := { x := 545/2, y := 476, width := 5, height := 10 }, active := true, isPlayerBullet := true },
    { rect := { x := 535/2, y := 479, width := 5, height := 10 }, active := true, isPlayerBullet := true },
    { rect := { x := 445/2, y := 506, width := 5, height := 10 }, active := true, isPlayerBullet := true },
    { rect := { x := 435/2, y := 509, width := 5, height := 10 }, active := true, isPlayerBullet := true },
    { rect := { x := 345/2, y := 536, width := 5, height := 10 }, active := true, isPlayerBullet := true },
    { rect := { x := 335/2, y := 539, width := 5, height := 10 }, active := true, isPlayerBullet := true },
    { rect := { x := 245/2, y := 566, width := 5, height := 10 }, active := true, isPlayerBullet := true },
    { rect := { x := 235/2, y := 569, width := 5, height := 10 }, active := true, isPlayerBullet := true },
    { rect := { x := 145/2, y := 596, width := 5, height := 10 }, active := true, isPlayerBullet := true },
    { rect := { x := 145/2, y := 620, width := 5, height := 10 }, active := true, isPlayerBullet := true }],
  invaderBullets := [{ rect := { x := 125/2, y := 163, width := 5, height := 10 }, active := true, isPlayerBullet := false },
    { rect := { x := 125/2, y := 160, width := 5, height := 10 }, active := true, isPlayerBullet := false },
    { rect := { x := 125/2, y := 157, width := 5, height := 10 }, active := true, isPlayerBullet := false },
    { rect := { x := 125/2, y := 154, width := 5, height := 10 }, active := true, isPlayerBullet := false },
    { rect := { x := 125/2, y := 151, width := 5, height := 10 }, active := true, isPlayerBullet := false }],
  score := 0, gameOver := false, gameWon := false,
  invaderMoveDirection := 1, invaderMoveTimer := 1/2,
  currentScreenW := 1280, currentScreenH := 720 }

/-- The invaders state after frame 140 of the C3 trace. -/
def c3S140 : SIState :=
{ player := { rect := { x := 50, y := 650, width := 50, height := 50 }, lives := 5, lastShotTime := 120 },
  invaders := [{ rect := { x := 50, y := 100, width := 30, height := 30 }, active := true, invaderType := 0 },
    { rect := { x := 100, y := 100, width := 30, height := 30 }, active := true, invaderType := 0 },
    { rect := { x := 150, y := 100, width := 30, height := 30 }, active := true, invaderType := 0 },
    { rect := { x := 200, y := 100, width := 30, height := 30 }, active := true, invaderType := 0 },
    { rect := { x := 250, y := 100, width := 30, height := 30 }, active := true, invaderType := 0 },
    { rect := { x := 300, y := 100, width := 30, height := 30 }, active := true, invaderType := 0 },
    { rect := { x := 350, y := 100, width := 30, height := 30 }, active := true, invaderType := 0 },
    { rect := { x := 400, y := 100, width := 30, height := 30 }, active := true, invaderType := 0 },
    { rect := { x := 50, y := 140, width := 30, height := 30 }, active := true, invaderType := 1 },
    { rect := { x := 100, y := 140, width := 30, height := 30 }, active := true, invaderType := 1 },
    { rect := { x := 150, y := 140, width := 30, height := 30 }, active := true, invaderType := 1 },
    { rect := { x := 200, y := 140, width := 30, height := 30 }, active := true, invaderType := 1 },
    { rect := { x := 250, y := 140, width := 30, height := 30 }, active := true, invaderType := 1 },
    { rect := { x := 300, y := 140, width := 30, height := 30 }, active := true, invaderType := 1 },
    { rect := { x := 350, y := 140, width := 30, height := 30 }, active := true, invaderType := 1 },
    { rect := { x := 400, y := 140, width := 30, height := 30 }, active := true, invaderType := 1 }],
  playerBullets := [{ rect := { x := 845/2, y := 356, width := 5, height := 10 }, active := true, isPlayerBullet := true },
    { rect := { x := 835/2, y := 359, width := 5, height := 10 }, active := true, isPlayerBullet := true },
    { rect := { x := 745/2, y := 386, width := 5, height := 10 }, active := true, isPlayerBullet := true },
    { rect := { x := 735/2, y := 389, width := 5, height := 10 }, active := true, isPlayerBullet := true },
    { rect := { x := 645/2, y := 416, width := 5, height := 10 }, active := true, isPlayerBullet := true },
    { rect := { x := 635/2, y := 419, width := 5, height := 10 }, active := true, isPlayerBullet := true },
    { rect := { x := 545/2, y := 446, width := 5, height := 10 }, active := true, isPlayerBullet := true },
    { rect := { x := 535/2, y := 449, width := 5, height := 10 }, active := true, isPlayerBullet := true },
    { rect := { x := 445/2, y := 476, width := 5, height := 10 }, active := true, isPlayerBullet := true },
    { rect := { x := 435/2, y := 479, width := 5, height := 10 }, active := true, isPlayerBullet := true },
    { rect := { x := 345/2, y := 506, width := 5, height := 10 }, active := true, isPlayerBullet := true },
    { rect := { x := 335/2, y := 509, width := 5, height := 10 }, active := true, isPlayerBullet := true },
    { rect := { x := 245/2, y := 536, width := 5, height := 10 }, active := true, isPlayerBullet := true },
    { rect := { x := 235/2, y := 539, width := 5, height := 10 }, active := true, isPlayerBullet := true },
    { rect := { x := 145/2, y := 566, width := 5, height := 10 }, active := true, isPlayerBullet := true },
    { rect := { x := 145/2, y := 590, width := 5, height := 10 }, active := true, isPlayerBullet := true }],
  invaderBullets := [{ rect := { x := 125/2, y := 193, width := 5, height := 10 }, active := true, isPlayerBullet := false },
    { rect := { x := 125/2, y := 190, width := 5, height := 10 }, active := true, isPlayerBullet := false },
    { rect := { x := 125/2, y := 187, width := 5, height := 10 }, active := true, isPlayerBullet := false },
    { rect := { x := 125/2, y := 184, width := 5, height := 10 }, active := true, isPlayerBullet := false },
    { rect := { x := 125/2, y := 181, width := 5, height := 10 }, active := true, isPlayerBullet := false }],
  score := 0, gameOver := false, gameWon := false,
  invaderMoveDirection := 1, invaderMoveTimer := 1/2,
  currentScreenW := 1280, currentScreenH := 720 }

/-- The invaders state after frame 150 of the C3 trace. -/
def c3S150 : SIState :=
{ player := { rect := { x := 50, y := 650, width := 50, height := 50 }, lives := 5, lastShotTime := 120 },
  invaders := [{ rect := { x := 50, y := 100, width := 30, height := 30 }, active := true, invaderType := 0 },
    { rect := { x := 100, y := 100, width := 30, height := 30 }, active := true, invaderType := 0 },
    { rect := { x := 150, y := 100, width := 30, height := 30 }, active := true, invaderType := 0 },
    { rect := { x := 200, y := 100, width := 30, height := 30 }, active := true, invaderType := 0 },
    { rect := { x := 250, y := 100, width := 30, height := 30 }, active := true, invaderType := 0 },
    { rect := { x := 300, y := 100, width := 30, height := 30 }, active := true, invaderType := 0 },
    { rect := { x := 350, y := 100, width := 30, height := 30 }, active := true, invaderType := 0 },
    { rect := { x := 400, y := 100, width := 30, height := 30 }, active := true, invaderType := 0 },
    { rect := { x := 50, y := 140, width := 30, height := 30 }, active := true, invaderType := 1 },
    { rect := { x := 100, y := 140, width := 30, height := 30 }, active := true, invaderType := 1 },
    { rect := { x := 150, y := 140, width := 30, height := 30 }, active := true, invaderType := 1 },
    { rect := { x := 200, y := 140, width := 30, height := 30 }, active := true, invaderType := 1 },
    { rect := { x := 250, y := 140, width := 30, height := 30 }, active := true, invaderType := 1 },
    { rect := { x := 300, y := 140, width := 30, height := 30 }, active := true, invaderType := 1 },
    { rect := { x := 350, y := 140, width := 30, height := 30 }, active := true, invaderType := 1 },
    { rect := { x := 400, y := 140, width := 30, height := 30 }, active := true, invaderType := 1 }],
  playerBullets := [{ rect := { x := 845/2, y := 326, width := 5, height := 10 }, active := true, isPlayerBullet := true },
    { rect := { x := 835/2, y := 329, width := 5, height := 10 }, active := true, isPlayerBullet := true },
    { rect := { x := 745/2, y := 356, width := 5, height := 10 }, active := true, isPlayerBullet := true },
    { rect := { x := 735/2, y := 359, width := 5, height := 10 }, active := true, isPlayerBullet := true },
    { rect := { x := 645/2, y := 386, width := 5, height := 10 }, active := true, isPlayerBullet := true },
    { rect := { x := 635/2, y := 389, width := 5, height := 10 }, active := true, isPlayerBullet := true },
    { rect := { x := 545/2, y := 416, width := 5, height := 10 }, active := true, isPlayerBullet := true },
    { rect := { x := 535/2, y := 419, width := 5, height := 10 }, active := true, isPlayerBullet := true },
    { rect := { x := 445/2, y := 446, width := 5, height := 10 }, active := true, isPlayerBullet := true },
    { rect := { x := 435/2, y := 449, width := 5, height := 10 }, active := true, isPlayerBullet := true },
    { rect := { x := 345/2, y := 476, width := 5, height := 10 }, active := true, isPlayerBullet := true },
    { rect := { x := 335/2, y := 479, width := 5, height := 10 }, active := true, isPlayerBullet := true },
    { rect := { x := 245/2, y := 506, width := 5, height := 10 }, active := true, isPlayerBullet := true },
    { rect := { x := 235/2, y := 509, width := 5, height := 10 }, active := true, isPlayerBullet := true },
    { rect := { x := 145/2, y := 536, width := 5, height := 10 }, active := true, isPlayerBullet := true },
    { rect := { x := 145/2, y := 560, width := 5, height := 10 }, active := true, isPlayerBullet := true }],
  invaderBullets := [{ rect := { x := 125/2, y := 223, width := 5, height := 10 }, active := true, isPlayerBullet := false },
    { rect := { x := 125/2, y := 220, width := 5, height := 10 }, active := true, isPlayerBullet := false },
    { rect := { x := 125/2, y := 217, width := 5, height := 10 }, active := true, isPlayerBullet := false },
    { rect := { x := 125/2, y := 214, width := 5, height := 10 }, active := true, isPlayerBullet := false },
    { rect := { x := 125/2, y := 211, width := 5, height := 10 }, active := true, isPlayerBullet := false }],
  score := 0, gameOver := false, gameWon := false,
  invaderMoveDirection := 1, invaderMoveTimer := 1/2,
  currentScreenW := 1280, currentScreenH := 720 }

/-- The invaders state after frame 160 of the C3 trace. -/
def c3S160 : SIState :=
{ player := { rect := { x := 50, y := 650, width := 50, height := 50 }, lives := 5, lastShotTime := 120 },
  invaders := [{ rect := { x := 50, y := 100, width := 30, height := 30 }, active := true, invaderType := 0 },
    { rect := { x := 100, y := 100, width := 30, height := 30 }, active := true, invaderType := 0 },
    { rect := { x := 150, y := 100, width := 30, height := 30 }, active := true, invaderType := 0 },
    { rect := { x := 200, y := 100, width := 30, height := 30 }, active := true, invaderType := 0 },
    { rect := { x := 250, y := 100, width := 30, height := 30 }, active := true, invaderType := 0 },
    { rect := { x := 300, y := 100, width := 30, height := 30 }, active := true, invaderType := 0 },
    { rect := { x := 350, y := 100, width := 30, height := 30 }, active := true, invaderType := 0 },
    { rect := { x := 400, y := 100, width := 30, height := 30 }, active := true, invaderType := 0 },
    { rect := { x := 50, y := 140, width := 30, height := 30 }, active := true, invaderType := 1 },
    { rect := { x := 100, y := 140, width := 30, height := 30 }, active := true, invaderType := 1 },
    { rect := { x := 150, y := 140, width := 30, height := 30 }, active := true, invaderType := 1 },
    { rect := { x := 200, y := 140, width := 30, height := 30 }, active := true, invaderType := 1 },
    { rect := { x := 250, y := 140, width := 30, height := 30 }, active := true, invaderType := 1 },
    { rect := { x := 300, y := 140, width := 30, height := 30 }, active := true, invaderType := 1 },
    { rect := { x := 350, y := 140, width := 30, height := 30 }, active := true, invaderType := 1 },
    { rect := { x := 400, y := 140, width := 30, height := 30 }, active := true, invaderType := 1 }],
  playerBullets := [{ rect := { x := 845/2, y := 296, width := 5, height := 10 }, active := true, isPlayerBullet := true },
    { rect := { x := 835/2, y := 299, width := 5, height := 10 }, active := true, isPlayerBullet := true },
    { rect := { x := 745/2, y := 326, width := 5, height := 10 }, active := true, isPlayerBullet := true },
    { rect := { x := 735/2, y := 329, width := 5, height := 10 }, active := true, isPlayerBullet := true },
    { rect := { x := 645/2, y := 356, width := 5, height := 10 }, active := true, isPlayerBullet := true },
    { rect := { x := 635/2, y := 359, width := 5, height := 10 }, active := true, isPlayerBullet := true },
    { rect := { x := 545/2, y := 386, width := 5, height := 10 }, active := true, isPlayerBullet := true },
    { rect := { x := 535/2, y := 389, width := 5, height := 10 }, active := true, isPlayerBullet := true },
    { rect := { x := 445/2, y := 416, width := 5, height := 10 }, active := true, isPlayerBullet := true },
    { rect := { x := 435/2, y := 419, width := 5, height := 10 }, active := true, isPlayerBullet := true },
    { rect := { x := 345/2, y := 446, width := 5, height := 10 }, active := true, isPlayerBullet := true },
    { rect := { x := 335/2, y := 449, width := 5, height := 10 }, active := true, isPlayerBullet := true },
    { rect := { x := 245/2, y := 476, width := 5, height := 10 }, active := true, isPlayerBullet := true },
    { rect := { x := 235/2, y := 479, width := 5, height := 10 }, active := true, isPlayerBullet := true },
    { rect := { x := 145/2, y := 506, width := 5, height := 10 }, active := true, isPlayerBullet := true },
    { rect := { x := 145/2, y := 530, width := 5, height := 10 }, active := true, isPlayerBullet := true }],
  invaderBullets := [{ rect := { x := 125/2, y := 253, width := 5, height := 10 }, active := true, isPlayerBullet := false },
    { rect := { x := 125/2, y := 250, width := 5, height := 10 }, active := true, isPlayerBullet := false },
    { rect := { x := 125/2, y := 247, width := 5, height := 10 }, active := true, isPlayerBullet := false },
    { rect := { x := 125/2, y := 244, width := 5, height := 10 }, active := true, isPlayerBullet := false },
    { rect := { x := 125/2, y := 241, width := 5, height := 10 }, active := true, isPlayerBullet := false }],
  score := 0, gameOver := false, gameWon := false,
  invaderMoveDirection := 1, invaderMoveTimer := 1/2,
  currentScreenW := 1280, currentScreenH := 720 }

/-- The invaders state after frame 170 of the C3 trace. -/
def c3S170 : SIState :=
{ player := { rect := { x := 50, y := 650, width := 50, height := 50 }, lives := 5, lastShotTime := 120 },
  invaders := [{ rect := { x := 50, y := 100, width := 30, height := 30 }, active := true, invaderType := 0 },
    { rect := { x := 100, y := 100, width := 30, height := 30 }, active := true, invaderType := 0 },
    { rect := { x := 150, y := 100, width := 30, height := 30 }, active := true, invaderType := 0 },
    { rect := { x := 200, y := 100, width := 30, height := 30 }, active := true, invaderType := 0 },
    { rect := { x := 250, y := 100, width := 30, height := 30 }, active := true, invaderType := 0 },
    { rect := { x := 300, y := 100, width := 30, height := 30 }, active := true, invaderType := 0 },
    { rect := { x := 350, y := 100, width := 30, height := 30 }, active := true, invaderType := 0 },
    { rect := { x := 400, y := 100, width := 30, height := 30 }, active := true, invaderType := 0 },
    { rect := { x := 50, y := 140, width := 30, height := 30 }, active := true, invaderType := 1 },
    { rect := { x := 100, y := 140, width := 30, height := 30 }, active := true, invaderType := 1 },
    { rect := { x := 150, y := 140, width := 30, height := 30 }, active := true, invaderType := 1 },
    { rect := { x := 200, y := 140, width := 30, height := 30 }, active := true, invaderType := 1 },
    { rect := { x := 250, y := 140, width := 30, height := 30 }, active := true, invaderType := 1 },
    { rect := { x := 300, y := 140, width := 30, height := 30 }, active := true, invaderType := 1 },
    { rect := { x := 350, y := 140, width := 30, height := 30 }, active := true, invaderType := 1 },
    { rect := { x := 400, y := 140, width := 30, height := 30 }, active := true, invaderType := 1 }],
  playerBullets := [{ rect := { x := 845/2, y := 266, width := 5, height := 10 }, active := true, isPlayerBullet := true },
    { rect := { x := 835/2, y := 269, width := 5, height := 10 }, active := true, isPlayerBullet := true },
    { rect := { x := 745/2, y := 296, width := 5, height := 10 }, active := true, isPlayerBullet := true },
    { rect := { x := 735/2, y := 299, width := 5, height := 10 }, active := true, isPlayerBullet := true },
    { rect := { x := 645/2, y := 326, width := 5, height := 10 }, active := true, isPlayerBullet := true },
    { rect := { x := 635/2, y := 329, width := 5, height := 10 }, active := true, isPlayerBullet := true },
    { rect := { x := 545/2, y := 356, width := 5, height := 10 }, active := true, isPlayerBullet := true },
    { rect := { x := 535/2, y := 359, width := 5, height := 10 }, active := true, isPlayerBullet := true },
    { rect := { x := 445/2, y := 386, width := 5, height := 10 }, active := true, isPlayerBullet := true },
    { rect := { x := 435/2, y := 389, width := 5, height := 10 }, active := true, isPlayerBullet := true },
    { rect := { x := 345/2, y := 416, width := 5, height := 10 }, active := true, isPlayerBullet := true },
    { rect := { x := 335/2, y := 419, width := 5, height := 10 }, active := true, isPlayerBullet := true },
    { rect := { x := 245/2, y := 446, width := 5, height := 10 }, active := true, isPlayerBullet := true },
    { rect := { x := 235/2, y := 449, width := 5, height := 10 }, active := true, isPlayerBullet := true },
    { rect := { x := 145/2, y := 476, width := 5, height := 10 }, active := true, isPlayerBullet := true },
    { rect := { x := 145/2, y := 500, width := 5, height := 10 }, active := true, isPlayerBullet := true }],
  invaderBullets := [{ rect := { x := 125/2, y := 283, width := 5, height := 10 }, active := true, isPlayerBullet := false },
    { rect := { x := 125/2, y := 280, width := 5, height := 10 }, active := true, isPlayerBullet := false },
    { rect := { x := 125/2, y := 277, width := 5, height := 10 }, active := true, isPlayerBullet := false },
    { rect := { x := 125/2, y := 274, width := 5, height := 10 }, active := true, isPlayerBullet := false },
    { rect := { x := 125/2, y := 271, width := 5, height := 10 }, active := true, isPlayerBullet := false }],
  score := 0, gameOver := false, gameWon := false,
  invaderMoveDirection := 1, invaderMoveTimer := 1/2,
  currentScreenW := 1280, currentScreenH := 720 }

/-- The invaders state after frame 180 of the C3 trace. -/
def c3S180 : SIState :=
{ player := { rect := { x := 50, y := 650, width := 50, height := 50 }, lives := 5, lastShotTime := 120 },
  invaders := [{ rect := { x := 50, y := 100, width := 30, height := 30 }, active := true, invaderType := 0 },
    { rect := { x := 100, y := 100, width := 30, height := 30 }, active := true, invaderType := 0 },
    { rect := { x := 150, y := 100, width := 30, height := 30 }, active := true, invaderType := 0 },
    { rect := { x := 200, y := 100, width := 30, height := 30 }, active := true, invaderType := 0 },
    { rect := { x := 250, y := 100, width := 30, height := 30 }, active := true, invaderType := 0 },
    { rect := { x := 300, y := 100, width := 30, height := 30 }, active := true, invaderType := 0 },
    { rect := { x := 350, y := 100, width := 30, height := 30 }, active := true, invaderType := 0 },
    { rect := { x := 400, y := 100, width := 30, height := 30 }, active := true, invaderType := 0 },
    { rect := { x := 50, y := 140, width := 30, height := 30 }, active := true, invaderType := 1 },
    { rect := { x := 100, y := 140, width := 30, height := 30 }, active := true, invaderType := 1 },
    { rect := { x := 150, y := 140, width := 30, height := 30 }, active := true, invaderType := 1 },
    { rect := { x := 200, y := 140, width := 30, height := 30 }, active := true, invaderType := 1 },
    { rect := { x := 250, y := 140, width := 30, height := 30 }, active := true, invaderType := 1 },
    { rect := { x := 300, y := 140, width := 30, height := 30 }, active := true, invaderType := 1 },
    { rect := { x := 350, y := 140, width := 30, height := 30 }, active := true, invaderType := 1 },
    { rect := { x := 400, y := 140, width := 30, height := 30 }, active := true, invaderType := 1 }],
  playerBullets := [{ rect := { x := 845/2, y := 236, width := 5, height := 10 }, active := true, isPlayerBullet := true },
    { rect := { x := 835/2, y := 239, width := 5, height := 10 }, active := true, isPlayerBullet := true },
    { rect := { x := 745/2, y := 266, width := 5, height := 10 }, active := true, isPlayerBullet := true },
    { rect := { x := 735/2, y := 269, width := 5, height := 10 }, active := true, isPlayerBullet := true },
    { rect := { x := 645/2, y := 296, width := 5, height := 10 }, active := true, isPlayerBullet := true },
    { rect := { x := 635/2, y := 299, width := 5, height := 10 }, active := true, isPlayerBullet := true },
    { rect := { x := 545/2, y := 326, width := 5, height := 10 }, active := true, isPlayerBullet := true },
    { rect := { x := 535/2, y := 329, width := 5, height := 10 }, active := true, isPlayerBullet := true },
    { rect := { x := 445/2, y := 356, width := 5, height := 10 }, active := true, isPlayerBullet := true },
    { rect := { x := 435/2, y := 359, width := 5, height := 10 }, active := true, isPlayerBullet := true },
    { rect := { x := 345/2, y := 386, width := 5, height := 10 }, active := true, isPlayerBullet := true },
    { rect := { x := 335/2, y := 389, width := 5, height := 10 }, active := true, isPlayerBullet := true },
    { rect := { x := 245/2, y := 416, width := 5, height := 10 }, active := true, isPlayerBullet := true },
    { rect := { x := 235/2, y := 419, width := 5, height := 10 }, active := true, isPlayerBullet := true },
    { rect := { x := 145/2, y := 446, width := 5, height := 10 }, active := true, isPlayerBullet := true },
    { rect := { x := 145/2, y := 470, width := 5, height := 10 }, active := true, isPlayerBullet := true }],
  invaderBullets := [{ rect := { x := 125/2, y := 313, width := 5, height := 10 }, active := true, isPlayerBullet := false },
    { rect := { x := 125/2, y := 310, width := 5, height := 10 }, active := true, isPlayerBullet := false },
    { rect := { x := 125/2, y := 307, width := 5, height := 10 }, active := true, isPlayerBullet := false },
    { rect := { x := 125/2, y := 304, width := 5, height := 10 }, active := true, isPlayerBullet := false },
    { rect := { x := 125/2, y := 301, width := 5, height := 10 }, active := true, isPlayerBullet := false }],
  score := 0, gameOver := false, gameWon := false,
  invaderMoveDirection := 1, invaderMoveTimer := 1/2,
  currentScreenW := 1280, currentScreenH := 720 }

/-- The invaders state after frame 190 of the C3 trace. -/
def c3S190 : SIState :=
{ player := { rect := { x := 50, y := 650, width := 50, height := 50 }, lives := 5, lastShotTime := 120 },
  invaders := [{ rect := { x := 50, y := 100, width := 30, height := 30 }, active := true, invaderType := 0 },
    { rect := { x := 100, y := 100, width := 30, height := 30 }, active := true, invaderType := 0 },
    { rect := { x := 150, y := 100, width := 30, height := 30 }, active := true, invaderType := 0 },
    { rect := { x := 200, y := 100, width := 30, height := 30 }, active := true, invaderType := 0 },
    { rect := { x := 250, y := 100, width := 30, height := 30 }, active := true, invaderType := 0 },
    { rect := { x := 300, y := 100, width := 30, height := 30 }, active := true, invaderType := 0 },
    { rect := { x := 350, y := 100, width := 30, height := 30 }, active := true, invaderType := 0 },
    { rect := { x := 400, y := 100, width := 30, height := 30 }, active := true, invaderType := 0 },
    { rect := { x := 50, y := 140, width := 30, height := 30 }, active := true, invaderType := 1 },
    { rect := { x := 100, y := 140, width := 30, height := 30 }, active := true, invaderType := 1 },
    { rect := { x := 150, y := 140, width := 30, height := 30 }, active := true, invaderType := 1 },
    { rect := { x := 200, y := 140, width := 30, height := 30 }, active := true, invaderType := 1 },
    { rect := { x := 250, y := 140, width := 30, height := 30 }, active := true, invaderType := 1 },
    { rect := { x := 300, y := 140, width := 30, height := 30 }, active := true, invaderType := 1 },
    { rect := { x := 350, y := 140, width := 30, height := 30 }, active := true, invaderType := 1 },
    { rect := { x := 400, y := 140, width := 30, height := 30 }, active := true, invaderType := 1 }],
  playerBullets := [{ rect := { x := 845/2, y := 206, width := 5, height := 10 }, active := true, isPlayerBullet := true },
    { rect := { x := 835/2, y := 209, width := 5, height := 10 }, active := true, isPlayerBullet := true },
    { rect := { x := 745/2, y := 236, width := 5, height := 10 }, active := true, isPlayerBullet := true },
    { rect := { x := 735/2, y := 239, width := 5, height := 10 }, active := true, isPlayerBullet := true },
    { rect := { x := 645/2, y := 266, width := 5, height := 10 }, active := true, isPlayerBullet := true },
    { rect := { x := 635/2, y := 269, width := 5, height := 10 }, active := true, isPlayerBullet := true },
    { rect := { x := 545/2, y := 296, width := 5, height := 10 }, active := true, isPlayerBullet := true },
    { rect := { x := 535/2, y := 299, width := 5, height := 10 }, active := true, isPlayerBullet := true },
    { rect := { x := 445/2, y := 326, width := 5, height := 10 }, active := true, isPlayerBullet := true },
    { rect := { x := 435/2, y := 329, width := 5, height := 10 }, active := true, isPlayerBullet := true },
    { rect := { x := 345/2, y := 356, width := 5, height := 10 }, active := true, isPlayerBullet := true },
    { rect := { x := 335/2, y := 359, width := 5, height := 10 }, active := true, isPlayerBullet := true },
    { rect := { x := 245/2, y := 386, width := 5, height := 10 }, active := true, isPlayerBullet := true },
    { rect := { x := 235/2, y := 389, width := 5, height := 10 }, active := true, isPlayerBullet := true },
    { rect := { x := 145/2, y := 416, width := 5, height := 10 }, active := true, isPlayerBullet := true },
    { rect := { x := 145/2, y := 440, width := 5, height := 10 }, active := true, isPlayerBullet := true }],
  invaderBullets := [{ rect := { x := 125/2, y := 343, width := 5, height := 10 }, active := true, isPlayerBullet := false },
    { rect := { x := 125/2, y := 340, width := 5, height := 10 }, active := true, isPlayerBullet := false },
    { rect := { x := 125/2, y := 337, width := 5, height := 10 }, active := true, isPlayerBullet := false },
    { rect := { x := 125/2, y := 334, width := 5, height := 10 }, active := true, isPlayerBullet := false },
    { rect := { x := 125/2, y := 331, width := 5, height := 10 }, active := true, isPlayerBullet := false }],
  score := 0, gameOver := false, gameWon := false,
  invaderMoveDirection := 1, invaderMoveTimer := 1/2,
  currentScreenW := 1280, currentScreenH := 720 }

/-- The invaders state after frame 200 of the C3 trace. -/
def c3S200 : SIState :=
{ player := { rect := { x := 50, y := 650, width := 50, height := 50 }, lives := 5, lastShotTime := 120 },
  invaders := [{ rect := { x := 50, y := 100, width := 30, height := 30 }, active := true, invaderType := 0 },
    { rect := { x := 100, y := 100, width := 30, height := 30 }, active := true, invaderType := 0 },
    { rect := { x := 150, y := 100, width := 30, height := 30 }, active := true, invaderType := 0 },
    { rect := { x := 200, y := 100, width := 30, height := 30 }, active := true, invaderType := 0 },
    { rect := { x := 250, y := 100, width := 30, height := 30 }, active := true, invaderType := 0 },
    { rect := { x := 300, y := 100, width := 30, height := 30 }, active := true, invaderType := 0 },
    { rect := { x := 350, y := 100, width := 30, height := 30 }, active := true, invaderType := 0 },
    { rect := { x := 400, y := 100, width := 30, height := 30 }, active := true, invaderType := 0 },
    { rect := { x := 50, y := 140, width := 30, height := 30 }, active := true, invaderType := 1 },
    { rect := { x := 100, y := 140, width := 30, height := 30 }, active := true, invaderType := 1 },
    { rect := { x := 150, y := 140, width := 30, height := 30 }, active := true, invaderType := 1 },
    { rect := { x := 200, y := 140, width := 30, height := 30 }, active := true, invaderType := 1 },
    { rect := { x := 250, y := 140, width := 30, height := 30 }, active := true, invaderType := 1 },
    { rect := { x := 300, y := 140, width := 30, height := 30 }, active := true, invaderType := 1 },
    { rect := { x := 350, y := 140, width := 30, height := 30 }, active := true, invaderType := 1 },
    { rect := { x := 400, y := 140, width := 30, height := 30 }, active := true, invaderType := 1 }],
  playerBullets := [{ rect := { x := 845/2, y := 176, width := 5, height := 10 }, active := true, isPlayerBullet := true },
    { rect := { x := 835/2, y := 179, width := 5, height := 10 }, active := true, isPlayerBullet := true },
    { rect := { x := 745/2, y := 206, width := 5, height := 10 }, active := true, isPlayerBullet := true },
    { rect := { x := 735/2, y := 209, width := 5, height := 10 }, active := true, isPlayerBullet := true },
    { rect := { x := 645/2, y := 236, width := 5, height := 10 }, active := true, isPlayerBullet := true },
    { rect := { x := 635/2, y := 239, width := 5, height := 10 }, active := true, isPlayerBullet := true },
    { rect := { x := 545/2, y := 266, width := 5, height := 10 }, active := true, isPlayerBullet := true },
    { rect := { x := 535/2, y := 269, width := 5, height := 10 }, active := true, isPlayerBullet := true },
    { rect := { x := 445/2, y := 296, width := 5, height := 10 }, active := true, isPlayerBullet := true },
    { rect := { x := 435/2, y := 299, width := 5, height := 10 }, active := true, isPlayerBullet := true },
    { rect := { x := 345/2, y := 326, width := 5, height := 10 }, active := true, isPlayerBullet := true },
    { rect := { x := 335/2, y := 329, width := 5, height := 10 }, active := true, isPlayerBullet := true },
    { rect := { x := 245/2, y := 356, width := 5, height := 10 }, active := true, isPlayerBullet := true },
    { rect := { x := 235/2, y := 359, width := 5, height := 10 }, active := true, isPlayerBullet := true },
    { rect := { x := 145/2, y := 386, width := 5, height := 10 }, active := true, isPlayerBullet := true },
    { rect := { x := 145/2, y := 410, width := 5, height := 10 }, active := true, isPlayerBullet := true }],
  invaderBullets := [{ rect := { x := 125/2, y := 373, width := 5, height := 10 }, active := true, isPlayerBullet := false },
    { rect := { x := 125/2, y := 370, width := 5, height := 10 }, active := true, isPlayerBullet := false },
    { rect := { x := 125/2, y := 367, width := 5, height := 10 }, active := true, isPlayerBullet := false },
    { rect := { x := 125/2, y := 364, width := 5, height := 10 }, active := true, isPlayerBullet := false },
    { rect := { x := 125/2, y := 361, width := 5, height := 10 }, active := true, isPlayerBullet := false }],
  score := 0, gameOver := false, gameWon := false,
  invaderMoveDirection := 1, invaderMoveTimer := 1/2,
  currentScreenW := 1280, currentScreenH := 720 }

/-- The invaders state after frame 210 of the C3 trace. -/
def c3S210 : SIState :=
{ player := { rect := { x := 50, y := 650, width := 50, height := 50 }, lives := 5, lastShotTime := 120 },
  invaders := [{ rect := { x := 50, y := 100, width := 30, height := 30 }, active := true, invaderType := 0 },
    { rect := { x := 100, y := 100, width := 30, height := 30 }, active := true, invaderType := 0 },
    { rect := { x := 150, y := 100, width := 30, height := 30 }, active := true, invaderType := 0 },
    { rect := { x := 200, y := 100, width := 30, height := 30 }, active := true, invaderType := 0 },
    { rect := { x := 250, y := 100, width := 30, height := 30 }, active := true, invaderType := 0 },
    { rect := { x := 300, y := 100, width := 30, height := 30 }, active := true, invaderType := 0 },
    { rect := { x := 350, y := 100, width := 30, height := 30 }, active := true, invaderType := 0 },
    { rect := { x := 400, y := 100, width := 30, height := 30 }, active := true, invaderType := 0 },
    { rect := { x := 50, y := 140, width := 30, height := 30 }, active := true, invaderType := 1 },
    { rect := { x := 100, y := 140, width := 30, height := 30 }, active := true, invaderType := 1 },
    { rect := { x := 150, y := 140, width := 30, height := 30 }, active := true, invaderType := 1 },
    { rect := { x := 200, y := 140, width := 30, height := 30 }, active := true, invaderType := 1 },
    { rect := { x := 250, y := 140, width := 30, height := 30 }, active := true, invaderType := 1 },
    { rect := { x := 300, y := 140, width := 30, height := 30 }, active := true, invaderType := 1 },
    { rect := { x := 350, y := 140, width := 30, height := 30 }, active := true, invaderType := 1 },
    { rect := { x := 400, y := 140, width := 30, height := 30 }, active := false, invaderType := 1 }],
  playerBullets := [{ rect := { x := 835/2, y := 149, width := 5, height := 10 }, active := true, isPlayerBullet := true },
    { rect := { x := 745/2, y := 176, width := 5, height := 10 }, active := true, isPlayerBullet := true },
    { rect := { x := 735/2, y := 179, width := 5, height := 10 }, active := true, isPlayerBullet := true },
    { rect := { x := 645/2, y := 206, width := 5, height := 10 }, active := true, isPlayerBullet := true },
    { rect := { x := 635/2, y := 209, width := 5, height := 10 }, active := true, isPlayerBullet := true },
    { rect := { x := 545/2, y := 236, width := 5, height := 10 }, active := true, isPlayerBullet := true },
    { rect := { x := 535/2, y := 239, width := 5, height := 10 }, active := true, isPlayerBullet := true },
    { rect := { x := 445/2, y := 266, width := 5, height := 10 }, active := true, isPlayerBullet := true },
    { rect := { x := 435/2, y := 269, width := 5, height := 10 }, active := true, isPlayerBullet := true },
    { rect := { x := 345/2, y := 296, width := 5, height := 10 }, active := true, isPlayerBullet := true },
    { rect := { x := 335/2, y := 299, width := 5, height := 10 }, active := true, isPlayerBullet := true },
    { rect := { x := 245/2, y := 326, width := 5, height := 10 }, active := true, isPlayerBullet := true },
    { rect := { x := 235/2, y := 329, width := 5, height := 10 }, active := true, isPlayerBullet := true },
    { rect := { x := 145/2, y := 356, width := 5, height := 10 }, active := true, isPlayerBullet := true },
    { rect := { x := 145/2, y := 380, width := 5, height := 10 }, active := true, isPlayerBullet := true }],
  invaderBullets := [{ rect := { x := 125/2, y := 403, width := 5, height := 10 }, active := true, isPlayerBullet := false },
    { rect := { x := 125/2, y := 400, width := 5, height := 10 }, active := true, isPlayerBullet := false },
    { rect := { x := 125/2, y := 397, width := 5, height := 10 }, active := true, isPlayerBullet := false },
    { rect := { x := 125/2, y := 394, width := 5, height := 10 }, active := true, isPlayerBullet := false },
    { rect := { x := 125/2, y := 391, width := 5, height := 10 }, active := true, isPlayerBullet := false }],
  score := 100, gameOver := false, gameWon := false,
  invaderMoveDirection := 1, invaderMoveTimer := 1/2,
  currentScreenW := 1280, currentScreenH := 720 }

/-- The invaders state after frame 220 of the C3 trace. -/
def c3S220 : SIState :=
{ player := { rect := { x := 50, y := 650, width := 50, height := 50 }, lives := 5, lastShotTime := 120 },
  invaders := [{ rect := { x := 50, y := 100, width := 30, height := 30 }, active := true, invaderType := 0 },
    { rect := { x := 100, y := 100, width := 30, height := 30 }, active := true, invaderType := 0 },
    { rect := { x := 150, y := 100, width := 30, height := 30 }, active := true, invaderType := 0 },
    { rect := { x := 200, y := 100, width := 30, height := 30 }, active := true, invaderType := 0 },
    { rect := { x := 250, y := 100, width := 30, height := 30 }, active := true, invaderType := 0 },
    { rect := { x := 300, y := 100, width := 30, height := 30 }, active := true, invaderType := 0 },
    { rect := { x := 350, y := 100, width := 30, height := 30 }, active := true, invaderType := 0 },
    { rect := { x := 400, y := 100, width := 30, height := 30 }, active := false, invaderType := 0 },
    { rect := { x := 50, y := 140, width := 30, height := 30 }, active := true, invaderType := 1 },
    { rect := { x := 100, y := 140, width := 30, height := 30 }, active := true, invaderType := 1 },
    { rect := { x := 150, y := 140, width := 30, height := 30 }, active := true, invaderType := 1 },
    { rect := { x := 200, y := 140, width := 30, height := 30 }, active := true, invaderType := 1 },
    { rect := { x := 250, y := 140, width := 30, height := 30 }, active := true, invaderType := 1 },
    { rect := { x := 300, y := 140, width := 30, height := 30 }, active := true, invaderType := 1 },
    { rect := { x := 350, y := 140, width := 30, height := 30 }, active := false, invaderType := 1 },
    { rect := { x := 400, y := 140, width := 30, height := 30 }, active := false, invaderType := 1 }],
  playerBullets := [{ rect := { x := 735/2, y := 149, width := 5, height := 10 }, active := true, isPlayerBullet := true },
    { rect := { x := 645/2, y := 176, width := 5, height := 10 }, active := true, isPlayerBullet := true },
    { rect := { x := 635/2, y := 179, width := 5, height := 10 }, active := true, isPlayerBullet := true },
    { rect := { x := 545/2, y := 206, width := 5, height := 10 }, active := true, isPlayerBullet := true },
    { rect := { x := 535/2, y := 209, width := 5, height := 10 }, active := true, isPlayerBullet := true },
    { rect := { x := 445/2, y := 236, width := 5, height := 10 }, active := true, isPlayerBullet := true },
    { rect := { x := 435/2, y := 239, width := 5, height := 10 }, active := true, isPlayerBullet := true },
    { rect := { x := 345/2, y := 266, width := 5, height := 10 }, active := true, isPlayerBullet := true },
    { rect := { x := 335/2, y := 269, width := 5, height := 10 }, active := true, isPlayerBullet := true },
    { rect := { x := 245/2, y := 296, width := 5, height := 10 }, active := true, isPlayerBullet := true },
    { rect := { x := 235/2, y := 299, width := 5, height := 10 }, active := true, isPlayerBullet := true },
    { rect := { x := 145/2, y := 326, width := 5, height := 10 }, active := true, isPlayerBullet := true },
    { rect := { x := 145/2, y := 350, width := 5, height := 10 }, active := true, isPlayerBullet := true }],
  invaderBullets := [{ rect := { x := 125/2, y := 433, width := 5, height := 10 }, active := true, isPlayerBullet := false },
    { rect := { x := 125/2, y := 430, width := 5, height := 10 }, active := true, isPlayerBullet := false },
    { rect := { x := 125/2, y := 427, width := 5, height := 10 }, active := true, isPlayerBullet := false },
    { rect := { x := 125/2, y := 424, width := 5, height := 10 }, active := true, isPlayerBullet := false },
    { rect := { x := 125/2, y := 421, width := 5, height := 10 }, active := true, isPlayerBullet := false }],
  score := 300, gameOver := false, gameWon := false,
  invaderMoveDirection := 1, invaderMoveTimer := 1/2,
  currentScreenW := 1280, currentScreenH := 720 }

/-- The invaders state after frame 230 of the C3 trace. -/
def c3S230 : SIState :=
{ player := { rect := { x := 50, y := 650, width := 50, height := 50 }, lives := 5, lastShotTime := 120 },
  invaders := [{ rect := { x := 50, y := 100, width := 30, height := 30 }, active := true, invaderType := 0 },
    { rect := { x := 100, y := 100, width := 30, height := 30 }, active := true, invaderType := 0 },
    { rect := { x := 150, y := 100, width := 30, height := 30 }, active := true, invaderType := 0 },
    { rect := { x := 200, y := 100, width := 30, height := 30 }, active := true, invaderType := 0 },
    { rect := { x := 250, y := 100, width := 30, height := 30 }, active := true, invaderType := 0 },
    { rect := { x := 300, y := 100, width := 30, height := 30 }, active := true, invaderType := 0 },
    { rect := { x := 350, y := 100, width := 30, height := 30 }, active := false, invaderType := 0 },
    { rect := { x := 400, y := 100, width := 30, height := 30 }, active := false, invaderType := 0 },
    { rect := { x := 50, y := 140, width := 30, height := 30 }, active := true, invaderType := 1 },
    { rect := { x := 100, y := 140, width := 30, height := 30 }, active := true, invaderType := 1 },
    { rect := { x := 150, y := 140, width := 30, height := 30 }, active := true, invaderType := 1 },
    { rect := { x := 200, y := 140, width := 30, height := 30 }, active := true, invaderType := 1 },
    { rect := { x := 250, y := 140, width := 30, height := 30 }, active := true, invaderType := 1 },
    { rect := { x := 300, y := 140, width := 30, height := 30 }, active := false, invaderType := 1 },
    { rect := { x := 350, y := 140, width := 30, height := 30 }, active := false, invaderType := 1 },
    { rect := { x := 400, y := 140, width := 30, height := 30 }, active := false, invaderType := 1 }],
  playerBullets := [{ rect := { x := 635/2, y := 149, width := 5, height := 10 }, active := true, isPlayerBullet := true },
    { rect := { x := 545/2, y := 176, width := 5, height := 10 }, active := true, isPlayerBullet := true },
    { rect := { x := 535/2, y := 179, width := 5, height := 10 }, active := true, isPlayerBullet := true },
    { rect := { x := 445/2, y := 206, width := 5, height := 10 }, active := true, isPlayerBullet := true },
    { rect := { x := 435/2, y := 209, width := 5, height := 10 }, active := true, isPlayerBullet := true },
    { rect := { x := 345/2, y := 236, width := 5, height := 10 }, active := true, isPlayerBullet := true },
    { rect := { x := 335/2, y := 239, width := 5, height := 10 }, active := true, isPlayerBullet := true },
    { rect := { x := 245/2, y := 266, width := 5, height := 10 }, active := true, isPlayerBullet := true },
    { rect := { x := 235/2, y := 269, width := 5, height := 10 }, active := true, isPlayerBullet := true },
    { rect := { x := 145/2, y := 296, width := 5, height := 10 }, active := true, isPlayerBullet := true },
    { rect := { x := 145/2, y := 320, width := 5, height := 10 }, active := true, isPlayerBullet := true }],
  invaderBullets := [{ rect := { x := 125/2, y := 463, width := 5, height := 10 }, active := true, isPlayerBullet := false },
    { rect := { x := 125/2, y := 460, width := 5, height := 10 }, active := true, isPlayerBullet := false },
    { rect := { x := 125/2, y := 457, width := 5, height := 10 }, active := true, isPlayerBullet := false },
    { rect := { x := 125/2, y := 454, width := 5, height := 10 }, active := true, isPlayerBullet := false },
    { rect := { x := 125/2, y := 451, width := 5, height := 10 }, active := true, isPlayerBullet := false }],
  score := 500, gameOver := false, gameWon := false,
  invaderMoveDirection := 1, invaderMoveTimer := 1/2,
  currentScreenW := 1280, currentScreenH := 720 }

/-- The invaders state after frame 240 of the C3 trace. -/
def c3S240 : SIState :=
{ player := { rect := { x := 50, y := 650, width := 50, height := 50 }, lives := 5, lastShotTime := 120 },
  invaders := [{ rect := { x := 50, y := 100, width := 30, height := 30 }, active := true, invaderType := 0 },
    { rect := { x := 100, y := 100, width := 30, height := 30 }, active := true, invaderType := 0 },
    { rect := { x := 150, y := 100, width := 30, height := 30 }, active := true, invaderType := 0 },
    { rect := { x := 200, y := 100, width := 30, height := 30 }, active := true, invaderType := 0 },
    { rect := { x := 250, y := 100, width := 30, height := 30 }, active := true, invaderType := 0 },
    { rect := { x := 300, y := 100, width := 30, height := 30 }, active := false, invaderType := 0 },
    { rect := { x := 350, y := 100, width := 30, height := 30 }, active := false, invaderType := 0 },
    { rect := { x := 400, y := 100, width := 30, height := 30 }, active := false, invaderType := 0 },
    { rect := { x := 50, y := 140, width := 30, height := 30 }, active := true, invaderType := 1 },
    { rect := { x := 100, y := 140, width := 30, height := 30 }, active := true, invaderType := 1 },
    { rect := { x := 150, y := 140, width := 30, height := 30 }, active := true, invaderType := 1 },
    { rect := { x := 200, y := 140, width := 30, height := 30 }, active := true, invaderType := 1 },
    { rect := { x := 250, y := 140, width := 30, height := 30 }, active := false, invaderType := 1 },
    { rect := { x := 300, y := 140, width := 30, height := 30 }, active := false, invaderType := 1 },
    { rect := { x := 350, y := 140, width := 30, height := 30 }, active := false, invaderType := 1 },
    { rect := { x := 400, y := 140, width := 30, height := 30 }, active := false, invaderType := 1 }],
  playerBullets := [{ rect := { x := 535/2, y := 149, width := 5, height := 10 }, active := true, isPlayerBullet := true },
    { rect := { x := 445/2, y := 176, width := 5, height := 10 }, active := true, isPlayerBullet := true },
    { rect := { x := 435/2, y := 179, width := 5, height := 10 }, active := true, isPlayerBullet := true },
    { rect := { x := 345/2, y := 206, width := 5, height := 10 }, active := true, isPlayerBullet := true },
    { rect := { x := 335/2, y := 209, width := 5, height := 10 }, active := true, isPlayerBullet := true },
    { rect := { x := 245/2, y := 236, width := 5, height := 10 }, active := true, isPlayerBullet := true },
    { rect := { x := 235/2, y := 239, width := 5, height := 10 }, active := true, isPlayerBullet := true },
    { rect := { x := 145/2, y := 266, width := 5, height := 10 }, active := true, isPlayerBullet := true },
    { rect := { x := 145/2, y := 290, width := 5, height := 10 }, active := true, isPlayerBullet := true }],
  invaderBullets := [{ rect := { x := 125/2, y := 493, width := 5, height := 10 }, active := true, isPlayerBullet := false },
    { rect := { x := 125/2, y := 490, width := 5, height := 10 }, active := true, isPlayerBullet := false },
    { rect := { x := 125/2, y := 487, width := 5, height := 10 }, active := true, isPlayerBullet := false },
    { rect := { x := 125/2, y := 484, width := 5, height := 10 }, active := true, isPlayerBullet := false },
    { rect := { x := 125/2, y := 481, width := 5, height := 10 }, active := true, isPlayerBullet := false }],
  score := 700, gameOver := false, gameWon := false,
  invaderMoveDirection := 1, invaderMoveTimer := 1/2,
  currentScreenW := 1280, currentScreenH := 720 }

/-- The invaders state after frame 250 of the C3 trace. -/
def c3S250 : SIState :=
{ player := { rect := { x := 50, y := 650, width := 50, height := 50 }, lives := 5, lastShotTime := 120 },
  invaders := [{ rect := { x := 50, y := 100, width := 30, height := 30 }, active := true, invaderType := 0 },
    { rect := { x := 100, y := 100, width := 30, height := 30 }, active := true, invaderType := 0 },
    { rect := { x := 150, y := 100, width := 30, height := 30 }, active := true, invaderType := 0 },
    { rect := { x := 200, y := 100, width := 30, height := 30 }, active := true, invaderType := 0 },
    { rect := { x := 250, y := 100, width := 30, height := 30 }, active := false, invaderType := 0 },
    { rect := { x := 300, y := 100, width := 30, height := 30 }, active := false, invaderType := 0 },
    { rect := { x := 350, y := 100, width := 30, height := 30 }, active := false, invaderType := 0 },
    { rect := { x := 400, y := 100, width := 30, height := 30 }, active := false, invaderType := 0 },
    { rect := { x := 50, y := 140, width := 30, height := 30 }, active := true, invaderType := 1 },
    { rect := { x := 100, y := 140, width := 30, height := 30 }, active := true, invaderType := 1 },
    { rect := { x := 150, y := 140, width := 30, height := 30 }, active := true, invaderType := 1 },
    { rect := { x := 200, y := 140, width := 30, height := 30 }, active := false, invaderType := 1 },
    { rect := { x := 250, y := 140, width := 30, height := 30 }, active := false, invaderType := 1 },
    { rect := { x := 300, y := 140, width := 30, height := 30 }, active := false, invaderType := 1 },
    { rect := { x := 350, y := 140, width := 30, height := 30 }, active := false, invaderType := 1 },
    { rect := { x := 400, y := 140, width := 30, height := 30 }, active := false, invaderType := 1 }],
  playerBullets := [{ rect := { x := 435/2, y := 149, width := 5, height := 10 }, active := true, isPlayerBullet := true },
    { rect := { x := 345/2, y := 176, width := 5, height := 10 }, active := true, isPlayerBullet := true },
    { rect := { x := 335/2, y := 179, width := 5, height := 10 }, active := true, isPlayerBullet := true },
    { rect := { x := 245/2, y := 206, width := 5, height := 10 }, active := true, isPlayerBullet := true },
    { rect := { x := 235/2, y := 209, width := 5, height := 10 }, active := true, isPlayerBullet := true },
    { rect := { x := 145/2, y := 236, width := 5, height := 10 }, active := true, isPlayerBullet := true },
    { rect := { x := 145/2, y := 260, width := 5, height := 10 }, active := true, isPlayerBullet := true }],
  invaderBullets := [{ rect := { x := 125/2, y := 523, width := 5, height := 10 }, active := true, isPlayerBullet := false },
    { rect := { x := 125/2, y := 520, width := 5, height := 10 }, active := true, isPlayerBullet := false },
    { rect := { x := 125/2, y := 517, width := 5, height := 10 }, active := true, isPlayerBullet := false },
    { rect := { x := 125/2, y := 514, width := 5, height := 10 }, active := true, isPlayerBullet := false },
    { rect := { x := 125/2, y := 511, width := 5, height := 10 }, active := true, isPlayerBullet := false }],
  score := 900, gameOver := false, gameWon := false,
  invaderMoveDirection := 1, invaderMoveTimer := 1/2,
  currentScreenW := 1280, currentScreenH := 720 }

/-- The invaders state after frame 260 of the C3 trace. -/
def c3S260 : SIState :=
{ player := { rect := { x := 50, y := 650, width := 50, height := 50 }, lives := 5, lastShotTime := 120 },
  invaders := [{ rect := { x := 50, y := 100, width := 30, height := 30 }, active := true, invaderType := 0 },
    { rect := { x := 100, y := 100, width := 30, height := 30 }, active := true, invaderType := 0 },
    { rect := { x := 150, y := 100, width := 30, height := 30 }, active := true, invaderType := 0 },
    { rect := { x := 200, y := 100, width := 30, height := 30 }, active := false, invaderType := 0 },
    { rect := { x := 250, y := 100, width := 30, height := 30 }, active := false, invaderType := 0 },
    { rect := { x := 300, y := 100, width := 30, height := 30 }, active := false, invaderType := 0 },
    { rect := { x := 350, y := 100, width := 30, height := 30 }, active := false, invaderType := 0 },
    { rect := { x := 400, y := 100, width := 30, height := 30 }, active := false, invaderType := 0 },
    { rect := { x := 50, y := 140, width := 30, height := 30 }, active := true, invaderType := 1 },
    { rect := { x := 100, y := 140, width := 30, height := 30 }, active := true, invaderType := 1 },
    { rect := { x := 150, y := 140, width := 30, height := 30 }, active := false, invaderType := 1 },
    { rect := { x := 200, y := 140, width := 30, height := 30 }, active := false, invaderType := 1 },
    { rect := { x := 250, y := 140, width := 30, height := 30 }, active := false, invaderType := 1 },
    { rect := { x := 300, y := 140, width := 30, height := 30 }, active := false, invaderType := 1 },
    { rect := { x := 350, y := 140, width := 30, height := 30 }, active := false, invaderType := 1 },
    { rect := { x := 400, y := 140, width := 30, height := 30 }, active := false, invaderType := 1 }],
  playerBullets := [{ rect := { x := 335/2, y := 149, width := 5, height := 10 }, active := true, isPlayerBullet := true },
    { rect := { x := 245/2, y := 176, width := 5, height := 10 }, active := true, isPlayerBullet := true },
    { rect := { x := 235/2, y := 179, width := 5, height := 10 }, active := true, isPlayerBullet := true },
    { rect := { x := 145/2, y := 206, width := 5, height := 10 }, active := true, isPlayerBullet := true },
    { rect := { x := 145/2, y := 230, width := 5, height := 10 }, active := true, isPlayerBullet := true }],
  invaderBullets := [{ rect := { x := 125/2, y := 553, width := 5, height := 10 }, active := true, isPlayerBullet := false },
    { rect := { x := 125/2, y := 550, width := 5, height := 10 }, active := true, isPlayerBullet := false },
    { rect := { x := 125/2, y := 547, width := 5, height := 10 }, active := true, isPlayerBullet := false },
    { rect := { x := 125/2, y := 544, width := 5, height := 10 }, active := true, isPlayerBullet := false },
    { rect := { x := 125/2, y := 541, width := 5, height := 10 }, active := true, isPlayerBullet := false }],
  score := 1100, gameOver := false, gameWon := false,
  invaderMoveDirection := 1, invaderMoveTimer := 1/2,
  currentScreenW := 1280, currentScreenH := 720 }

/-- The invaders state after frame 270 of the C3 trace. -/
def c3S270 : SIState :=
{ player := { rect := { x := 50, y := 650, width := 50, height := 50 }, lives := 5, lastShotTime := 120 },
  invaders := [{ rect := { x := 50, y := 100, width := 30, height := 30 }, active := true, invaderType := 0 },
    { rect := { x := 100, y := 100, width := 30, height := 30 }, active := true, invaderType := 0 },
    { rect := { x := 150, y := 100, width := 30, height := 30 }, active := false, invaderType := 0 },
    { rect := { x := 200, y := 100, width := 30, height := 30 }, active := false, invaderType := 0 },
    { rect := { x := 250, y := 100, width := 30, height := 30 }, active := false, invaderType := 0 },
    { rect := { x := 300, y := 100, width := 30, height := 30 }, active := false, invaderType := 0 },
    { rect := { x := 350, y := 100, width := 30, height := 30 }, active := false, invaderType := 0 },
    { rect := { x := 400, y := 100, width := 30, height := 30 }, active := false, invaderType := 0 },
    { rect := { x := 50, y := 140, width := 30, height := 30 }, active := true, invaderType := 1 },
    { rect := { x := 100, y := 140, width := 30, height := 30 }, active := false, invaderType := 1 },
    { rect := { x := 150, y := 140, width := 30, height := 30 }, active := false, invaderType := 1 },
    { rect := { x := 200, y := 140, width := 30, height := 30 }, active := false, invaderType := 1 },
    { rect := { x := 250, y := 140, width := 30, height := 30 }, active := false, invaderType := 1 },
    { rect := { x := 300, y := 140, width := 30, height := 30 }, active := false, invaderType := 1 },
    { rect := { x := 350, y := 140, width := 30, height := 30 }, active := false, invaderType := 1 },
    { rect := { x := 400, y := 140, width := 30, height := 30 }, active := false, invaderType := 1 }],
  playerBullets := [{ rect := { x := 235/2, y := 149, width := 5, height := 10 }, active := true, isPlayerBullet := true },
    { rect := { x := 145/2, y := 176, width := 5, height := 10 }, active := true, isPlayerBullet := true },
    { rect := { x := 145/2, y := 200, width := 5, height := 10 }, active := true, isPlayerBullet := true }],
  invaderBullets := [{ rect := { x := 125/2, y := 583, width := 5, height := 10 }, active := true, isPlayerBullet := false },
    { rect := { x := 125/2, y := 580, width := 5, height := 10 }, active := true, isPlayerBullet := false },
    { rect := { x := 125/2, y := 577, width := 5, height := 10 }, active := true, isPlayerBullet := false },
    { rect := { x := 125/2, y := 574, width := 5, height := 10 }, active := true, isPlayerBullet := false },
    { rect := { x := 125/2, y := 571, width := 5, height := 10 }, active := true, isPlayerBullet := false }],
  score := 1300, gameOver := false, gameWon := false,
  invaderMoveDirection := 1, invaderMoveTimer := 1/2,
  currentScreenW := 1280, currentScreenH := 720 }

/-- The invaders state after frame 280 of the C3 trace. -/
def c3S280 : SIState :=
{ player := { rect := { x := 50, y := 650, width := 50, height := 50 }, lives := 5, lastShotTime := 120 },
  invaders := [{ rect := { x := 50, y := 100, width := 30, height := 30 }, active := true, invaderType := 0 },
    { rect := { x := 100, y := 100, width := 30, height := 30 }, active := false, invaderType := 0 },
    { rect := { x := 150, y := 100, width := 30, height := 30 }, active := false, invaderType := 0 },
    { rect := { x := 200, y := 100, width := 30, height := 30 }, active := false, invaderType := 0 },
    { rect := { x := 250, y := 100, width := 30, height := 30 }, active := false, invaderType := 0 },
    { rect := { x := 300, y := 100, width := 30, height := 30 }, active := false, invaderType := 0 },
    { rect := { x := 350, y := 100, width := 30, height := 30 }, active := false, invaderType := 0 },
    { rect := { x := 400, y := 100, width := 30, height := 30 }, active := false, invaderType := 0 },
    { rect := { x := 50, y := 140, width := 30, height := 30 }, active := false, invaderType := 1 },
    { rect := { x := 100, y := 140, width := 30, height := 30 }, active := false, invaderType := 1 },
    { rect := { x := 150, y := 140, width := 30, height := 30 }, active := false, invaderType := 1 },
    { rect := { x := 200, y := 140, width := 30, height := 30 }, active := false, invaderType := 1 },
    { rect := { x := 250, y := 140, width := 30, height := 30 }, active := false, invaderType := 1 },
    { rect := { x := 300, y := 140, width := 30, height := 30 }, active := false, invaderType := 1 },
    { rect := { x := 350, y := 140, width := 30, height := 30 }, active := false, invaderType := 1 },
    { rect := { x := 400, y := 140, width := 30, height := 30 }, active := false, invaderType := 1 }],
  playerBullets := [{ rect := { x := 145/2, y := 170, width := 5, height := 10 }, active := true, isPlayerBullet := true }],
  invaderBullets := [{ rect := { x := 125/2, y := 613, width := 5, height := 10 }, active := true, isPlayerBullet := false },
    { rect := { x := 125/2, y := 610, width := 5, height := 10 }, active := true, isPlayerBullet := false },
    { rect := { x := 125/2, y := 607, width := 5, height := 10 }, active := true, isPlayerBullet := false },
    { rect := { x := 125/2, y := 604, width := 5, height := 10 }, active := true, isPlayerBullet := false },
    { rect := { x := 125/2, y := 601, width := 5, height := 10 }, active := true, isPlayerBullet := false }],
  score := 1500, gameOver := false, gameWon := false,
  invaderMoveDirection := 1, invaderMoveTimer := 1/2,
  currentScreenW := 1280, currentScreenH := 720 }

/-- The invaders state after frame 290 of the C3 trace. -/
def c3S290 : SIState :=
{ player := { rect := { x := 50, y := 650, width := 50, height := 50 }, lives := 4, lastShotTime := 120 },
  invaders := [{ rect := { x := 50, y := 100, width := 30, height := 30 }, active := true, invaderType := 0 },
    { rect := { x := 100, y := 100, width := 30, height := 30 }, active := false, invaderType := 0 },
    { rect := { x := 150, y := 100, width := 30, height := 30 }, active := false, invaderType := 0 },
    { rect := { x := 200, y := 100, width := 30, height := 30 }, active := false, invaderType := 0 },
    { rect := { x := 250, y := 100, width := 30, height := 30 }, active := false, invaderType := 0 },
    { rect := { x := 300, y := 100, width := 30, height := 30 }, active := false, invaderType := 0 },
    { rect := { x := 350, y := 100, width := 30, height := 30 }, active := false, invaderType := 0 },
    { rect := { x := 400, y := 100, width := 30, height := 30 }, active := false, invaderType := 0 },
    { rect := { x := 50, y := 140, width := 30, height := 30 }, active := false, invaderType := 1 },
    { rect := { x := 100, y := 140, width := 30, height := 30 }, active := false, invaderType := 1 },
    { rect := { x := 150, y := 140, width := 30, height := 30 }, active := false, invaderType := 1 },
    { rect := { x := 200, y := 140, width := 30, height := 30 }, active := false, invaderType := 1 },
    { rect := { x := 250, y := 140, width := 30, height := 30 }, active := false, invaderType := 1 },
    { rect := { x := 300, y := 140, width := 30, height := 30 }, active := false, invaderType := 1 },
    { rect := { x := 350, y := 140, width := 30, height := 30 }, active := false, invaderType := 1 },
    { rect := { x := 400, y := 140, width := 30, height := 30 }, active := false, invaderType := 1 }],
  playerBullets := [{ rect := { x := 145/2, y := 140, width := 5, height := 10 }, active := true, isPlayerBullet := true }],
  invaderBullets := [{ rect := { x := 125/2, y := 643, width := 5, height := 10 }, active := false, isPlayerBullet := false },
    { rect := { x := 125/2, y := 640, width := 5, height := 10 }, active := true, isPlayerBullet := false },
    { rect := { x := 125/2, y := 637, width := 5, height := 10 }, active := true, isPlayerBullet := false },
    { rect := { x := 125/2, y := 634, width := 5, height := 10 }, active := true, isPlayerBullet := false },
    { rect := { x := 125/2, y := 631, width := 5, height := 10 }, active := true, isPlayerBullet := false }],
  score := 1500, gameOver := false, gameWon := false,
  invaderMoveDirection := 1, invaderMoveTimer := 1/2,
  currentScreenW := 1280, currentScreenH := 720 }

/-- The invaders state after frame 295 of the C3 trace. -/
def c3S295 : SIState :=
{ player := { rect := { x := 50, y := 650, width := 50, height := 50 }, lives := 0, lastShotTime := 120 },
  invaders := [{ rect := { x := 50, y := 100, width := 30, height := 30 }, active := false, invaderType := 0 },
    { rect := { x := 100, y := 100, width := 30, height := 30 }, active := false, invaderType := 0 },
    { rect := { x := 150, y := 100, width := 30, height := 30 }, active := false, invaderType := 0 },
    { rect := { x := 200, y := 100, width := 30, height := 30 }, active := false, invaderType := 0 },
    { rect := { x := 250, y := 100, width := 30, height := 30 }, active := false, invaderType := 0 },
    { rect := { x := 300, y := 100, width := 30, height := 30 }, active := false, invaderType := 0 },
    { rect := { x := 350, y := 100, width := 30, height := 30 }, active := false, invaderType := 0 },
    { rect := { x := 400, y := 100, width := 30, height := 30 }, active := false, invaderType := 0 },
    { rect := { x := 50, y := 140, width := 30, height := 30 }, active := false, invaderType := 1 },
    { rect := { x := 100, y := 140, width := 30, height := 30 }, active := false, invaderType := 1 },
    { rect := { x := 150, y := 140, width := 30, height := 30 }, active := false, invaderType := 1 },
    { rect := { x := 200, y := 140, width := 30, height := 30 }, active := false, invaderType := 1 },
    { rect := { x := 250, y := 140, width := 30, height := 30 }, active := false, invaderType := 1 },
    { rect := { x := 300, y := 140, width := 30, height := 30 }, active := false, invaderType := 1 },
    { rect := { x := 350, y := 140, width := 30, height := 30 }, active := false, invaderType := 1 },
    { rect := { x := 400, y := 140, width := 30, height := 30 }, active := false, invaderType := 1 }],
  playerBullets := [{ rect := { x := 145/2, y := 128, width := 5, height := 10 }, active := false, isPlayerBullet := true }],
  invaderBullets := [{ rect := { x := 125/2, y := 643, width := 5, height := 10 }, active := false, isPlayerBullet := false }],
  score := 1600, gameOver := true, gameWon := true,
  invaderMoveDirection := 1, invaderMoveTimer := 1/2,
  currentScreenW := 1280, currentScreenH := 720 }

/-! ## Obstacle Course level (`ObstacleLevel`) -/

/-- `OBSTACLE_PLAYER_SIZE`. -/
def OBSTACLE_PLAYER_SIZE : ℚ := 40

/-- `OBSTACLE_PLAYER_SPEED`. -/
def OBSTACLE_PLAYER_SPEED : ℚ := 200

/-- `OBSTACLE_JUMP_FORCE`. -/
def OBSTACLE_JUMP_FORCE : ℚ := 400

/-- `OBSTACLE_GRAVITY`. -/
def OBSTACLE_GRAVITY : ℚ := 800

/-- `ObstacleLevel::ObstacleGameScreen`. -/
inductive ObstacleGameScreen where
  | title
  | gameplay
  | ending
  deriving DecidableEq, Repr

/-- `ObstacleLevel::Player`.  The C++ object carries both a `position`
vector and a `bounds` rectangle; they are kept separately because
`Player::Update` clamps `position.x` without re-syncing `bounds.x`. -/
structure ObstaclePlayer where
  posX : ℚ
  posY : ℚ
  bX : ℚ
  bY : ℚ
  width : ℚ
  height : ℚ
  velX : ℚ
  velY : ℚ
  onGround : Bool
  jumped : Bool
  screenW : ℚ
  screenH : ℚ
  deriving DecidableEq, Repr

/-- `GameObject::SetPosition`: sets the position and re-syncs the bounds. -/
def ObstaclePlayer.setPosition (p : ObstaclePlayer) (x y : ℚ) : ObstaclePlayer :=
  { p with posX := x, posY := y, bX := x, bY := y }

/-- The player's bounds rectangle (`GetBounds`). -/
def ObstaclePlayer.boundsRect (p : ObstaclePlayer) : Rect :=
  { x := p.bX, y := p.bY, width := p.width, height := p.height }

/-- Per-frame inputs for the obstacle level. -/
structure ObstacleInputs where
  keyLeft : Bool
  keyRight : Bool
  spacePressed : Bool
  deriving DecidableEq, Repr

/-- `ObstacleLevel::Player::Update`: gravity, direct horizontal velocity
from input, jump while grounded, integration, bounds sync, horizontal
clamping (of `position.x` only), and the end-of-frame `onGround := false`. -/
def obstaclePlayerUpdate (p : ObstaclePlayer) (inp : ObstacleInputs) (dt : ℚ) :
    ObstaclePlayer :=
  let vy0 := p.velY + OBSTACLE_GRAVITY * dt
  let vx0 := if inp.keyLeft then -OBSTACLE_PLAYER_SPEED
             else if inp.keyRight then OBSTACLE_PLAYER_SPEED
             else 0
  let vjg := if inp.spacePressed && p.onGround
             then (-OBSTACLE_JUMP_FORCE, false, true)
             else (vy0, p.onGround, p.jumped)
  let x1 := p.posX + vx0 * dt
  let y1 := p.posY + vjg.1 * dt
  let xv := if x1 < 0 then ((0 : ℚ), (0 : ℚ))
            else if x1 + p.width > p.screenW then (p.screenW - p.width, 0)
            else (x1, vx0)
  { p with posX := xv.1, posY := y1, bX := x1, bY := y1,
           velX := xv.2, velY := vjg.1, onGround := false, jumped := vjg.2.2 }

/-- One iteration of the player/obstacle collision loop in
`ObstacleLevel::Update`: overlap test on the bounds, then the four
directional branches in source order. -/
def obstacleResolve (dt : ℚ) (p : ObstaclePlayer) (obs : Rect) : ObstaclePlayer :=
  if checkCollisionRecs p.boundsRect obs then
    if p.velY > 0 ∧ p.bY + p.height - p.velY * dt ≤ obs.y then
      { p.setPosition p.posX (obs.y - p.height) with
        velY := 0, onGround := true, jumped := false }
    else if p.velY < 0 ∧ p.bY - p.bY * dt ≥ obs.y + obs.height then
      { p.setPosition p.posX (obs.y + obs.height) with velY := 0 }
    else if p.velX > 0 ∧ p.bX + p.width - p.velX * dt ≤ obs.x then
      { p.setPosition (obs.x - p.width) p.posY with velX := 0 }
    else if p.velX < 0 ∧ p.bX - p.velX * dt ≥ obs.x + obs.width then
      { p.setPosition (obs.x + obs.width) p.posY with velX := 0 }
    else p
  else p

/-- Coin-collection loop of `ObstacleLevel::Update`: remove overlapped
coins, counting them. -/
def obstacleCollectCoins (pb : Rect) : List Rect → List Rect × ℤ
  | [] => ([], 0)
  | c :: rest =>
    let r := obstacleCollectCoins pb rest
    if checkCollisionRecs pb c then (r.1, r.2 + 1) else (c :: r.1, r.2)

/-- `ObstacleLevel` state. -/
structure ObstacleState where
  player : ObstaclePlayer
  exitDoor : Rect
  obstacles : List Rect
  coins : List Rect
  currentScreen : ObstacleGameScreen
  levelFinished : Bool
  playerWonLevel : Bool
  collectedCoins : ℤ
  totalCoins : ℤ
  screenW : ℚ
  screenH : ℚ
  deriving DecidableEq, Repr

/-- The obstacle rectangles placed by `ObstacleLevel::InitObstacleGame`. -/
def obstacleCourseObstacles (screenW screenH : ℚ) : List Rect :=
  [{ x := 0, y := screenH - 50, width := screenW, height := 50 },
   { x := 150, y := screenH - 150, width := 100, height := 20 },
   { x := 300, y := screenH - 250, width := 90, height := 20 },
   { x := 450, y := screenH - 350, width := 80, height := 20 },
   { x := 550, y := screenH - 300, width := 60, height := 20 },
   { x := 700, y := screenH - 300, width := 60, height := 20 },
   { x := 800, y := screenH - 400, width := 50, height := 20 },
   { x := 900, y := screenH - 500, width := 50, height := 20 },
   { x := 800, y := screenH - 600, width := 50, height := 20 },
   { x := 950, y := screenH - 550, width := 60, height := 20 },
   { x := 1100, y := screenH - 450, width := 70, height := 20 },
   { x := 1150, y := screenH - 300, width := 50, height := 20 },
   { x := screenW - 150, y := screenH - 100, width := 100, height := 20 },
   { x := 1000, y := screenH - 200, width := 80, height := 20 }]

/-- `ObstacleLevel::Update` in the `OBSTACLE_GAMEPLAY` sub-state: player
physics, collision resolution against every obstacle, coin collection,
fall-off-screen loss check, and the exit-door win check. -/
def obstacleUpdate (s : ObstacleState) (inp : ObstacleInputs) (dt : ℚ) :
    ObstacleState :=
  match s.currentScreen with
  | ObstacleGameScreen.gameplay =>
    let p1 := obstaclePlayerUpdate s.player inp dt
    let p2 := { p1 with onGround := false }
    let p3 := s.obstacles.foldl (obstacleResolve dt) p2
    let cc := obstacleCollectCoins p3.boundsRect s.coins
    let coins1 := cc.1
    let collected1 := s.collectedCoins + cc.2
    let fws := if p3.posY > s.screenH
               then (true, false, ObstacleGameScreen.ending)
               else (s.levelFinished, s.playerWonLevel, s.currentScreen)
    let fws := if checkCollisionRecs p3.boundsRect s.exitDoor &&
                  decide (collected1 = s.totalCoins)
               then (true, true, ObstacleGameScreen.ending)
               else fws
    { s with player := p3, coins := coins1, collectedCoins := collected1,
             levelFinished := fws.1, playerWonLevel := fws.2.1,
             currentScreen := fws.2.2 }
  | _ => s

/-- `ObstacleLevel::IsComplete`. -/
def obstacleIsComplete (s : ObstacleState) : Bool := s.levelFinished

/-- A gameplay state on the real obstacle layout with the player just under
the third platform moving straight up (used for the C7 failing frame). -/
def sampleObstacleUnderside : ObstacleState :=
  { player := { posX := 320, posY := 500, bX := 320, bY := 500,
                width := 40, height := 40, velX := 0, velY := -200,
                onGround := false, jumped := true, screenW := 1280, screenH := 720 },
    exitDoor := { x := 1180, y := 50, width := 50, height := 80 },
    obstacles := obstacleCourseObstacles 1280 720,
    coins := [],
    currentScreen := ObstacleGameScreen.gameplay,
    levelFinished := false, playerWonLevel := false,
    collectedCoins := 0, totalCoins := 0, screenW := 1280, screenH := 720 }

/-- A gameplay state with the player falling straight down onto the ground
obstacle (used for the C7 landing frame). -/
def sampleObstacleLanding : ObstacleState :=
  { player := { posX := 100, posY := 628, bX := 100, bY := 628,
                width := 40, height := 40, velX := 0, velY := 0,
                onGround := false, jumped := false, screenW := 1280, screenH := 720 },
    exitDoor := { x := 1180, y := 50, width := 50, height := 80 },
    obstacles := obstacleCourseObstacles 1280 720,
    coins := [],
    currentScreen := ObstacleGameScreen.gameplay,
    levelFinished := false, playerWonLevel := false,
    collectedCoins := 0, totalCoins := 0, screenW := 1280, screenH := 720 }

/-- No keys and no jump. -/
def obstacleNoInput : ObstacleInputs :=
  { keyLeft := false, keyRight := false, spacePressed := false }

/-- Sample observed level: a completed Maze level (used to witness C1). -/
def sampleMazeDone : LevelView :=
  { name := "Maze Level", instructions := "maze", isComplete := true,
    didWin := false, unloaded := false }

/-- Sample queued level (used to witness C1). -/
def sampleQueuedSI : LevelView :=
  { name := "Space Invaders Level", instructions := "si",
    isComplete := false, didWin := false, unloaded := false }

/-- Sample global state: playing a completed Maze level with one queued
level (used to witness C1). -/
def sampleGlobalPlaying : GlobalState :=
  { screen := GameScreen.playingLevel, activeLevel := some sampleMazeDone,
    gameLevels := [sampleQueuedSI], nextLevelName := "",
    nextLevelInstructions := "" }

/-- Sample global state: playing with no active level (used to witness C9). -/
def sampleGlobalNoLevel : GlobalState :=
  { screen := GameScreen.playingLevel, activeLevel := none,
    gameLevels := [], nextLevelName := "", nextLevelInstructions := "" }

/-! ## Theorems -/

/-- C1: in the `Playing` state with a completed active level: on a win with a
non-empty queue the finished level is unloaded, the front queued level's name
and instructions are cached and the machine moves to `Transition` (queue
unchanged); on a win with an empty queue it moves to `GameWon`; on a
completion that is not a win it moves to `GameOver`; and the Maze level
counts any completion as a win. -/
theorem playing_state_transitions (st : GlobalState) (lvl : LevelView)
    (hscreen : st.screen = GameScreen.playingLevel)
    (hactive : st.activeLevel = some lvl)
    (hdone : lvl.isComplete = true) :
    (levelSucceeded lvl = true → ∀ front rest, st.gameLevels = front :: rest →
        (playingUpdate st).screen = GameScreen.levelTransition ∧
        (playingUpdate st).activeLevel = some { lvl with unloaded := true } ∧
        (playingUpdate st).nextLevelName = front.name ∧
        (playingUpdate st).nextLevelInstructions = front.instructions ∧
        (playingUpdate st).gameLevels = st.gameLevels) ∧
    (levelSucceeded lvl = true → st.gameLevels = [] →
        (playingUpdate st).screen = GameScreen.gameWonGlobal ∧
        (playingUpdate st).activeLevel = none) ∧
    (levelSucceeded lvl = false →
        (playingUpdate st).screen = GameScreen.gameOverGlobal ∧
        (playingUpdate st).activeLevel = none) ∧
    (lvl.name = "Maze Level" → levelSucceeded lvl = true) := by
  refine ⟨?_, ?_, ?_, ?_⟩
  · intro hwin front rest hq
    simp [playingUpdate, hactive, hdone, hwin, hq]
  · intro hwin hq
    simp [playingUpdate, hactive, hdone, hwin, hq]
  · intro hlose
    simp [playingUpdate, hactive, hdone, hlose]
  · intro hname
    simp [levelSucceeded, hname]

/-- Witness for C1: a concrete completed, won Maze level with one queued
level moves the machine to the transition screen. -/
theorem playing_state_transitions_witness :
    (playingUpdate sampleGlobalPlaying).screen = GameScreen.levelTransition ∧
    (playingUpdate sampleGlobalPlaying).nextLevelName = "Space Invaders Level" := by
  have h := playing_state_transitions sampleGlobalPlaying sampleMazeDone rfl rfl rfl
  have hw := h.1 (by decide) sampleQueuedSI [] rfl
  exact ⟨hw.1, hw.2.2.1⟩

/-- C9: updating in the `Playing` state with no active level loaded routes
to the global loss screen on that same frame. -/
theorem playing_without_active_level_is_game_over (st : GlobalState)
    (hscreen : st.screen = GameScreen.playingLevel)
    (hnone : st.activeLevel = none) :
    (playingUpdate st).screen = GameScreen.gameOverGlobal := by
  simp [playingUpdate, hnone]

/-- Witness for C9 at a concrete state with no active level. -/
theorem playing_without_active_level_is_game_over_witness :
    (playingUpdate sampleGlobalNoLevel).screen = GameScreen.gameOverGlobal :=
  playing_without_active_level_is_game_over sampleGlobalNoLevel rfl rfl

/-- A pipe update (movement) does not change the scored flag. -/
theorem Pipe.update_scored (p : Pipe) (dt : ℚ) : (p.update dt).scored = p.scored := rfl

/-- The scored flag after one scoring pass is the old flag OR the passed
condition on the moved pipe. -/
theorem movedScored_scored (b : Bird) (dt : ℚ) (p : Pipe) :
    (movedScored b dt p).scored = (p.scored || pipePassed b (p.update dt)) := by
  simp only [movedScored]
  by_cases hs : p.scored = true
  · rw [if_neg (by simp [Pipe.update_scored, hs])]
    simp [Pipe.update_scored, hs]
  · have hs' : p.scored = false := by simpa using hs
    by_cases hp : pipePassed b (p.update dt) = true
    · rw [if_pos (by simp [Pipe.update_scored, hs', hp])]
      simp [hs', hp]
    · have hp' : pipePassed b (p.update dt) = false := by simpa using hp
      rw [if_neg (by simp [Pipe.update_scored, hs', hp'])]
      simp [Pipe.update_scored, hs', hp']

/-- The pipe loop maps every pipe through one move-and-score pass. -/
theorem flappyPipeLoop_pipes (b : Bird) (dt : ℚ) (l : List Pipe) :
    (flappyPipeLoop b dt l).1 = l.map (movedScored b dt) := by
  induction l with
  | nil => rfl
  | cons p rest ih =>
    simp only [flappyPipeLoop, List.map_cons, movedScored]
    split <;> simp [ih]

/-- The pipe loop's score increment counts exactly the pipes that are
unscored and whose moved position satisfies the passed condition. -/
theorem flappyPipeLoop_score (b : Bird) (dt : ℚ) (l : List Pipe) :
    (flappyPipeLoop b dt l).2.1
      = (l.countP (fun p => !p.scored && pipePassed b (p.update dt)) : ℤ) := by
  induction l with
  | nil => rfl
  | cons p rest ih =>
    simp only [flappyPipeLoop, List.countP_cons]
    by_cases h : (!p.scored && pipePassed b (p.update dt)) = true
    · have h' : (!(p.update dt).scored && pipePassed b (p.update dt)) = true := by
        rw [Pipe.update_scored]; exact h
      rw [if_pos h']
      simp [h, ih]
      push_cast
      ring
    · have h' : ¬ (!(p.update dt).scored && pipePassed b (p.update dt)) = true := by
        rw [Pipe.update_scored]; exact h
      rw [if_neg h']
      simp [h, ih]

/-- C5: in every frame of the Flappy level, each pipe's scored flag after
the scoring pass equals its old flag OR the first-time passed condition
(so it transitions false to true precisely on the first Update frame whose
movement puts the pipe's trailing edge past the bird's leading edge, and is
never reset); the per-frame score increment counts exactly the pipes whose
flag flips in that frame (an already-scored pipe never contributes again);
freshly spawned pipes are unscored; and a scored pipe stays scored through
any further frames. -/
theorem flappy_pipe_scored_exactly_once (b : Bird) (deltaTime : ℚ) :
    (∀ p : Pipe, (movedScored b deltaTime p).scored
        = (p.scored || pipePassed b (p.update deltaTime))) ∧
    (∀ l : List Pipe,
        (flappyPipeLoop b deltaTime l).1 = l.map (movedScored b deltaTime)) ∧
    (∀ l : List Pipe, (flappyPipeLoop b deltaTime l).2.1
        = (l.countP (fun p => !p.scored && pipePassed b (p.update deltaTime)) : ℤ)) ∧
    (∀ x gapY screenH : ℚ, (mkPipe x gapY screenH).scored = false) ∧
    (∀ (p : Pipe) (dts : List ℚ), p.scored = true →
        (dts.foldl (fun q dt => movedScored b dt q) p).scored = true) := by
  refine ⟨movedScored_scored b deltaTime, flappyPipeLoop_pipes b deltaTime,
          flappyPipeLoop_score b deltaTime, fun _ _ _ => rfl, ?_⟩
  intro p dts
  induction dts generalizing p with
  | nil => exact fun h => h
  | cons dt rest ih =>
    intro h
    simp only [List.foldl_cons]
    exact ih _ (by rw [movedScored_scored, h, Bool.true_or])

/-- Witness for C5 at a concrete bird, frame time and pipes. -/
theorem flappy_pipe_scored_exactly_once_witness :
    ((movedScored (mkBird 1280 720) 1 (mkPipe 225 400 720)).scored
        = ((mkPipe 225 400 720).scored
            || pipePassed (mkBird 1280 720) ((mkPipe 225 400 720).update 1))) ∧
    (List.foldl (fun q dt => movedScored (mkBird 1280 720) dt q)
        { mkPipe 225 400 720 with scored := true } [1, 1]).scored = true := by
  have h := flappy_pipe_scored_exactly_once (mkBird 1280 720) 1
  exact ⟨h.1 _, h.2.2.2.2 _ [1, 1] rfl⟩

unseal Rat.add Rat.sub Rat.mul Rat.inv Rat.ofScientific in
/-- C6 counterexample: a Flappy Playing frame in which a collision brings
health to exactly 0 but the same frame's scoring reaches the win score;
contrary to the claim, the sub-state ends as `Win` (a win), not `GameOver`
(a loss). -/
theorem flappy_zero_health_frame_can_end_as_win :
    flappyFrameCollision sampleFlappyNine 2 = true ∧
    ((flappyFrameBird sampleFlappyNine 2).takeDamage FLAPPY_DAMAGE_PER_HIT).health = 0 ∧
    (flappyUpdate (fun _ => 400) sampleFlappyNine 2 false).currentScreen = FlappyGameScreen.win ∧
    (flappyUpdate (fun _ => 400) sampleFlappyNine 2 false).levelFinished = true ∧
    (flappyUpdate (fun _ => 400) sampleFlappyNine 2 false).playerWonLevel = true := by
  decide

/-- C6 (amended): in a Flappy Playing frame with a collision, the fixed
damage is applied and then: if health is exactly 0 and this frame's score
stays below the win score, the sub-state becomes GameOver and the level
finishes as a loss; if health stays positive and the score stays below the
win score, the level soft-resets (bird back at its start position, velocity
zero unless a jump is pressed this same frame, pipes replaced by two fresh
ones) and the run does not end; but when this frame's scoring reaches the
win score, the win check runs last and the level ends as a win regardless
of the collision outcome. -/
theorem flappy_collision_resolution (gaps : ℕ → ℚ) (s : FlappyState)
    (dt : ℚ) (spacePressed : Bool)
    (hplay : s.currentScreen = FlappyGameScreen.playing)
    (hsw : 0 ≤ s.screenW)
    (hcol : flappyFrameCollision s dt = true) :
    (((flappyFrameBird s dt).takeDamage FLAPPY_DAMAGE_PER_HIT).health = 0 →
       flappyFrameScore s dt < FLAPPY_WIN_SCORE →
       (flappyUpdate gaps s dt spacePressed).currentScreen = FlappyGameScreen.gameOver ∧
       (flappyUpdate gaps s dt spacePressed).levelFinished = true ∧
       (flappyUpdate gaps s dt spacePressed).playerWonLevel = false) ∧
    (0 < ((flappyFrameBird s dt).takeDamage FLAPPY_DAMAGE_PER_HIT).health →
       flappyFrameScore s dt < FLAPPY_WIN_SCORE →
       (flappyUpdate gaps s dt spacePressed).currentScreen = FlappyGameScreen.playing ∧
       (flappyUpdate gaps s dt spacePressed).levelFinished = s.levelFinished ∧
       (flappyUpdate gaps s dt spacePressed).bird.posX = s.screenW / 4 ∧
       (flappyUpdate gaps s dt spacePressed).bird.posY = s.screenH / 2 ∧
       (flappyUpdate gaps s dt spacePressed).bird.velocityY =
         (if spacePressed then FLAPPY_BIRD_JUMP_STRENGTH else 0) ∧
       (flappyUpdate gaps s dt spacePressed).pipes =
         [mkPipe s.screenW (gaps s.rngIdx) s.screenH,
          mkPipe (s.screenW + FLAPPY_MIN_HORIZONTAL_PIPE_SPACING)
            (gaps (s.rngIdx + 1)) s.screenH]) ∧
    (FLAPPY_WIN_SCORE ≤ flappyFrameScore s dt →
       (flappyUpdate gaps s dt spacePressed).currentScreen = FlappyGameScreen.win ∧
       (flappyUpdate gaps s dt spacePressed).levelFinished = true ∧
       (flappyUpdate gaps s dt spacePressed).playerWonLevel = true) := by
  simp only [flappyFrameCollision, flappyFrameBird] at hcol
  simp only [flappyFrameBird, flappyFrameScore, flappyUpdate, hplay, hcol,
    flappyCollisionPhase, if_true]
  refine ⟨?_, ?_, ?_⟩
  · intro hh hsc
    rw [if_pos (le_of_eq hh)] at *
    simp only
    rw [if_neg (not_le.mpr hsc)]
    exact ⟨rfl, rfl, rfl⟩
  · intro hh hsc
    rw [if_neg (not_le.mpr hh)] at *
    simp only [flappyRemovalPhase, mkPipe]
    rw [if_neg (by simp only [FLAPPY_PIPE_WIDTH]; linarith : ¬ (s.screenW + FLAPPY_PIPE_WIDTH < 0))]
    simp only [flappySpawnPhase, List.getLast?_cons_cons, List.getLast?_singleton]
    rw [if_neg (by simp only [FLAPPY_MIN_HORIZONTAL_PIPE_SPACING]; intro hlt; linarith :
      ¬ (s.screenW + FLAPPY_MIN_HORIZONTAL_PIPE_SPACING < s.screenW - FLAPPY_MIN_HORIZONTAL_PIPE_SPACING))]
    rw [if_neg (not_le.mpr hsc)]
    cases spacePressed <;> simp [mkPipe]
  · intro hsc
    rw [if_pos hsc]
    by_cases hh : ((s.bird.update dt).takeDamage FLAPPY_DAMAGE_PER_HIT).health ≤ 0 <;>
      simp [hh]

unseal Rat.add Rat.sub Rat.mul Rat.inv Rat.ofScientific in
/-- Witness for C6 (amended): a concrete fatal collision frame with the
score still at zero ends as GameOver. -/
theorem flappy_collision_resolution_witness :
    (flappyUpdate (fun _ => 400) sampleFlappyZero 2 false).currentScreen
      = FlappyGameScreen.gameOver ∧
    (flappyUpdate (fun _ => 400) sampleFlappyZero 2 false).levelFinished = true ∧
    (flappyUpdate (fun _ => 400) sampleFlappyZero 2 false).playerWonLevel = false := by
  have h := flappy_collision_resolution (fun _ => 400) sampleFlappyZero 2 false
    rfl (by decide) (by decide)
  exact h.1 (by decide) (by decide)

/-- Unfolding: empty direction list. -/
theorem carveLoop_nil (H W : ℤ) (dirsF : ℕ → List (Fin 4)) (g : MazeGrid)
    (rc : Cell) (k : ℕ) : (carveLoop H W dirsF g rc [] k).val = (g, k) := by
  rw [carveLoop]

/-- Unfolding: head direction applicable (in bounds, still wall). -/
theorem carveLoop_cons_pos (H W : ℤ) (dirsF : ℕ → List (Fin 4)) (g : MazeGrid)
    (rc : Cell) (d : Fin 4) (ds : List (Fin 4)) (k : ℕ)
    (h : inB H W (nextCell rc d) ∧ g (nextCell rc d) = true) :
    (carveLoop H W dirsF g rc (d :: ds) k).val =
      (carveLoop H W dirsF
        (carveLoop H W dirsF
          (setCell (setCell g (wallCell rc d) false) (nextCell rc d) false)
          (nextCell rc d) (dirsF k) (k + 1)).val.1
        rc ds
        (carveLoop H W dirsF
          (setCell (setCell g (wallCell rc d) false) (nextCell rc d) false)
          (nextCell rc d) (dirsF k) (k + 1)).val.2).val := by
  rw [carveLoop]
  rw [dif_pos h]

/-- Unfolding: head direction not applicable. -/
theorem carveLoop_cons_neg (H W : ℤ) (dirsF : ℕ → List (Fin 4)) (g : MazeGrid)
    (rc : Cell) (d : Fin 4) (ds : List (Fin 4)) (k : ℕ)
    (h : ¬ (inB H W (nextCell rc d) ∧ g (nextCell rc d) = true)) :
    (carveLoop H W dirsF g rc (d :: ds) k).val =
      (carveLoop H W dirsF g rc ds k).val := by
  rw [carveLoop]
  rw [dif_neg h]

/-- Every vertex on a cycle has two distinct neighbours that also lie on
the cycle. -/
theorem cycle_two_adj {V : Type} [DecidableEq V] {G : SimpleGraph V} {v x : V} (c : G.Walk v v)
    (hc : c.IsCycle) (hx : x ∈ c.support) :
    ∃ a b, a ≠ b ∧ G.Adj x a ∧ G.Adj x b ∧ a ∈ c.support ∧ b ∈ c.support := by
  have hsub : ∀ y, y ∈ (c.rotate hx).support → y ∈ c.support := by
    intro y hy
    rcases (SimpleGraph.Walk.mem_support_iff _).mp hy with rfl | hy2
    · exact hx
    · exact List.mem_of_mem_tail
        (((SimpleGraph.Walk.support_rotate c hx).mem_iff).mp hy2)
  have hcyc : (c.rotate hx).IsCycle := hc.rotate hx
  have hnn : ¬ (c.rotate hx).Nil := hcyc.not_nil
  obtain ⟨y, h1, q, hq⟩ := SimpleGraph.Walk.not_nil_iff.mp hnn
  have hlen3 := hcyc.three_le_length
  have hqlen : 2 ≤ q.length := by
    rw [hq, SimpleGraph.Walk.length_cons] at hlen3
    omega
  have hqnn : ¬ q.reverse.Nil := by
    rw [SimpleGraph.Walk.not_nil_iff_lt_length, SimpleGraph.Walk.length_reverse]
    omega
  obtain ⟨z, h2, r, hr⟩ := SimpleGraph.Walk.not_nil_iff.mp hqnn
  have hqeq : q = r.reverse.concat h2.symm := by
    have := congrArg SimpleGraph.Walk.reverse hr
    rw [SimpleGraph.Walk.reverse_reverse, SimpleGraph.Walk.reverse_cons] at this
    exact this
  refine ⟨y, z, ?_, h1, h2, ?_, ?_⟩
  · intro hyz
    have hnd := hcyc.isTrail.edges_nodup
    rw [hq, SimpleGraph.Walk.edges_cons, hqeq, SimpleGraph.Walk.edges_concat] at hnd
    have hmem : s(z, x) ∈ r.reverse.edges.concat s(z, x) := by simp
    have hne := (List.nodup_cons.mp hnd).1
    apply hne
    have : s(x, y) = s(z, x) := by
      subst hyz
      rw [Sym2.eq_swap]
    rw [this]
    exact hmem
  · apply hsub
    rw [hq, SimpleGraph.Walk.support_cons]
    exact List.mem_cons_of_mem _ q.start_mem_support
  · apply hsub
    rw [hq, SimpleGraph.Walk.support_cons]
    apply List.mem_cons_of_mem
    rw [hqeq, SimpleGraph.Walk.support_concat]
    rw [List.concat_eq_append]
    exact List.mem_append_left _ r.reverse.end_mem_support

/-- Membership in the carved set after a carving step. -/
theorem carved_step_iff (g : MazeGrid) (rc : Cell) (d : Fin 4) (p : Cell) :
    carvedCell (setCell (setCell g (wallCell rc d) false) (nextCell rc d) false) p ↔
      p = wallCell rc d ∨ p = nextCell rc d ∨ carvedCell g p := by
  unfold carvedCell setCell
  by_cases h1 : p = nextCell rc d
  · simp [h1]
  · by_cases h2 : p = wallCell rc d
    · simp [h1, h2]
    · simp [h1, h2]

/-- The four directions, enumerated. -/
theorem dir_cases (d : Fin 4) :
    (dr d = -2 ∧ dc d = 0) ∨ (dr d = 0 ∧ dc d = 2) ∨
    (dr d = 2 ∧ dc d = 0) ∨ (dr d = 0 ∧ dc d = -2) := by
  fin_cases d <;> simp [dr, dc]

/-- Halved directions, enumerated. -/
theorem dir_half_cases (d : Fin 4) :
    (dr d / 2 = -1 ∧ dr d = -2 ∧ dc d / 2 = 0 ∧ dc d = 0) ∨
    (dr d / 2 = 0 ∧ dr d = 0 ∧ dc d / 2 = 1 ∧ dc d = 2) ∨
    (dr d / 2 = 1 ∧ dr d = 2 ∧ dc d / 2 = 0 ∧ dc d = 0) ∨
    (dr d / 2 = 0 ∧ dr d = 0 ∧ dc d / 2 = -1 ∧ dc d = -2) := by
  fin_cases d <;> simp [dr, dc]

/-- A two-step neighbour of a room cell is a room cell. -/
theorem oddCell_nextCell (rc : Cell) (d : Fin 4) (h : oddCell rc) :
    oddCell (nextCell rc d) := by
  obtain ⟨h1, h2⟩ := h
  rcases dir_cases d with ⟨e1, e2⟩ | ⟨e1, e2⟩ | ⟨e1, e2⟩ | ⟨e1, e2⟩ <;>
    (constructor <;> simp only [nextCell, e1, e2] <;> omega)

/-- The carved wall slot is in bounds when both endpoints are. -/
theorem inB_wallCell (H W : ℤ) (rc : Cell) (d : Fin 4)
    (h1 : inB H W rc) (h2 : inB H W (nextCell rc d)) : inB H W (wallCell rc d) := by
  obtain ⟨a1, a2, a3, a4⟩ := h1
  rcases dir_half_cases d with ⟨e1, e2, e3, e4⟩ | ⟨e1, e2, e3, e4⟩ |
    ⟨e1, e2, e3, e4⟩ | ⟨e1, e2, e3, e4⟩ <;>
    (obtain ⟨b1, b2, b3, b4⟩ := h2;
     simp only [nextCell, e2, e4] at b1 b2 b3 b4;
     refine ⟨?_, ?_, ?_, ?_⟩ <;> simp only [wallCell, e1, e3] <;> omega)

/-- The wall slot of a room cell is never itself a room cell. -/
theorem wallCell_not_odd (rc : Cell) (d : Fin 4) (hodd : oddCell rc) :
    ¬ oddCell (wallCell rc d) := by
  obtain ⟨ho1, ho2⟩ := hodd
  intro hw
  obtain ⟨hw1, hw2⟩ := hw
  rcases dir_half_cases d with ⟨e1, e2, e3, e4⟩ | ⟨e1, e2, e3, e4⟩ |
    ⟨e1, e2, e3, e4⟩ | ⟨e1, e2, e3, e4⟩ <;>
    (simp only [wallCell, e1, e3] at hw1 hw2; omega)

/-- One carving step preserves the structural grid invariant. -/
theorem gridWF_step (H W : ℤ) (g : MazeGrid) (rc : Cell) (d : Fin 4)
    (hwf : GridWF H W g) (hodd : oddCell rc) (hrc : carvedCell g rc)
    (hb : inB H W (nextCell rc d)) :
    GridWF H W (setCell (setCell g (wallCell rc d) false) (nextCell rc d) false) := by
  obtain ⟨ho1, ho2⟩ := hodd
  constructor
  · intro p hp
    rcases (carved_step_iff g rc d p).mp hp with rfl | rfl | h
    · exact inB_wallCell H W rc d (hwf.bounds rc hrc) hb
    · exact hb
    · exact hwf.bounds p h
  · intro p hp hev
    obtain ⟨he1, he2⟩ := hev
    rcases (carved_step_iff g rc d p).mp hp with rfl | rfl | h
    · rcases dir_half_cases d with ⟨e1, e2, e3, e4⟩ | ⟨e1, e2, e3, e4⟩ |
        ⟨e1, e2, e3, e4⟩ | ⟨e1, e2, e3, e4⟩ <;>
        (simp only [wallCell, e1, e3] at he1 he2; omega)
    · obtain ⟨hn1, hn2⟩ := oddCell_nextCell rc d ⟨ho1, ho2⟩
      omega
    · exact hwf.noEven p h ⟨he1, he2⟩
  · intro p hp h1 h2
    rcases (carved_step_iff g rc d p).mp hp with rfl | rfl | h
    · rcases dir_half_cases d with ⟨e1, e2, e3, e4⟩ | ⟨e1, e2, e3, e4⟩ |
        ⟨e1, e2, e3, e4⟩ | ⟨e1, e2, e3, e4⟩
      · exfalso; simp only [wallCell, e1] at h1; omega
      · constructor
        · have he : ((wallCell rc d).1, (wallCell rc d).2 - 1) = rc := by
            apply Prod.ext <;> simp only [wallCell, e1, e3] <;> omega
          rw [he]
          exact (carved_step_iff g rc d rc).mpr (Or.inr (Or.inr hrc))
        · have he : ((wallCell rc d).1, (wallCell rc d).2 + 1) = nextCell rc d := by
            apply Prod.ext <;> simp only [wallCell, nextCell, e1, e2, e3, e4] <;> omega
          rw [he]
          exact (carved_step_iff g rc d _).mpr (Or.inr (Or.inl rfl))
      · exfalso; simp only [wallCell, e1] at h1; omega
      · constructor
        · have he : ((wallCell rc d).1, (wallCell rc d).2 - 1) = nextCell rc d := by
            apply Prod.ext <;> simp only [wallCell, nextCell, e1, e2, e3, e4] <;> omega
          rw [he]
          exact (carved_step_iff g rc d _).mpr (Or.inr (Or.inl rfl))
        · have he : ((wallCell rc d).1, (wallCell rc d).2 + 1) = rc := by
            apply Prod.ext <;> simp only [wallCell, e1, e3] <;> omega
          rw [he]
          exact (carved_step_iff g rc d rc).mpr (Or.inr (Or.inr hrc))
    · exfalso
      obtain ⟨hn1, hn2⟩ := oddCell_nextCell rc d ⟨ho1, ho2⟩
      omega
    · obtain ⟨c1, c2⟩ := hwf.slotH p h h1 h2
      exact ⟨(carved_step_iff g rc d _).mpr (Or.inr (Or.inr c1)),
        (carved_step_iff g rc d _).mpr (Or.inr (Or.inr c2))⟩
  · intro p hp h1 h2
    rcases (carved_step_iff g rc d p).mp hp with rfl | rfl | h
    · rcases dir_half_cases d with ⟨e1, e2, e3, e4⟩ | ⟨e1, e2, e3, e4⟩ |
        ⟨e1, e2, e3, e4⟩ | ⟨e1, e2, e3, e4⟩
      · constructor
        · have he : ((wallCell rc d).1 - 1, (wallCell rc d).2) = nextCell rc d := by
            apply Prod.ext <;> simp only [wallCell, nextCell, e1, e2, e3, e4] <;> omega
          rw [he]
          exact (carved_step_iff g rc d _).mpr (Or.inr (Or.inl rfl))
        · have he : ((wallCell rc d).1 + 1, (wallCell rc d).2) = rc := by
            apply Prod.ext <;> simp only [wallCell, e1, e3] <;> omega
          rw [he]
          exact (carved_step_iff g rc d rc).mpr (Or.inr (Or.inr hrc))
      · exfalso; simp only [wallCell, e3] at h2; omega
      · constructor
        · have he : ((wallCell rc d).1 - 1, (wallCell rc d).2) = rc := by
            apply Prod.ext <;> simp only [wallCell, e1, e3] <;> omega
          rw [he]
          exact (carved_step_iff g rc d rc).mpr (Or.inr (Or.inr hrc))
        · have he : ((wallCell rc d).1 + 1, (wallCell rc d).2) = nextCell rc d := by
            apply Prod.ext <;> simp only [wallCell, nextCell, e1, e2, e3, e4] <;> omega
          rw [he]
          exact (carved_step_iff g rc d _).mpr (Or.inr (Or.inl rfl))
      · exfalso; simp only [wallCell, e3] at h2; omega
    · exfalso
      obtain ⟨hn1, hn2⟩ := oddCell_nextCell rc d ⟨ho1, ho2⟩
      omega
    · obtain ⟨c1, c2⟩ := hwf.slotV p h h1 h2
      exact ⟨(carved_step_iff g rc d _).mpr (Or.inr (Or.inr c1)),
        (carved_step_iff g rc d _).mpr (Or.inr (Or.inr c2))⟩

/-- After a carving step into a previously uncarved room cell, the only
neighbour of the new cell in the path space is the wall slot just carved. -/
theorem adj_next_eq_wall (H W : ℤ) (g : MazeGrid) (rc : Cell) (d : Fin 4)
    (hwf : GridWF H W g) (hodd : oddCell rc)
    (hnw : g (nextCell rc d) = true) (a : Cell)
    (hadj : (mazeGraph (setCell (setCell g (wallCell rc d) false)
      (nextCell rc d) false)).Adj (nextCell rc d) a) :
    a = wallCell rc d := by
  obtain ⟨_, hca, hcadj⟩ := hadj
  rcases (carved_step_iff g rc d a).mp hca with rfl | rfl | hold
  · rfl
  · exact absurd hcadj (cellAdj_irrefl _)
  · exfalso
    have hfin : carvedCell g (nextCell rc d) → False := by
      intro hcn
      unfold carvedCell at hcn
      rw [hcn] at hnw
      exact Bool.false_ne_true hnw
    obtain ⟨ho1, ho2⟩ := oddCell_nextCell rc d hodd
    rcases hcadj with ⟨h1, h2 | h2⟩ | ⟨h1, h2 | h2⟩
    · have hs := hwf.slotH a hold (by omega) (by omega)
      have he : (a.1, a.2 + 1) = nextCell rc d := Prod.ext h1.symm (by omega)
      exact hfin (he ▸ hs.2)
    · have hs := hwf.slotH a hold (by omega) (by omega)
      have he : (a.1, a.2 - 1) = nextCell rc d := Prod.ext h1.symm (by omega)
      exact hfin (he ▸ hs.1)
    · have hs := hwf.slotV a hold (by omega) (by omega)
      have he : (a.1 + 1, a.2) = nextCell rc d := Prod.ext (by omega) h1.symm
      exact hfin (he ▸ hs.2)
    · have hs := hwf.slotV a hold (by omega) (by omega)
      have he : (a.1 - 1, a.2) = nextCell rc d := Prod.ext (by omega) h1.symm
      exact hfin (he ▸ hs.1)

/-- After a carving step, the only neighbours of the carved wall slot in
the path space are its two room-cell endpoints. -/
theorem adj_wall_eq (H W : ℤ) (g : MazeGrid) (rc : Cell) (d : Fin 4)
    (hwf : GridWF H W g) (hodd : oddCell rc) (a : Cell)
    (hadj : (mazeGraph (setCell (setCell g (wallCell rc d) false)
      (nextCell rc d) false)).Adj (wallCell rc d) a) :
    a = rc ∨ a = nextCell rc d := by
  obtain ⟨_, hca, hcadj⟩ := hadj
  rcases (carved_step_iff g rc d a).mp hca with rfl | rfl | hold
  · exact absurd hcadj (cellAdj_irrefl _)
  · exact Or.inr rfl
  · have hne := hwf.noEven a hold
    unfold evenCell at hne
    obtain ⟨ho1, ho2⟩ := hodd
    unfold cellAdj at hcadj
    rw [Prod.ext_iff, Prod.ext_iff]
    rcases dir_half_cases d with ⟨e1, e2, e3, e4⟩ | ⟨e1, e2, e3, e4⟩ |
      ⟨e1, e2, e3, e4⟩ | ⟨e1, e2, e3, e4⟩ <;>
      (simp only [wallCell, nextCell, e1, e2, e3, e4] at hcadj ⊢; omega)

/-- One carving step into a previously uncarved room cell preserves
acyclicity of the path space. -/
theorem acyclic_step (H W : ℤ) (g : MazeGrid) (rc : Cell) (d : Fin 4)
    (hwf : GridWF H W g) (hodd : oddCell rc)
    (hnw : g (nextCell rc d) = true)
    (hac : (mazeGraph g).IsAcyclic) :
    (mazeGraph (setCell (setCell g (wallCell rc d) false)
      (nextCell rc d) false)).IsAcyclic := by
  intro v c hc
  by_cases hn : nextCell rc d ∈ c.support
  · obtain ⟨a, b, hab, ha, hb, _, _⟩ := cycle_two_adj c hc hn
    exact hab ((adj_next_eq_wall H W g rc d hwf hodd hnw a ha).trans
      (adj_next_eq_wall H W g rc d hwf hodd hnw b hb).symm)
  · by_cases hw : wallCell rc d ∈ c.support
    · obtain ⟨a, b, hab, ha, hb, has, hbs⟩ := cycle_two_adj c hc hw
      have ha2 : a = rc := by
        rcases adj_wall_eq H W g rc d hwf hodd a ha with h | h
        · exact h
        · exact absurd (h ▸ has) hn
      have hb2 : b = rc := by
        rcases adj_wall_eq H W g rc d hwf hodd b hb with h | h
        · exact h
        · exact absurd (h ▸ hbs) hn
      exact hab (ha2.trans hb2.symm)
    · have hedge : ∀ e ∈ c.edges, e ∈ (mazeGraph g).edgeSet := by
        intro e
        induction e using Sym2.ind with
        | _ x y =>
          intro he
          have hxs := SimpleGraph.Walk.fst_mem_support_of_mem_edges c he
          have hys := SimpleGraph.Walk.snd_mem_support_of_mem_edges c he
          obtain ⟨hcx, hcy, hcadj⟩ := c.adj_of_mem_edges he
          have hgx : carvedCell g x := by
            rcases (carved_step_iff g rc d x).mp hcx with rfl | rfl | h
            · exact absurd hxs hw
            · exact absurd hxs hn
            · exact h
          have hgy : carvedCell g y := by
            rcases (carved_step_iff g rc d y).mp hcy with rfl | rfl | h
            · exact absurd hys hw
            · exact absurd hys hn
            · exact h
          exact (SimpleGraph.mem_edgeSet _).mpr ⟨hgx, hgy, hcadj⟩
      exact hac (c.transfer (mazeGraph g) hedge) (hc.transfer hedge)

/-- One carving step preserves connectivity of the carved cells. -/
theorem reach_step (g : MazeGrid) (rc : Cell) (d : Fin 4)
    (hrc : carvedCell g rc)
    (hre : ∀ p q, carvedCell g p → carvedCell g q → (mazeGraph g).Reachable p q) :
    ∀ p q,
      carvedCell (setCell (setCell g (wallCell rc d) false) (nextCell rc d) false) p →
      carvedCell (setCell (setCell g (wallCell rc d) false) (nextCell rc d) false) q →
      (mazeGraph (setCell (setCell g (wallCell rc d) false)
        (nextCell rc d) false)).Reachable p q := by
  have hmono : mazeGraph g ≤
      mazeGraph (setCell (setCell g (wallCell rc d) false) (nextCell rc d) false) := by
    intro a b hab
    exact ⟨(carved_step_iff g rc d a).mpr (Or.inr (Or.inr hab.1)),
      (carved_step_iff g rc d b).mpr (Or.inr (Or.inr hab.2.1)), hab.2.2⟩
  have hcrc := (carved_step_iff g rc d rc).mpr (Or.inr (Or.inr hrc))
  have hcwl := (carved_step_iff g rc d (wallCell rc d)).mpr (Or.inl rfl)
  have hcnx := (carved_step_iff g rc d (nextCell rc d)).mpr (Or.inr (Or.inl rfl))
  have hadj1 : (mazeGraph (setCell (setCell g (wallCell rc d) false)
      (nextCell rc d) false)).Adj (wallCell rc d) rc := by
    refine ⟨hcwl, hcrc, ?_⟩
    have e := dir_half_cases d
    unfold cellAdj
    simp only [wallCell]
    omega
  have hadj2 : (mazeGraph (setCell (setCell g (wallCell rc d) false)
      (nextCell rc d) false)).Adj (wallCell rc d) (nextCell rc d) := by
    refine ⟨hcwl, hcnx, ?_⟩
    have e := dir_half_cases d
    unfold cellAdj
    simp only [wallCell, nextCell]
    omega
  have key : ∀ p,
      carvedCell (setCell (setCell g (wallCell rc d) false) (nextCell rc d) false) p →
      (mazeGraph (setCell (setCell g (wallCell rc d) false)
        (nextCell rc d) false)).Reachable p rc := by
    intro p hp
    rcases (carved_step_iff g rc d p).mp hp with rfl | rfl | h
    · exact hadj1.reachable
    · exact (hadj2.symm.reachable).trans hadj1.reachable
    · exact (hre p rc h hrc).mono hmono
  intro p q hp hq
  exact (key p hp).trans (key q hq).symm

/-- Main induction: the carving loop establishes its postcondition from
its precondition, for every work list and shuffle index. -/
theorem carve_main (H W : ℤ) (dirsF : ℕ → List (Fin 4))
    (hperm : ∀ (n : ℕ) (d : Fin 4), d ∈ dirsF n) :
    ∀ n : ℕ, ∀ g : MazeGrid, wallCount H W g ≤ n →
    ∀ rc ds k, carvePre H W g rc →
      carvePost H W g ((carveLoop H W dirsF g rc ds k).val.1) rc ds := by
  intro n
  induction n using Nat.strong_induction_on with
  | _ n ih =>
    intro g hn rc ds k hpre
    obtain ⟨hwf, hodd, hrc, hac, hre⟩ := hpre
    induction ds generalizing k with
    | nil =>
      rw [carveLoop_nil]
      refine ⟨fun p hp => hp, hwf, hac, hre, ?_, ?_⟩
      · intro d hd
        exact absurd hd (List.not_mem_nil d)
      · intro p _ hp hnp
        exact absurd hp hnp
    | cons d ds ihds =>
      by_cases h : inB H W (nextCell rc d) ∧ g (nextCell rc d) = true
      · rw [carveLoop_cons_pos H W dirsF g rc d ds k h]
        have hlt : wallCount H W
            (setCell (setCell g (wallCell rc d) false) (nextCell rc d) false) <
            wallCount H W g :=
          lt_of_lt_of_le
            (wallCount_set_lt H W (setCell g (wallCell rc d) false) (nextCell rc d) h.1
              ((setCell_wall_next g rc d).trans h.2))
            (wallCount_set_le H W g (wallCell rc d))
        have hpre2 : carvePre H W
            (setCell (setCell g (wallCell rc d) false) (nextCell rc d) false)
            (nextCell rc d) :=
          ⟨gridWF_step H W g rc d hwf hodd hrc h.1,
           oddCell_nextCell rc d hodd,
           (carved_step_iff g rc d (nextCell rc d)).mpr (Or.inr (Or.inl rfl)),
           acyclic_step H W g rc d hwf hodd h.2 hac,
           reach_step g rc d hrc hre⟩
        obtain ⟨m1, mwf1, mac1, mre1, mcov1, mnew1⟩ :=
          ih (wallCount H W
              (setCell (setCell g (wallCell rc d) false) (nextCell rc d) false))
            (lt_of_lt_of_le hlt hn)
            (setCell (setCell g (wallCell rc d) false) (nextCell rc d) false)
            (le_refl _) (nextCell rc d) (dirsF k) (k + 1) hpre2
        have hr1le := (carveLoop H W dirsF
            (setCell (setCell g (wallCell rc d) false) (nextCell rc d) false)
            (nextCell rc d) (dirsF k) (k + 1)).property
        have hrc1 : carvedCell (carveLoop H W dirsF
            (setCell (setCell g (wallCell rc d) false) (nextCell rc d) false)
            (nextCell rc d) (dirsF k) (k + 1)).val.1 rc :=
          m1 rc ((carved_step_iff g rc d rc).mpr (Or.inr (Or.inr hrc)))
        have hpre3 : carvePre H W (carveLoop H W dirsF
            (setCell (setCell g (wallCell rc d) false) (nextCell rc d) false)
            (nextCell rc d) (dirsF k) (k + 1)).val.1 rc :=
          ⟨mwf1, hodd, hrc1, mac1, mre1⟩
        obtain ⟨m2, mwf2, mac2, mre2, mcov2, mnew2⟩ :=
          ih (wallCount H W (carveLoop H W dirsF
              (setCell (setCell g (wallCell rc d) false) (nextCell rc d) false)
              (nextCell rc d) (dirsF k) (k + 1)).val.1)
            (lt_of_le_of_lt (le_trans (le_refl _) hr1le) (lt_of_lt_of_le hlt hn))
            (carveLoop H W dirsF
              (setCell (setCell g (wallCell rc d) false) (nextCell rc d) false)
              (nextCell rc d) (dirsF k) (k + 1)).val.1
            (le_refl _) rc ds
            (carveLoop H W dirsF
              (setCell (setCell g (wallCell rc d) false) (nextCell rc d) false)
              (nextCell rc d) (dirsF k) (k + 1)).val.2 hpre3
        refine ⟨?_, mwf2, mac2, mre2, ?_, ?_⟩
        · intro p hp
          exact m2 p (m1 p ((carved_step_iff g rc d p).mpr (Or.inr (Or.inr hp))))
        · intro d0 hd0 hin
          rcases List.mem_cons.mp hd0 with rfl | hd2
          · exact m2 _ (m1 _
              ((carved_step_iff g rc d0 (nextCell rc d0)).mpr (Or.inr (Or.inl rfl))))
          · exact mcov2 d0 hd2 hin
        · intro p hpodd hp hnp d0 hin0
          by_cases hp1 : carvedCell (carveLoop H W dirsF
              (setCell (setCell g (wallCell rc d) false) (nextCell rc d) false)
              (nextCell rc d) (dirsF k) (k + 1)).val.1 p
          · by_cases hp2 : carvedCell
                (setCell (setCell g (wallCell rc d) false) (nextCell rc d) false) p
            · rcases (carved_step_iff g rc d p).mp hp2 with rfl | rfl | hcg
              · exact absurd hpodd (wallCell_not_odd rc d hodd)
              · exact m2 _ (mcov1 d0 (hperm k d0) hin0)
              · exact absurd hcg hnp
            · exact m2 _ (mnew1 p hpodd hp1 hp2 d0 hin0)
          · exact mnew2 p hpodd hp hp1 d0 hin0
      · rw [carveLoop_cons_neg H W dirsF g rc d ds k h]
        obtain ⟨m1, mwf, mac, mre, mcov, mnew⟩ := ihds k
        refine ⟨m1, mwf, mac, mre, ?_, mnew⟩
        intro d0 hd0 hin
        rcases List.mem_cons.mp hd0 with rfl | hd2
        · apply m1
          unfold carvedCell
          cases hb : g (nextCell rc d0) with
          | false => rfl
          | true => exact absurd ⟨hin, hb⟩ h
        · exact mcov d0 hd2 hin

/-- In a grid where every carved room cell has all its in-bounds two-step
neighbours carved and the entry cell is carved, every in-bounds room cell
is carved (for odd dimensions at least 3). -/
theorem all_odd_carved (H W : ℤ) (G : MazeGrid)
    (hH2 : H % 2 = 1) (hW2 : W % 2 = 1)
    (hstart : carvedCell G (1, 1))
    (hproc : ∀ p, oddCell p → carvedCell G p → ∀ d, inB H W (nextCell p d) →
      carvedCell G (nextCell p d)) :
    ∀ p, oddCell p → inB H W p → carvedCell G p := by
  have main : ∀ n : ℕ, ∀ p : Cell, (p.1 + p.2).toNat = n → oddCell p → inB H W p →
      carvedCell G p := by
    intro n
    induction n using Nat.strong_induction_on with
    | _ n ihn =>
      intro p hm hodd hin
      obtain ⟨ho1, ho2⟩ := hodd
      obtain ⟨hb1, hb2, hb3, hb4⟩ := hin
      by_cases h1 : p = (1, 1)
      · rw [h1]
        exact hstart
      · have hp1 : p.1 = 1 → p.2 ≠ 1 := by
          intro e1 e2
          exact h1 (Prod.ext e1 e2)
        have h3 : 3 ≤ p.1 ∨ 3 ≤ p.2 := by
          by_cases hc : p.1 = 1
          · have := hp1 hc
            right
            omega
          · left
            omega
        rcases h3 with h3 | h3
        · have hq : carvedCell G (p.1 - 2, p.2) := by
            refine ihn ((p.1 - 2, p.2).1 + (p.1 - 2, p.2).2).toNat ?_ (p.1 - 2, p.2)
              rfl ⟨?_, ?_⟩ ⟨?_, ?_, ?_, ?_⟩
            · show (p.1 - 2 + p.2).toNat < n
              omega
            · show (p.1 - 2) % 2 = 1
              omega
            · show p.2 % 2 = 1
              omega
            · show (0 : ℤ) ≤ p.1 - 2
              omega
            · show p.1 - 2 < H
              omega
            · show (0 : ℤ) ≤ p.2
              omega
            · show p.2 < W
              omega
          have hnx : nextCell (p.1 - 2, p.2) 2 = p := by
            apply Prod.ext
            · show p.1 - 2 + dr 2 = p.1
              have h2 : dr 2 = 2 := by decide
              omega
            · show p.2 + dc 2 = p.2
              have h2 : dc 2 = 0 := by decide
              omega
          have hres := hproc (p.1 - 2, p.2) ⟨by omega, by omega⟩ hq 2
            (by rw [hnx]; exact ⟨hb1, hb2, hb3, hb4⟩)
          rw [hnx] at hres
          exact hres
        · have hq : carvedCell G (p.1, p.2 - 2) := by
            refine ihn ((p.1, p.2 - 2).1 + (p.1, p.2 - 2).2).toNat ?_ (p.1, p.2 - 2)
              rfl ⟨?_, ?_⟩ ⟨?_, ?_, ?_, ?_⟩
            · show (p.1 + (p.2 - 2)).toNat < n
              omega
            · show p.1 % 2 = 1
              omega
            · show (p.2 - 2) % 2 = 1
              omega
            · show (0 : ℤ) ≤ p.1
              omega
            · show p.1 < H
              omega
            · show (0 : ℤ) ≤ p.2 - 2
              omega
            · show p.2 - 2 < W
              omega
          have hnx : nextCell (p.1, p.2 - 2) 1 = p := by
            apply Prod.ext
            · show p.1 + dr 1 = p.1
              have h2 : dr 1 = 0 := by decide
              omega
            · show p.2 - 2 + dc 1 = p.2
              have h2 : dc 1 = 2 := by decide
              omega
          have hres := hproc (p.1, p.2 - 2) ⟨by omega, by omega⟩ hq 1
            (by rw [hnx]; exact ⟨hb1, hb2, hb3, hb4⟩)
          rw [hnx] at hres
          exact hres
  intro p hodd hin
  exact main ((p.1 + p.2).toNat) p rfl hodd hin

/-- Shared helper: the computed maze dimensions are odd and at least 3
(width first, then height). -/
theorem calcMazeDims_odd_ge3 (screenWidth screenHeight : ℕ) :
    (calculateMazeDimensions screenWidth screenHeight).1 % 2 = 1 ∧
    3 ≤ (calculateMazeDimensions screenWidth screenHeight).1 ∧
    (calculateMazeDimensions screenWidth screenHeight).2.1 % 2 = 1 ∧
    3 ≤ (calculateMazeDimensions screenWidth screenHeight).2.1 := by
  simp only [calculateMazeDimensions, MAZE_BASE_WIDTH_CELLS, MAZE_BASE_HEIGHT_CELLS]
  rw [if_neg (by decide : ¬((35 : ℤ) % 2 = 0)), if_neg (by decide : ¬((21 : ℤ) % 2 = 0))]
  split_ifs <;> omega

/-- In the freshly initialised grid with the entry carved, a cell is
carved exactly when it is the entry. -/
theorem carved_init_iff (p : Cell) :
    carvedCell (setCell initMazeGrid (1, 1) false) p ↔ p = (1, 1) := by
  unfold carvedCell setCell initMazeGrid
  by_cases h : p = (1, 1) <;> simp [h]

/-- The freshly initialised grid satisfies the structural invariant. -/
theorem gridWF_init (H W : ℤ) (hH3 : 3 ≤ H) (hW3 : 3 ≤ W) :
    GridWF H W (setCell initMazeGrid (1, 1) false) := by
  constructor
  · intro p hp
    rw [carved_init_iff] at hp
    subst hp
    refine ⟨?_, ?_, ?_, ?_⟩
    · show (0 : ℤ) ≤ 1
      omega
    · show (1 : ℤ) < H
      omega
    · show (0 : ℤ) ≤ 1
      omega
    · show (1 : ℤ) < W
      omega
  · intro p hp hev
    rw [carved_init_iff] at hp
    subst hp
    exact absurd (hev.1 : (1 : ℤ) % 2 = 0) (by decide)
  · intro p hp h1 h2
    rw [carved_init_iff] at hp
    subst hp
    exact absurd (h2 : (1 : ℤ) % 2 = 0) (by decide)
  · intro p hp h1 h2
    rw [carved_init_iff] at hp
    subst hp
    exact absurd (h1 : (1 : ℤ) % 2 = 0) (by decide)

/-- The freshly initialised grid has an acyclic path space. -/
theorem acyclic_init : (mazeGraph (setCell initMazeGrid (1, 1) false)).IsAcyclic := by
  intro v c hc
  obtain ⟨y, h1, q, hq⟩ := SimpleGraph.Walk.not_nil_iff.mp hc.not_nil
  obtain ⟨hcv, hcy, hcadj⟩ := h1
  rw [carved_init_iff] at hcv hcy
  rw [hcv, hcy] at hcadj
  exact cellAdj_irrefl _ hcadj

/-- The freshly initialised grid has a connected carved set. -/
theorem reach_init : ∀ p q, carvedCell (setCell initMazeGrid (1, 1) false) p →
    carvedCell (setCell initMazeGrid (1, 1) false) q →
    (mazeGraph (setCell initMazeGrid (1, 1) false)).Reachable p q := by
  intro p q hp hq
  rw [carved_init_iff] at hp hq
  rw [hp, hq]

/-- C2: for every viewport and every sequence of direction shuffles, the
maze produced by `GenerateNewMazeStructure` has the start cell (1,1) and
the exit cell (height-2, width-2) carved as path cells, and the carved
cells form a spanning tree of the path space: no cycles, every two carved
cells connected, and exactly one simple path from start to exit. -/
theorem maze_generation_spanning_tree (screenWidth screenHeight : ℕ)
    (dirsF : ℕ → List (Fin 4)) (hperm : ∀ n : ℕ, (dirsF n).Perm [0, 1, 2, 3]) :
    carvedCell (generateNewMazeStructure screenWidth screenHeight dirsF) (1, 1) ∧
    carvedCell (generateNewMazeStructure screenWidth screenHeight dirsF)
      ((calculateMazeDimensions screenWidth screenHeight).2.1 - 2,
       (calculateMazeDimensions screenWidth screenHeight).1 - 2) ∧
    (mazeGraph (generateNewMazeStructure screenWidth screenHeight dirsF)).IsAcyclic ∧
    (∀ p q, carvedCell (generateNewMazeStructure screenWidth screenHeight dirsF) p →
      carvedCell (generateNewMazeStructure screenWidth screenHeight dirsF) q →
      (mazeGraph (generateNewMazeStructure screenWidth screenHeight dirsF)).Reachable p q) ∧
    Nonempty ((mazeGraph (generateNewMazeStructure screenWidth screenHeight dirsF)).Path
      (1, 1)
      ((calculateMazeDimensions screenWidth screenHeight).2.1 - 2,
       (calculateMazeDimensions screenWidth screenHeight).1 - 2)) ∧
    (∀ p q : (mazeGraph (generateNewMazeStructure screenWidth screenHeight dirsF)).Path
      (1, 1)
      ((calculateMazeDimensions screenWidth screenHeight).2.1 - 2,
       (calculateMazeDimensions screenWidth screenHeight).1 - 2), p = q) := by
  obtain ⟨hW2, hW3, hH2, hH3⟩ := calcMazeDims_odd_ge3 screenWidth screenHeight
  have hmem : ∀ (n : ℕ) (d : Fin 4), d ∈ dirsF n := by
    intro n d
    rw [(hperm n).mem_iff]
    fin_cases d <;> decide
  have hgen : generateNewMazeStructure screenWidth screenHeight dirsF =
      (carveLoop (calculateMazeDimensions screenWidth screenHeight).2.1
        (calculateMazeDimensions screenWidth screenHeight).1 dirsF
        (setCell initMazeGrid (1, 1) false) (1, 1) (dirsF 0) 1).val.1 := rfl
  rw [hgen]
  have hpre : carvePre (calculateMazeDimensions screenWidth screenHeight).2.1
      (calculateMazeDimensions screenWidth screenHeight).1
      (setCell initMazeGrid (1, 1) false) (1, 1) :=
    ⟨gridWF_init _ _ hH3 hW3, ⟨by decide, by decide⟩,
     (carved_init_iff (1, 1)).mpr rfl, acyclic_init, reach_init⟩
  obtain ⟨m1, mwf, mac, mre, mcov, mnew⟩ :=
    carve_main (calculateMazeDimensions screenWidth screenHeight).2.1
      (calculateMazeDimensions screenWidth screenHeight).1 dirsF hmem
      (wallCount (calculateMazeDimensions screenWidth screenHeight).2.1
        (calculateMazeDimensions screenWidth screenHeight).1
        (setCell initMazeGrid (1, 1) false))
      (setCell initMazeGrid (1, 1) false) (le_refl _) (1, 1) (dirsF 0) 1 hpre
  have hstart := m1 (1, 1) ((carved_init_iff (1, 1)).mpr rfl)
  have hproc : ∀ p, oddCell p → carvedCell (carveLoop
      (calculateMazeDimensions screenWidth screenHeight).2.1
      (calculateMazeDimensions screenWidth screenHeight).1 dirsF
      (setCell initMazeGrid (1, 1) false) (1, 1) (dirsF 0) 1).val.1 p →
      ∀ d, inB (calculateMazeDimensions screenWidth screenHeight).2.1
        (calculateMazeDimensions screenWidth screenHeight).1 (nextCell p d) →
      carvedCell (carveLoop
        (calculateMazeDimensions screenWidth screenHeight).2.1
        (calculateMazeDimensions screenWidth screenHeight).1 dirsF
        (setCell initMazeGrid (1, 1) false) (1, 1) (dirsF 0) 1).val.1 (nextCell p d) := by
    intro p hpo hpc d hin
    by_cases hp1 : p = (1, 1)
    · subst hp1
      exact mcov d (hmem 0 d) hin
    · refine mnew p hpo hpc ?_ d hin
      intro hcg
      exact hp1 ((carved_init_iff p).mp hcg)
  have hall := all_odd_carved _ _ _ hH2 hW2 hstart hproc
  have hexit := hall ((calculateMazeDimensions screenWidth screenHeight).2.1 - 2,
      (calculateMazeDimensions screenWidth screenHeight).1 - 2)
    ⟨by show ((calculateMazeDimensions screenWidth screenHeight).2.1 - 2) % 2 = 1; omega,
     by show ((calculateMazeDimensions screenWidth screenHeight).1 - 2) % 2 = 1; omega⟩
    ⟨by show (0 : ℤ) ≤ (calculateMazeDimensions screenWidth screenHeight).2.1 - 2; omega,
     by show (calculateMazeDimensions screenWidth screenHeight).2.1 - 2 <
        (calculateMazeDimensions screenWidth screenHeight).2.1; omega,
     by show (0 : ℤ) ≤ (calculateMazeDimensions screenWidth screenHeight).1 - 2; omega,
     by show (calculateMazeDimensions screenWidth screenHeight).1 - 2 <
        (calculateMazeDimensions screenWidth screenHeight).1; omega⟩
  refine ⟨hstart, hexit, mac, mre, ?_, ?_⟩
  · obtain ⟨w⟩ := mre _ _ hstart hexit
    exact ⟨w.toPath⟩
  · intro p q
    exact SimpleGraph.isAcyclic_iff_path_unique.mp mac p q

/-- Witness for C2 at a concrete viewport and shuffle sequence. -/
theorem maze_generation_spanning_tree_witness :
    (∀ n : ℕ, ((fun _ : ℕ => ([0, 1, 2, 3] : List (Fin 4))) n).Perm [0, 1, 2, 3]) ∧
    carvedCell (generateNewMazeStructure 1280 720 (fun _ => [0, 1, 2, 3])) (1, 1) ∧
    (mazeGraph (generateNewMazeStructure 1280 720 (fun _ => [0, 1, 2, 3]))).IsAcyclic := by
  refine ⟨fun _ => List.Perm.refl _, ?_, ?_⟩
  · exact (maze_generation_spanning_tree 1280 720 (fun _ => [0, 1, 2, 3])
      (fun _ => List.Perm.refl _)).1
  · exact (maze_generation_spanning_tree 1280 720 (fun _ => [0, 1, 2, 3])
      (fun _ => List.Perm.refl _)).2.2.1


/-- C8: for every viewport width and height, the computed maze grid
dimensions are both odd and at least 3. -/
theorem maze_dimensions_odd_and_min_three (screenWidth screenHeight : ℕ) :
    Odd (calculateMazeDimensions screenWidth screenHeight).1 ∧
    3 ≤ (calculateMazeDimensions screenWidth screenHeight).1 ∧
    Odd (calculateMazeDimensions screenWidth screenHeight).2.1 ∧
    3 ≤ (calculateMazeDimensions screenWidth screenHeight).2.1 := by
  rw [Int.odd_iff, Int.odd_iff]
  simp only [calculateMazeDimensions, MAZE_BASE_WIDTH_CELLS, MAZE_BASE_HEIGHT_CELLS]
  rw [if_neg (by decide : ¬((35 : ℤ) % 2 = 0)), if_neg (by decide : ¬((21 : ℤ) % 2 = 0))]
  split_ifs <;> omega

/-- A frame on an already-won maze level changes nothing. -/
theorem mazeUpdate_won (env : MazeEnv) (s : MazeState) (inp : MazeInputs)
    (h : s.levelWon = true) : mazeUpdate env s inp = s := by
  simp [mazeUpdate, h]

/-- A play-through starting from a won state stays frozen. -/
theorem mazeRun_won (env : MazeEnv) (s : MazeState) (l : List MazeInputs)
    (h : s.levelWon = true) : mazeRun env s l = s := by
  induction l with
  | nil => rfl
  | cons inp rest ih =>
    show List.foldl (mazeUpdate env) s (inp :: rest) = s
    rw [List.foldl_cons, mazeUpdate_won env s inp h]
    exact ih

/-- C4: for every maze play-through starting unwon, `IsComplete()` is true
exactly when some frame's update put the player's box over the exit cell
with the collected coin count equal to the total spawned (evaluated after
that frame's movement and coin collection, on a not-yet-won state);
in particular reaching the exit with coins remaining leaves it false. -/
theorem maze_is_complete_iff_win_frame (env : MazeEnv) (s : MazeState)
    (inputs : List MazeInputs) (hstart : s.levelWon = false) :
    mazeIsComplete (mazeRun env s inputs) = true ↔
    ∃ i : Fin inputs.length,
      (mazeRun env s (inputs.take i)).levelWon = false ∧
      mazeWinCheck env
        (mazeMoveAndCollect env (mazeRun env s (inputs.take i)) (inputs.get i)) = true := by
  induction inputs generalizing s with
  | nil =>
    refine iff_of_false ?_ ?_
    · simp [mazeRun, mazeIsComplete, hstart]
    · rintro ⟨i, -⟩
      exact absurd i.2 (Nat.not_lt_zero _)
  | cons inp rest ih =>
    have hupd : mazeUpdate env s inp =
        { mazeMoveAndCollect env s inp with
          levelWon := mazeWinCheck env (mazeMoveAndCollect env s inp) } := by
      simp [mazeUpdate, hstart]
    have hrun : mazeRun env s (inp :: rest) = mazeRun env (mazeUpdate env s inp) rest := by
      simp [mazeRun]
    by_cases hw : mazeWinCheck env (mazeMoveAndCollect env s inp) = true
    · refine iff_of_true ?_ ?_
      · have hwon : (mazeUpdate env s inp).levelWon = true := by rw [hupd]; exact hw
        show (mazeRun env s (inp :: rest)).levelWon = true
        rw [hrun, mazeRun_won env _ rest hwon]
        exact hwon
      · refine ⟨⟨0, Nat.succ_pos _⟩, ?_, ?_⟩
        · simpa [mazeRun] using hstart
        · simpa using hw
    · have hw' : mazeWinCheck env (mazeMoveAndCollect env s inp) = false := by
        simpa using hw
      have hs' : (mazeUpdate env s inp).levelWon = false := by rw [hupd]; exact hw'
      rw [hrun, ih _ hs']
      constructor
      · rintro ⟨j, h1, h2⟩
        exact ⟨j.succ, h1, h2⟩
      · rintro ⟨⟨iv, hiv⟩, h1, h2⟩
        cases iv with
        | zero =>
          have hzero : mazeWinCheck env (mazeMoveAndCollect env s inp) = true := h2
          rw [hw'] at hzero
          exact absurd hzero (by simp)
        | succ jv =>
          have hj : jv < rest.length := Nat.lt_of_succ_lt_succ hiv
          exact ⟨⟨jv, hj⟩, h1, h2⟩

unseal Rat.add Rat.sub Rat.mul Rat.inv Rat.ofScientific in
/-- Witness for C4: standing on the exit cell with all (zero) coins
collected wins in one frame. -/
theorem maze_is_complete_iff_win_frame_witness :
    mazeIsComplete (mazeRun sampleMazeEnv sampleMazeState [mazeNoKeys]) = true := by
  refine (maze_is_complete_iff_win_frame sampleMazeEnv sampleMazeState [mazeNoKeys] rfl).mpr ?_
  exact ⟨⟨0, Nat.succ_pos _⟩, by decide, by decide⟩

/-- A move-and-score pass shifts a pipe left by speed times frame time. -/
theorem movedScored_x (b : Bird) (dt : ℚ) (p : Pipe) :
    (movedScored b dt p).topRect.x = p.topRect.x - FLAPPY_PIPE_SPEED * dt := by
  simp only [movedScored]
  split <;> rfl

/-- Uniform movement preserves the exact pipe spacing. -/
theorem pipesWellSpaced_map (b : Bird) (dt : ℚ) (l : List Pipe)
    (h : PipesWellSpaced l) : PipesWellSpaced (l.map (movedScored b dt)) := by
  unfold PipesWellSpaced at *
  rw [List.chain'_map]
  refine List.Chain'.imp ?_ h
  intro p q hpq
  rw [movedScored_x, movedScored_x, hpq]
  ring

/-- In a well-spaced non-empty pipe list, the last pipe sits
`spacing * (length - 1)` to the right of the first. -/
theorem pipesWellSpaced_getLast (l : List Pipe) (p : Pipe)
    (h : PipesWellSpaced (p :: l)) :
    ∃ q, (p :: l).getLast? = some q ∧
      q.topRect.x = p.topRect.x + FLAPPY_MIN_HORIZONTAL_PIPE_SPACING * l.length := by
  induction l generalizing p with
  | nil => exact ⟨p, rfl, by simp⟩
  | cons r rest ih =>
    have hcons := List.chain'_cons.mp h
    obtain ⟨q, hq, hx⟩ := ih r hcons.2
    refine ⟨q, ?_, ?_⟩
    · rw [List.getLast?_cons_cons]
      exact hq
    · rw [hx, hcons.1]
      simp only [List.length_cons]
      push_cast
      ring

/-- Appending a pipe at exactly the minimum spacing beyond the last pipe
keeps the list well spaced. -/
theorem pipesWellSpaced_append (l : List Pipe) (q : Pipe) (x g hh : ℚ)
    (hch : PipesWellSpaced l) (hq : l.getLast? = some q)
    (hx : x = q.topRect.x + FLAPPY_MIN_HORIZONTAL_PIPE_SPACING) :
    PipesWellSpaced (l ++ [mkPipe x g hh]) := by
  unfold PipesWellSpaced at *
  rw [List.chain'_append]
  refine ⟨hch, List.chain'_singleton _, ?_⟩
  intro a ha b hb
  rw [hq, Option.mem_some_iff] at ha
  simp only [List.head?_cons, Option.mem_some_iff] at hb
  subst ha
  subst hb
  simpa [mkPipe] using hx

/-- Load (`InitFlappyGame`) establishes the pipe-list invariant. -/
theorem flappy_init_pipes_inv (gaps : ℕ → ℚ) (w h : ℚ) (k : ℕ) :
    FlappyPipesInv (initFlappyGame gaps w h k) := by
  constructor
  · simp [initFlappyGame]
  · unfold PipesWellSpaced initFlappyGame
    simp [List.chain'_cons, mkPipe]

/-- The removal phase of a well-spaced list of at least two pipes leaves a
non-empty list, and the subsequent spawn phase restores at least two
well-spaced pipes. -/
theorem flappy_removal_spawn_inv (gaps : ℕ → ℚ) (screenW screenH : ℚ) (k : ℕ)
    (pipes : List Pipe) (h2 : 2 ≤ pipes.length) (hch : PipesWellSpaced pipes)
    (hsw : (420 : ℚ) ≤ screenW) :
    flappyRemovalPhase pipes ≠ [] ∧
    2 ≤ (flappySpawnPhase gaps screenW screenH k (flappyRemovalPhase pipes)).1.length ∧
    PipesWellSpaced (flappySpawnPhase gaps screenW screenH k (flappyRemovalPhase pipes)).1 := by
  match pipes, h2 with
  | p :: r :: rest, _ =>
  have hspace : (0 : ℚ) < FLAPPY_MIN_HORIZONTAL_PIPE_SPACING := by
    simp [FLAPPY_MIN_HORIZONTAL_PIPE_SPACING]
  simp only [flappyRemovalPhase]
  split
  · -- front pipe removed
    rename_i hrem
    have hch2 : PipesWellSpaced (r :: rest) := (List.chain'_cons.mp hch).2
    have hpr : r.topRect.x = p.topRect.x + FLAPPY_MIN_HORIZONTAL_PIPE_SPACING :=
      (List.chain'_cons.mp hch).1
    obtain ⟨q, hq, hx⟩ := pipesWellSpaced_getLast rest r hch2
    refine ⟨by simp, ?_, ?_⟩
    · simp only [flappySpawnPhase, hq]
      split
      · simp
      · rename_i hns
        -- no spawn: the last pipe is at least screenW - spacing, which with
        -- the removed front pipe below -PIPE_WIDTH forces at least 3 pipes
        have hq1 : screenW - FLAPPY_MIN_HORIZONTAL_PIPE_SPACING ≤ q.topRect.x := le_of_not_lt hns
        have hrem' : p.topRect.x + FLAPPY_PIPE_WIDTH < 0 := hrem
        have h80 : FLAPPY_PIPE_WIDTH = (80 : ℚ) := rfl
        have h250 : FLAPPY_MIN_HORIZONTAL_PIPE_SPACING = (250 : ℚ) := rfl
        have hlen : (1 : ℚ) ≤ (rest.length : ℚ) := by
          by_contra hlt
          push_neg at hlt
          have : (rest.length : ℚ) = 0 := by
            have : rest.length = 0 := by exact_mod_cast Nat.lt_one_iff.mp (by exact_mod_cast hlt)
            simp [this]
          rw [hpr, h250] at hx
          rw [this] at hx
          rw [h250] at hq1
          rw [h80] at hrem'
          nlinarith [hx, hq1, hrem', hsw]
        have : 1 ≤ rest.length := by exact_mod_cast hlen
        simp only [List.length_cons]
        omega
    · simp only [flappySpawnPhase, hq]
      split
      · exact pipesWellSpaced_append _ q _ _ _ hch2 hq rfl
      · exact hch2
  · -- nothing removed
    obtain ⟨q, hq, hx⟩ := pipesWellSpaced_getLast (r :: rest) p hch
    refine ⟨by simp, ?_, ?_⟩
    · simp only [flappySpawnPhase, hq]
      split <;> simp
    · simp only [flappySpawnPhase, hq]
      split
      · exact pipesWellSpaced_append _ q _ _ _ hch hq rfl
      · exact hch

/-- The pipe list produced by the collision phase always has at least two
pipes and exact spacing, given the frame started with the invariant. -/
theorem flappy_collision_phase_inv (gaps : ℕ → ℚ) (s : FlappyState) (b1 : Bird)
    (dt : ℚ) (col : Bool) (h2 : 2 ≤ s.pipes.length) (hch : PipesWellSpaced s.pipes) :
    2 ≤ (flappyCollisionPhase gaps s b1 (flappyPipeLoop b1 dt s.pipes).1 col).2.1.length ∧
    PipesWellSpaced (flappyCollisionPhase gaps s b1 (flappyPipeLoop b1 dt s.pipes).1 col).2.1 := by
  have hmap2 : 2 ≤ (flappyPipeLoop b1 dt s.pipes).1.length := by
    rw [flappyPipeLoop_pipes, List.length_map]
    exact h2
  have hmapch : PipesWellSpaced (flappyPipeLoop b1 dt s.pipes).1 := by
    rw [flappyPipeLoop_pipes]
    exact pipesWellSpaced_map b1 dt s.pipes hch
  unfold flappyCollisionPhase
  split
  · dsimp only
    split
    · exact ⟨hmap2, hmapch⟩
    · refine ⟨by simp, ?_⟩
      unfold PipesWellSpaced
      simp [List.chain'_cons, mkPipe]
  · exact ⟨hmap2, hmapch⟩

/-- One full frame of `FlappyLevel::Update` preserves the pipe-list
invariant, on any viewport at least 420 units wide. -/
theorem flappyUpdate_pipes_inv (gaps : ℕ → ℚ) (s : FlappyState) (dt : ℚ)
    (space : Bool) (hinv : FlappyPipesInv s) (hsw : (420 : ℚ) ≤ s.screenW) :
    FlappyPipesInv (flappyUpdate gaps s dt space) := by
  obtain ⟨h2, hch⟩ := hinv
  cases hscr : s.currentScreen
  case menu =>
    simp only [flappyUpdate, hscr]
    split <;> exact ⟨h2, hch⟩
  case gameOver => simpa only [flappyUpdate, hscr] using ⟨h2, hch⟩
  case win => simpa only [flappyUpdate, hscr] using ⟨h2, hch⟩
  case playing =>
    simp only [flappyUpdate, hscr]
    obtain ⟨hcp2, hcpch⟩ := flappy_collision_phase_inv gaps s (s.bird.update dt) dt
      ((flappyPipeLoop (s.bird.update dt) dt s.pipes).2.2 ||
        decide ((s.bird.update dt).posY + (s.bird.update dt).radius ≥ s.screenH) ||
        decide ((s.bird.update dt).posY - (s.bird.update dt).radius ≤ 0)) h2 hch
    obtain ⟨hne, hlen, hsp⟩ := flappy_removal_spawn_inv gaps s.screenW s.screenH
      (flappyCollisionPhase gaps s (s.bird.update dt)
        (flappyPipeLoop (s.bird.update dt) dt s.pipes).1
        ((flappyPipeLoop (s.bird.update dt) dt s.pipes).2.2 ||
          decide ((s.bird.update dt).posY + (s.bird.update dt).radius ≥ s.screenH) ||
          decide ((s.bird.update dt).posY - (s.bird.update dt).radius ≤ 0))).2.2.2.2.2
      _ hcp2 hcpch hsw
    exact ⟨hlen, hsp⟩

/-- C10: in the Flappy Playing sub-state the `m_pipes.back()` access is
always on a non-empty list: `Load` establishes the invariant (two pipes,
exact minimum spacing), every frame preserves it, and at the access point
(after the one possible front removal of the frame) the list is non-empty. -/
theorem flappy_back_access_in_bounds (gaps : ℕ → ℚ) (s : FlappyState) (dt : ℚ)
    (space : Bool) (hinv : FlappyPipesInv s) (hsw : (420 : ℚ) ≤ s.screenW) :
    (∀ w h k, FlappyPipesInv (initFlappyGame gaps w h k)) ∧
    FlappyPipesInv (flappyUpdate gaps s dt space) ∧
    flappyRemovalPhase
      (flappyCollisionPhase gaps s (flappyFrameBird s dt)
        (flappyPipeLoop (flappyFrameBird s dt) dt s.pipes).1
        (flappyFrameCollision s dt)).2.1 ≠ [] := by
  obtain ⟨h2, hch⟩ := hinv
  refine ⟨flappy_init_pipes_inv gaps, flappyUpdate_pipes_inv gaps s dt space ⟨h2, hch⟩ hsw, ?_⟩
  obtain ⟨hcp2, hcpch⟩ := flappy_collision_phase_inv gaps s (flappyFrameBird s dt) dt
    (flappyFrameCollision s dt) h2 hch
  obtain ⟨hne, -, -⟩ := flappy_removal_spawn_inv gaps s.screenW s.screenH
    (flappyCollisionPhase gaps s (flappyFrameBird s dt)
      (flappyPipeLoop (flappyFrameBird s dt) dt s.pipes).1
      (flappyFrameCollision s dt)).2.2.2.2.2 _ hcp2 hcpch hsw
  exact hne

unseal Rat.add Rat.sub Rat.mul Rat.inv Rat.ofScientific in
/-- Witness for C10 at the freshly loaded Flappy level with a small frame. -/
theorem flappy_back_access_in_bounds_witness :
    FlappyPipesInv (flappyUpdate (fun _ => 400) (initFlappyGame (fun _ => 400) 1280 720 0)
      (1/60) false) ∧
    flappyRemovalPhase
      (flappyCollisionPhase (fun _ => 400) (initFlappyGame (fun _ => 400) 1280 720 0)
        (flappyFrameBird (initFlappyGame (fun _ => 400) 1280 720 0) (1/60))
        (flappyPipeLoop (flappyFrameBird (initFlappyGame (fun _ => 400) 1280 720 0) (1/60))
          (1/60) (initFlappyGame (fun _ => 400) 1280 720 0).pipes).1
        (flappyFrameCollision (initFlappyGame (fun _ => 400) 1280 720 0) (1/60))).2.1 ≠ [] := by
  have h := flappy_back_access_in_bounds (fun _ => 400)
    (initFlappyGame (fun _ => 400) 1280 720 0) (1/60) false
    (flappy_init_pipes_inv (fun _ => 400) 1280 720 0) (by norm_num [initFlappyGame])
  exact ⟨h.2.1, h.2.2⟩

set_option maxRecDepth 4000 in
unseal Rat.add Rat.sub Rat.mul Rat.inv Rat.ofScientific in
/-- C7: concrete evaluation of the two scenarios.  Landing (first half of
the claim) behaves as specified: the frame ends grounded with zero vertical
velocity.  But in the underside frame the player overlaps the platform
moving straight up, and the frame ends with vertical velocity still -120
(not 0): the head-bump branch compares `bounds.y - bounds.y * dt` (position
scaled by dt instead of velocity) against the platform's underside, a test
that cannot hold while the boxes overlap, so the branch never fires and the
player tunnels through. -/
theorem obstacle_underside_frame_keeps_velocity :
    ((obstacleUpdate sampleObstacleLanding obstacleNoInput (1/4)).player.onGround = true ∧
     (obstacleUpdate sampleObstacleLanding obstacleNoInput (1/4)).player.velY = 0) ∧
    (checkCollisionRecs
        (obstaclePlayerUpdate sampleObstacleUnderside.player obstacleNoInput (1/10)).boundsRect
        { x := 300, y := 470, width := 90, height := 20 } = true ∧
     (obstaclePlayerUpdate sampleObstacleUnderside.player obstacleNoInput (1/10)).velY < 0) ∧
    (obstacleUpdate sampleObstacleUnderside obstacleNoInput (1/10)).player.velY = -120 ∧
    ¬ (obstacleUpdate sampleObstacleUnderside obstacleNoInput (1/10)).player.velY = 0 ∧
    (obstacleUpdate sampleObstacleUnderside obstacleNoInput (1/10)).player.onGround = false := by
  decide

/-- Player movement and firing never change the life counter. -/
theorem siPlayerUpdate_lives (p : SIPlayer) (kl kr ks : Bool) (w t : ℚ) :
    (siPlayerUpdate p kl kr ks w t).1.lives = p.lives := rfl

/-- The invader-bullet pass either leaves the player untouched with no
loss signal, or removes exactly one life and signals a loss exactly when
the lives reach zero (the loop breaks after the first hit). -/
theorem siInvaderBulletsPhase_spec (p : SIPlayer) (l : List SIBullet) :
    ((siInvaderBulletsPhase p l).2.1 = p ∧ (siInvaderBulletsPhase p l).2.2 = false) ∨
    ((siInvaderBulletsPhase p l).2.1 = { p with lives := p.lives - 1 } ∧
     (siInvaderBulletsPhase p l).2.2 = decide (p.lives - 1 ≤ 0)) := by
  induction l with
  | nil => exact Or.inl ⟨rfl, rfl⟩
  | cons b rest ih =>
    simp only [siInvaderBulletsPhase]
    split
    · exact Or.inr ⟨rfl, rfl⟩
    · simpa using ih

/-- C3 (amended): in a non-terminal frame, reducing the lives to 0 raises
the loss flag, and an all-inactive invader vector at the end of the frame
raises the win flag; the win check runs after the loss check but is not
guarded by it, so in a frame where both events occur the two flags are
BOTH true (the flags are not mutually exclusive). -/
theorem si_flags_in_one_frame (s : SIState) (inp : SIInputs)
    (hng : s.gameOver = false) (hnw : s.gameWon = false) :
    (0 < s.player.lives → (siUpdate s inp).player.lives ≤ 0 →
        (siUpdate s inp).gameOver = true) ∧
    ((∀ inv ∈ (siUpdate s inp).invaders, inv.active = false) →
        (siUpdate s inp).gameWon = true) := by
  have hcond : (s.gameOver || s.gameWon) = false := by simp [hng, hnw]
  simp only [siUpdate, hcond, Bool.false_eq_true, if_false]
  constructor
  · intro hpos hle
    rcases siInvaderBulletsPhase_spec
      (siPlayerUpdate s.player inp.keyLeft inp.keyRight inp.keySpace
        s.currentScreenW inp.time).1
      (((s.invaderBullets.map (fun b => b.update s.currentScreenH)).filter
          (fun b => b.active)) ++
        siFirePhase (siMovePhase s.invaders s.invaderMoveDirection s.invaderMoveTimer
          s.currentScreenW (siPlayerUpdate s.player inp.keyLeft inp.keyRight inp.keySpace
            s.currentScreenW inp.time).1.rect.y inp.frameTime).1 inp.rolls inp.frameTime)
      with hsame | hhit
    · exfalso
      rw [hsame.1, siPlayerUpdate_lives] at hle
      omega
    · rw [hhit.1] at hle
      simp only [siPlayerUpdate_lives] at hle
      rw [hhit.2]
      simp only [hng, Bool.false_or, siPlayerUpdate_lives]
      have hdec : decide (s.player.lives - 1 ≤ 0) = true := by
        simpa using hle
      rw [hdec]
      simp
  · intro hall
    simp only [hnw, Bool.false_or]
    rw [List.all_eq_true]
    intro inv hmem
    simpa using hall inv hmem

/-- Witness for C3 (amended) at the freshly loaded level with an idle
frame. -/
theorem si_flags_in_one_frame_witness :
    (0 < (siLoad 1280 720).player.lives →
      (siUpdate (siLoad 1280 720) (c3Frame 0)).player.lives ≤ 0 →
      (siUpdate (siLoad 1280 720) (c3Frame 0)).gameOver = true) ∧
    ((∀ inv ∈ (siUpdate (siLoad 1280 720) (c3Frame 0)).invaders, inv.active = false) →
      (siUpdate (siLoad 1280 720) (c3Frame 0)).gameWon = true) :=
  si_flags_in_one_frame (siLoad 1280 720) (c3Frame 0) rfl rfl

/-- Splitting a play-through at any point. -/
theorem siRun_append (s : SIState) (l1 l2 : List SIInputs) :
    siRun s (l1 ++ l2) = siRun (siRun s l1) l2 := by
  simp [siRun, List.foldl_append]

set_option maxRecDepth 40000 in
/-- The C3 trace decomposes into its ten-frame slices. -/
theorem c3Inputs_split : c3Inputs = c3Slice 0 10 ++ (c3Slice 10 10 ++ (c3Slice 20 10 ++ (c3Slice 30 10 ++ (c3Slice 40 10 ++ (c3Slice 50 10 ++ (c3Slice 60 10 ++ (c3Slice 70 10 ++ (c3Slice 80 10 ++ (c3Slice 90 10 ++ (c3Slice 100 10 ++ (c3Slice 110 10 ++ (c3Slice 120 10 ++ (c3Slice 130 10 ++ (c3Slice 140 10 ++ (c3Slice 150 10 ++ (c3Slice 160 10 ++ (c3Slice 170 10 ++ (c3Slice 180 10 ++ (c3Slice 190 10 ++ (c3Slice 200 10 ++ (c3Slice 210 10 ++ (c3Slice 220 10 ++ (c3Slice 230 10 ++ (c3Slice 240 10 ++ (c3Slice 250 10 ++ (c3Slice 260 10 ++ (c3Slice 270 10 ++ (c3Slice 280 10 ++ (c3Slice 290 5))))))))))))))))))))))))))))) := by rfl

set_option maxRecDepth 40000 in
unseal Rat.add Rat.sub Rat.mul Rat.inv Rat.ofScientific in
/-- Evaluation of frames 0 to 9 of the C3 trace. -/
theorem c3_chunk0 : siRun (siLoad 1280 720) (c3Slice 0 10) = c3S10 := by decide

set_option maxRecDepth 40000 in
unseal Rat.add Rat.sub Rat.mul Rat.inv Rat.ofScientific in
/-- Evaluation of frames 10 to 19 of the C3 trace. -/
theorem c3_chunk1 : siRun (c3S10) (c3Slice 10 10) = c3S20 := by decide

set_option maxRecDepth 40000 in
unseal Rat.add Rat.sub Rat.mul Rat.inv Rat.ofScientific in
/-- Evaluation of frames 20 to 29 of the C3 trace. -/
theorem c3_chunk2 : siRun (c3S20) (c3Slice 20 10) = c3S30 := by decide

set_option maxRecDepth 40000 in
unseal Rat.add Rat.sub Rat.mul Rat.inv Rat.ofScientific in
/-- Evaluation of frames 30 to 39 of the C3 trace. -/
theorem c3_chunk3 : siRun (c3S30) (c3Slice 30 10) = c3S40 := by decide

set_option maxRecDepth 40000 in
unseal Rat.add Rat.sub Rat.mul Rat.inv Rat.ofScientific in
/-- Evaluation of frames 40 to 49 of the C3 trace. -/
theorem c3_chunk4 : siRun (c3S40) (c3Slice 40 10) = c3S50 := by decide

set_option maxRecDepth 40000 in
unseal Rat.add Rat.sub Rat.mul Rat.inv Rat.ofScientific in
/-- Evaluation of frames 50 to 59 of the C3 trace. -/
theorem c3_chunk5 : siRun (c3S50) (c3Slice 50 10) = c3S60 := by decide

set_option maxRecDepth 40000 in
unseal Rat.add Rat.sub Rat.mul Rat.inv Rat.ofScientific in
/-- Evaluation of frames 60 to 69 of the C3 trace. -/
theorem c3_chunk6 : siRun (c3S60) (c3Slice 60 10) = c3S70 := by decide

set_option maxRecDepth 40000 in
unseal Rat.add Rat.sub Rat.mul Rat.inv Rat.ofScientific in
/-- Evaluation of frames 70 to 79 of the C3 trace. -/
theorem c3_chunk7 : siRun (c3S70) (c3Slice 70 10) = c3S80 := by decide

set_option maxRecDepth 40000 in
unseal Rat.add Rat.sub Rat.mul Rat.inv Rat.ofScientific in
/-- Evaluation of frames 80 to 89 of the C3 trace. -/
theorem c3_chunk8 : siRun (c3S80) (c3Slice 80 10) = c3S90 := by decide

set_option maxRecDepth 40000 in
unseal Rat.add Rat.sub Rat.mul Rat.inv Rat.ofScientific in
/-- Evaluation of frames 90 to 99 of the C3 trace. -/
theorem c3_chunk9 : siRun (c3S90) (c3Slice 90 10) = c3S100 := by decide

set_option maxRecDepth 40000 in
unseal Rat.add Rat.sub Rat.mul Rat.inv Rat.ofScientific in
/-- Evaluation of frames 100 to 109 of the C3 trace. -/
theorem c3_chunk10 : siRun (c3S100) (c3Slice 100 10) = c3S110 := by decide

set_option maxRecDepth 40000 in
unseal Rat.add Rat.sub Rat.mul Rat.inv Rat.ofScientific in
/-- Evaluation of frames 110 to 119 of the C3 trace. -/
theorem c3_chunk11 : siRun (c3S110) (c3Slice 110 10) = c3S120 := by decide

set_option maxRecDepth 40000 in
unseal Rat.add Rat.sub Rat.mul Rat.inv Rat.ofScientific in
/-- Evaluation of frames 120 to 129 of the C3 trace. -/
theorem c3_chunk12 : siRun (c3S120) (c3Slice 120 10) = c3S130 := by decide

set_option maxRecDepth 40000 in
unseal Rat.add Rat.sub Rat.mul Rat.inv Rat.ofScientific in
/-- Evaluation of frames 130 to 139 of the C3 trace. -/
theorem c3_chunk13 : siRun (c3S130) (c3Slice 130 10) = c3S140 := by decide

set_option maxRecDepth 40000 in
unseal Rat.add Rat.sub Rat.mul Rat.inv Rat.ofScientific in
/-- Evaluation of frames 140 to 149 of the C3 trace. -/
theorem c3_chunk14 : siRun (c3S140) (c3Slice 140 10) = c3S150 := by decide

set_option maxRecDepth 40000 in
unseal Rat.add Rat.sub Rat.mul Rat.inv Rat.ofScientific in
/-- Evaluation of frames 150 to 159 of the C3 trace. -/
theorem c3_chunk15 : siRun (c3S150) (c3Slice 150 10) = c3S160 := by decide

set_option maxRecDepth 40000 in
unseal Rat.add Rat.sub Rat.mul Rat.inv Rat.ofScientific in
/-- Evaluation of frames 160 to 169 of the C3 trace. -/
theorem c3_chunk16 : siRun (c3S160) (c3Slice 160 10) = c3S170 := by decide

set_option maxRecDepth 40000 in
unseal Rat.add Rat.sub Rat.mul Rat.inv Rat.ofScientific in
/-- Evaluation of frames 170 to 179 of the C3 trace. -/
theorem c3_chunk17 : siRun (c3S170) (c3Slice 170 10) = c3S180 := by decide

set_option maxRecDepth 40000 in
unseal Rat.add Rat.sub Rat.mul Rat.inv Rat.ofScientific in
/-- Evaluation of frames 180 to 189 of the C3 trace. -/
theorem c3_chunk18 : siRun (c3S180) (c3Slice 180 10) = c3S190 := by decide

set_option maxRecDepth 40000 in
unseal Rat.add Rat.sub Rat.mul Rat.inv Rat.ofScientific in
/-- Evaluation of frames 190 to 199 of the C3 trace. -/
theorem c3_chunk19 : siRun (c3S190) (c3Slice 190 10) = c3S200 := by decide

set_option maxRecDepth 40000 in
unseal Rat.add Rat.sub Rat.mul Rat.inv Rat.ofScientific in
/-- Evaluation of frames 200 to 209 of the C3 trace. -/
theorem c3_chunk20 : siRun (c3S200) (c3Slice 200 10) = c3S210 := by decide

set_option maxRecDepth 40000 in
unseal Rat.add Rat.sub Rat.mul Rat.inv Rat.ofScientific in
/-- Evaluation of frames 210 to 219 of the C3 trace. -/
theorem c3_chunk21 : siRun (c3S210) (c3Slice 210 10) = c3S220 := by decide

set_option maxRecDepth 40000 in
unseal Rat.add Rat.sub Rat.mul Rat.inv Rat.ofScientific in
/-- Evaluation of frames 220 to 229 of the C3 trace. -/
theorem c3_chunk22 : siRun (c3S220) (c3Slice 220 10) = c3S230 := by decide

set_option maxRecDepth 40000 in
unseal Rat.add Rat.sub Rat.mul Rat.inv Rat.ofScientific in
/-- Evaluation of frames 230 to 239 of the C3 trace. -/
theorem c3_chunk23 : siRun (c3S230) (c3Slice 230 10) = c3S240 := by decide

set_option maxRecDepth 40000 in
unseal Rat.add Rat.sub Rat.mul Rat.inv Rat.ofScientific in
/-- Evaluation of frames 240 to 249 of the C3 trace. -/
theorem c3_chunk24 : siRun (c3S240) (c3Slice 240 10) = c3S250 := by decide

set_option maxRecDepth 40000 in
unseal Rat.add Rat.sub Rat.mul Rat.inv Rat.ofScientific in
/-- Evaluation of frames 250 to 259 of the C3 trace. -/
theorem c3_chunk25 : siRun (c3S250) (c3Slice 250 10) = c3S260 := by decide

set_option maxRecDepth 40000 in
unseal Rat.add Rat.sub Rat.mul Rat.inv Rat.ofScientific in
/-- Evaluation of frames 260 to 269 of the C3 trace. -/
theorem c3_chunk26 : siRun (c3S260) (c3Slice 260 10) = c3S270 := by decide

set_option maxRecDepth 40000 in
unseal Rat.add Rat.sub Rat.mul Rat.inv Rat.ofScientific in
/-- Evaluation of frames 270 to 279 of the C3 trace. -/
theorem c3_chunk27 : siRun (c3S270) (c3Slice 270 10) = c3S280 := by decide

set_option maxRecDepth 40000 in
unseal Rat.add Rat.sub Rat.mul Rat.inv Rat.ofScientific in
/-- Evaluation of frames 280 to 289 of the C3 trace. -/
theorem c3_chunk28 : siRun (c3S280) (c3Slice 280 10) = c3S290 := by decide

set_option maxRecDepth 40000 in
unseal Rat.add Rat.sub Rat.mul Rat.inv Rat.ofScientific in
/-- Evaluation of frames 290 to 294 of the C3 trace. -/
theorem c3_chunk29 : siRun (c3S290) (c3Slice 290 5) = c3S295 := by decide

/-- C3 counterexample: a state reachable from `Load` by 295 `Update`
frames in which the loss flag and the win flag are BOTH true: the last
active invader is destroyed and the last life is lost in the same frame,
and the win check (which runs after the loss check and is not guarded by
it) also fires. -/
theorem si_both_flags_reachable :
    (siRun (siLoad 1280 720) c3Inputs).gameOver = true ∧
    (siRun (siLoad 1280 720) c3Inputs).gameWon = true := by
  have h : siRun (siLoad 1280 720) c3Inputs = c3S295 := by
    rw [c3Inputs_split]
    rw [siRun_append, c3_chunk0]
    rw [siRun_append, c3_chunk1]
    rw [siRun_append, c3_chunk2]
    rw [siRun_append, c3_chunk3]
    rw [siRun_append, c3_chunk4]
    rw [siRun_append, c3_chunk5]
    rw [siRun_append, c3_chunk6]
    rw [siRun_append, c3_chunk7]
    rw [siRun_append, c3_chunk8]
    rw [siRun_append, c3_chunk9]
    rw [siRun_append, c3_chunk10]
    rw [siRun_append, c3_chunk11]
    rw [siRun_append, c3_chunk12]
    rw [siRun_append, c3_chunk13]
    rw [siRun_append, c3_chunk14]
    rw [siRun_append, c3_chunk15]
    rw [siRun_append, c3_chunk16]
    rw [siRun_append, c3_chunk17]
    rw [siRun_append, c3_chunk18]
    rw [siRun_append, c3_chunk19]
    rw [siRun_append, c3_chunk20]
    rw [siRun_append, c3_chunk21]
    rw [siRun_append, c3_chunk22]
    rw [siRun_append, c3_chunk23]
    rw [siRun_append, c3_chunk24]
    rw [siRun_append, c3_chunk25]
    rw [siRun_append, c3_chunk26]
    rw [siRun_append, c3_chunk27]
    rw [siRun_append, c3_chunk28]
    exact c3_chunk29
  rw [h]
  exact ⟨rfl, rfl⟩

end Bakra
